import Mathlib

/-!
# Onopay gateway client: signed requests, verified responses

A shallow embedding of `src/onopay_handler.php` (class `OnopayIndiaGateway`, namespace
`Onopay`) and of the user store of `src/auth.js` (function `register`, namespace `Auth`).

Modelling choices, all visible in the definitions below:

* A PHP array is an association list in insertion order; keys are integers or
  strings, as in PHP.
* Field values are `null`, booleans, integers, floats, strings or nested arrays:
  everything a posted callback or a decoded JSON reply can carry.  A float value
  comes with the string PHP converts it to.
* PHP 8 on a 64-bit platform, without `strict_types`: scalar arguments are
  converted to a declared `string` parameter, an array argument raises `TypeError`.
* `hash('sha512', _)` is a parameter `H : String → String` of every definition
  that hashes; nothing is assumed about it unless a theorem says so.
* Amounts (`float $amount`) are finite values, the two infinities or NAN; a
  finite value is a rational (every double is one).  The rounding step of
  `number_format` works on doubles and is a parameter `rnd`; `roundHalfUp` is
  the exact half-up rounding of rationals.
* The outside world (transport, sleep, form output) is an explicit event trace.
-/

namespace Onopay

/-! ## Values and arrays -/

/-- Array keys of PHP: integers or strings. -/
inductive PhpKey where
  | int (i : Int)
  | str (s : String)
  deriving DecidableEq, Repr

/-- A PHP float: a finite value, the two infinities, or NAN. -/
inductive PhpFloat where
  | finite (q : ℚ)
  | inf
  | negInf
  | nan
  deriving DecidableEq, Repr

/-- Comparison `$a <= $b` of floats: false as soon as one side is NAN. -/
def PhpFloat.le : PhpFloat → PhpFloat → Bool
  | PhpFloat.finite a, PhpFloat.finite b => decide (a ≤ b)
  | PhpFloat.finite _, PhpFloat.inf => true
  | PhpFloat.negInf, PhpFloat.finite _ => true
  | PhpFloat.negInf, PhpFloat.negInf => true
  | PhpFloat.negInf, PhpFloat.inf => true
  | PhpFloat.inf, PhpFloat.inf => true
  | _, _ => false

/-- Comparison `$a < $b` of floats: false as soon as one side is NAN. -/
def PhpFloat.lt : PhpFloat → PhpFloat → Bool
  | PhpFloat.finite a, PhpFloat.finite b => decide (a < b)
  | PhpFloat.finite _, PhpFloat.inf => true
  | PhpFloat.negInf, PhpFloat.finite _ => true
  | PhpFloat.negInf, PhpFloat.inf => true
  | _, _ => false

instance : LE PhpFloat := ⟨fun a b => PhpFloat.le a b = true⟩

instance : LT PhpFloat := ⟨fun a b => PhpFloat.lt a b = true⟩

instance (a b : PhpFloat) : Decidable (a ≤ b) :=
  inferInstanceAs (Decidable (PhpFloat.le a b = true))

instance (a b : PhpFloat) : Decidable (a < b) :=
  inferInstanceAs (Decidable (PhpFloat.lt a b = true))

instance (n : Nat) : OfNat PhpFloat n := ⟨PhpFloat.finite (n : ℚ)⟩

mutual
/-- Field values.  A float carries, next to its value, the string PHP converts it to. -/
inductive PhpVal where
  | null
  | bool (b : Bool)
  | int (i : Int)
  | float (value : PhpFloat) (text : String)
  | str (s : String)
  | arr (items : PhpItems)
  deriving DecidableEq, Repr
/-- The entries of a nested array, in order. -/
inductive PhpItems where
  | nil
  | cons (k : PhpKey) (v : PhpVal) (rest : PhpItems)
  deriving DecidableEq, Repr
end

/-- An ordered PHP array: key/value pairs in insertion order. -/
abbrev PhpArray := List (PhpKey × PhpVal)

/-- The keys of an array, in order. -/
def arrayKeys (a : PhpArray) : List PhpKey := a.map Prod.fst

/-- Reading `$a[k] ?? null`: the stored value, `null` when the key is absent. -/
def arrayGet (a : PhpArray) (k : PhpKey) : PhpVal := (a.lookup k).getD PhpVal.null

/-- PHP `isset($a[k])`: the key is present and its value is not `null`. -/
def isset (a : PhpArray) (k : PhpKey) : Bool :=
  match arrayGet a k with
  | PhpVal.null => false
  | _ => true

/-- PHP `empty($s)` on a string: the empty string and "0" are empty. -/
def emptyString (s : String) : Bool := s == "" || s == "0"

/-- PHP `empty($v)` on a value. -/
def phpEmpty : PhpVal → Bool
  | PhpVal.null => true
  | PhpVal.bool b => !b
  | PhpVal.int i => i == 0
  | PhpVal.float value _ => value == PhpFloat.finite 0
  | PhpVal.str s => emptyString s
  | PhpVal.arr items => items == PhpItems.nil

/-- Whether a value is an array. -/
def isArray : PhpVal → Bool
  | PhpVal.arr _ => true
  | _ => false

/-- Assignment `$a[k] = v`: overwrite in place when the key exists, else append. -/
def arraySet (a : PhpArray) (k : PhpKey) (v : PhpVal) : PhpArray :=
  if a.any (fun p => p.1 == k) then a.map (fun p => if p.1 == k then (p.1, v) else p)
  else a ++ [(k, v)]

/-- PHP `unset($a[k])`. -/
def arrayUnset (a : PhpArray) (k : PhpKey) : PhpArray := a.filter (fun p => p.1 != k)

/-- Worker of `array_merge`: string keys assign, integer keys are renumbered from `next`. -/
def mergeInto (acc : PhpArray) (next : Int) : PhpArray → PhpArray
  | [] => acc
  | (PhpKey.int _, v) :: rest => mergeInto (acc ++ [(PhpKey.int next, v)]) (next + 1) rest
  | (PhpKey.str s, v) :: rest => mergeInto (arraySet acc (PhpKey.str s) v) next rest

/-- PHP `array_merge($a, $b)`. -/
def array_merge (a b : PhpArray) : PhpArray := mergeInto [] 0 (a ++ b)

/-- String conversion of a value, as `implode` applies it (an array becomes "Array", with a
warning and no exception). -/
def strval : PhpVal → String
  | PhpVal.null => ""
  | PhpVal.bool b => if b then "1" else ""
  | PhpVal.int i => toString i
  | PhpVal.float _ text => text
  | PhpVal.str s => s
  | PhpVal.arr _ => "Array"

/-- PHP `implode($glue, $pieces)`. -/
def implode (glue : String) : List String → String
  | [] => ""
  | [x] => x
  | x :: y :: rest => x ++ glue ++ implode glue (y :: rest)

/-- The exception classes of the file, each carrying its message, and `typeError` for the
`TypeError` PHP itself raises (not a class of the file). -/
inductive OnopayException where
  | configuration (msg : String)
  | request (msg : String)
  | response (msg : String)
  | security (msg : String)
  | upi (msg : String)
  | mandate (msg : String)
  | network (msg : String)
  | typeError (msg : String)
  deriving DecidableEq, Repr

deriving instance DecidableEq for Except

/-- PHP `hash_equals($known, $user)` with a string `$user`: a `$known` that is not a string
raises `TypeError`, whatever its type. -/
def hash_equals : PhpVal → String → Except OnopayException Bool
  | PhpVal.str known, user => Except.ok (known == user)
  | _, _ => Except.error (OnopayException.typeError
      "hash_equals(): Argument #1 ($known_string) must be of type string")

/-- Passing a value to a parameter declared `?string`: `null` and strings pass, other scalars
are converted to their string, an array raises `TypeError`. -/
def toNullableString (what : String) : PhpVal → Except OnopayException (Option String)
  | PhpVal.null => Except.ok none
  | PhpVal.arr _ => Except.error (OnopayException.typeError
      (what ++ " must be of type ?string, array given"))
  | v => Except.ok (some (strval v))

/-- Passing a value to a parameter declared `string`: as for `?string`, with `null` converted
to the empty string. -/
def toStringArgument (what : String) : PhpVal → Except OnopayException String
  | PhpVal.arr _ => Except.error (OnopayException.typeError
      (what ++ " must be of type string, array given"))
  | v => Except.ok (strval v)

/-! ## Loose comparison of strings (`==`, used by `in_array`) -/

/-- Whitespace that may surround a numeric string. -/
def isPhpSpace (c : Char) : Bool :=
  c == ' ' || c == '\t' || c == '\n' || c == '\r' || c.toNat == 11 || c.toNat == 12

/-- Value of a run of decimal digits. -/
def digitsValue (cs : List Char) : Nat := cs.foldl (fun n c => 10 * n + (c.toNat - 48)) 0

/-- Exponent part of a numeric string: empty, or `e`/`E`, optional sign, digits. -/
def exponentValue : List Char → Option Int
  | [] => some 0
  | c :: rest =>
    if c == 'e' || c == 'E' then
      match rest with
      | '+' :: ds => if !ds.isEmpty && ds.all Char.isDigit then some (digitsValue ds) else none
      | '-' :: ds => if !ds.isEmpty && ds.all Char.isDigit then some (-(digitsValue ds : Int)) else none
      | ds => if !ds.isEmpty && ds.all Char.isDigit then some (digitsValue ds) else none
    else none

/-- Unsigned part of a numeric string: digits, optional fraction, optional exponent. -/
def unsignedValue (cs : List Char) : Option ℚ :=
  let whole := cs.takeWhile Char.isDigit
  let rest := cs.dropWhile Char.isDigit
  let frac := match rest with
    | '.' :: more => more.takeWhile Char.isDigit
    | _ => []
  let tail := match rest with
    | '.' :: more => more.dropWhile Char.isDigit
    | other => other
  if whole.isEmpty && frac.isEmpty then none
  else
    match exponentValue tail with
    | none => none
    | some e =>
      let mantissa : ℚ := (digitsValue whole : ℚ) + (digitsValue frac : ℚ) / (10 : ℚ) ^ frac.length
      some (mantissa * (10 : ℚ) ^ e)

/-- Numeric value of a numeric string (is_numeric of PHP 8: surrounding whitespace, sign,
digits, fraction, exponent), `none` for any other string.  Values are exact rationals. -/
def numericValue (s : String) : Option ℚ :=
  let cs := (s.data.dropWhile isPhpSpace).reverse.dropWhile isPhpSpace |>.reverse
  match cs with
  | '+' :: rest => unsignedValue rest
  | '-' :: rest => (unsignedValue rest).map (fun q => -q)
  | other => unsignedValue other

/-- What PHP makes of a numeric string: an integer or a double, whether an integer
notation left the 64-bit range (`oflow` is 1 or -1 by the sign, else 0), and the exact value
written. -/
structure NumericString where
  isDouble : Bool
  oflow : Int
  value : ℚ
  deriving DecidableEq, Repr

/-- Classification of a numeric string: digits alone give an integer when they fit 64 bits
(at most 19 significant digits, below 9223372036854775808, or equal to it with a minus sign);
twenty or more significant leading digits, or a value out of range, give a double marked as
overflown; a fraction or an exponent gives a double. -/
def numericString (s : String) : Option NumericString :=
  let cs := (s.data.dropWhile isPhpSpace).reverse.dropWhile isPhpSpace |>.reverse
  let negative := cs.head? == some '-'
  let body := match cs with
    | '+' :: rest => rest
    | '-' :: rest => rest
    | other => other
  let run := body.takeWhile Char.isDigit
  let significant := (run.dropWhile (fun c => c == '0')).length
  let side : Int := if negative then -1 else 1
  match numericValue s with
  | none => none
  | some v =>
    if significant ≥ 20 then some { isDouble := true, oflow := side, value := v }
    else if run.length = body.length then
      if significant = 19 ∧ ¬ (digitsValue run < 9223372036854775808
          ∨ (digitsValue run = 9223372036854775808 ∧ negative = true)) then
        some { isDouble := true, oflow := side, value := v }
      else some { isDouble := false, oflow := 0, value := v }
    else some { isDouble := true, oflow := 0, value := v }

/-- Rounding of `num / den` to the nearest integer, ties to the even one. -/
def roundNearestEven (num den : Nat) : Nat :=
  let q := num / den
  let r := num % den
  if 2 * r > den then q + 1 else if 2 * r = den then q + q % 2 else q

/-- The integer `e` with `2 ^ e ≤ n / d < 2 ^ (e + 1)`, for positive `n` and `d`. -/
def floorLog2 (n d : Nat) : Int :=
  let e : Int := (Nat.log2 n : Int) - (Nat.log2 d : Int)
  if e ≥ 0 then (if d * 2 ^ e.toNat ≤ n then e else e - 1)
  else (if d ≤ n * 2 ^ (-e).toNat then e else e - 1)

/-- The double nearest to a rational (IEEE 754 binary64, ties to even), as `zend_strtod` and
the conversion of an integer to float yield it: 53 significant bits, subnormals below
`2 ^ -1022`, infinity from `2 ^ 1024` on. -/
def toDouble (q : ℚ) : PhpFloat :=
  if q = 0 then PhpFloat.finite 0
  else
    let n := q.num.natAbs
    let d := q.den
    let e := max (floorLog2 n d) (-1022)
    let s : Int := 52 - e
    let m := if s ≥ 0 then roundNearestEven (n * 2 ^ s.toNat) d
      else roundNearestEven n (d * 2 ^ (-s).toNat)
    let v : ℚ := if s ≥ 0 then (m : ℚ) / ((2 ^ s.toNat : Nat) : ℚ)
      else (m : ℚ) * ((2 ^ (-s).toNat : Nat) : ℚ)
    if v ≥ ((2 ^ 1024 : Nat) : ℚ) then (if q < 0 then PhpFloat.negInf else PhpFloat.inf)
    else PhpFloat.finite (if q < 0 then -v else v)

/-- PHP `$a == $b` on two strings (`zendi_smart_streq`): when both are numeric strings they are
compared as integers, or as doubles when one of them is a double; two integer notations that
overflow on the same side, and two doubles that are the same infinity, are compared as strings;
an overflown integer notation never equals an integer.  Every other pair is compared as
strings. -/
def looseEq (a b : String) : Bool :=
  match numericString a, numericString b with
  | some x, some y =>
    if (x.oflow ≠ 0 ∨ y.oflow ≠ 0) ∧ x.oflow = y.oflow then a == b
    else if x.isDouble || y.isDouble then
      if !x.isDouble then
        (if y.oflow ≠ 0 then false else toDouble x.value == toDouble y.value)
      else if !y.isDouble then
        (if x.oflow ≠ 0 then false else toDouble x.value == toDouble y.value)
      else if toDouble x.value == toDouble y.value
          && (toDouble x.value == PhpFloat.inf || toDouble x.value == PhpFloat.negInf) then
        a == b
      else toDouble x.value == toDouble y.value
    else x.value == y.value
  | _, _ => a == b

/-- PHP `in_array($needle, $haystack)` (loose) for a nullable string needle and string literals;
`null == "s"` holds only for the empty string. -/
def in_array (needle : Option String) (haystack : List String) : Bool :=
  match needle with
  | none => haystack.any (fun h => h == "")
  | some s => haystack.any (fun h => looseEq s h)

/-! ## Regular expressions used by the validators -/

/-- The assertion `$` of PCRE without the `D` modifier: at the very end of the subject, or
just before a newline that is its last character. -/
def dollarAssertion (rest : List Char) : Bool := rest == [] || rest == ['\n']

/-- Character class `[A-Z]`. -/
def isUpperAZ (c : Char) : Bool := 'A' ≤ c && c ≤ 'Z'

/-- Character class `[A-Z0-9]`. -/
def isUpperAZ09 (c : Char) : Bool := isUpperAZ c || c.isDigit

/-- Result of `preg_match('/^[0-9]{10}$/', $s)` being 1. -/
def pregMatchPhone (s : String) : Bool :=
  let cs := s.data
  decide (10 ≤ cs.length) && (cs.take 10).all Char.isDigit && dollarAssertion (cs.drop 10)

/-- Result of `preg_match('/^[A-Z]{4}0[A-Z0-9]{6}$/', $s)` being 1. -/
def pregMatchIfsc (s : String) : Bool :=
  let cs := s.data
  decide (11 ≤ cs.length) && (cs.take 4).all isUpperAZ && ((cs.drop 4).take 1 == ['0'])
    && ((cs.drop 5).take 6).all isUpperAZ09 && dollarAssertion (cs.drop 11)

/-- Exact rounding of a non-negative rational to `decimals` places, half up, as a count of
units of the last place. -/
def roundHalfUp (magnitude : ℚ) (decimals : Nat) : Nat :=
  (Rat.floor (magnitude * (10 : ℚ) ^ decimals + 1 / 2)).toNat

/-- The call `number_format($num, $decimals, '.', '')`.  The sign is taken off, the magnitude
is rounded to `decimals` places and printed with `%.*f`; `rnd magnitude decimals` is the
integer formed by the digits so printed (the rounded magnitude in units of the last place).
A value that is not finite prints as "inf" or "nan"; a result that rounds to zero carries no
sign; there is no thousands separator. -/
def number_format (rnd : ℚ → Nat → Nat) (num : PhpFloat) (decimals : Nat) : String :=
  match num with
  | PhpFloat.nan => "nan"
  | PhpFloat.inf => "inf"
  | PhpFloat.negInf => "inf"
  | PhpFloat.finite q =>
    let magnitude : ℚ := if q < 0 then -q else q
    let scaled : Nat := rnd magnitude decimals
    let whole := scaled / 10 ^ decimals
    let frac := toString (scaled % 10 ^ decimals)
    let fracPadded := String.mk (List.replicate (decimals - frac.length) '0') ++ frac
    let body := if decimals = 0 then toString whole else toString whole ++ "." ++ fracPadded
    if q < 0 ∧ scaled ≠ 0 then "-" ++ body else body

/-! ## Configuration, errors, effects -/

/-- The configured state of an `OnopayIndiaGateway` object (its private properties). -/
structure OnopayIndiaGateway where
  merchantId : String
  apiKey : String
  saltKeyRequest : String
  saltKeyResponse : String
  paymentInitiateUrl : String
  paymentStatusUrl : String
  refundInitiateUrl : String
  upiCollectUrl : String
  mandateUrl : String
  debugMode : Bool
  gstEnabled : Bool
  gstNumber : String
  panNumber : String
  tdsPercentage : ℚ

/-- Observable effects: one transport call, one sleep, or the output of the redirect form. -/
inductive Event where
  | curlExec (url : String) (postFields : Option PhpArray) (headers : List String)
  | sleep (seconds : Nat)
  | renderPaymentForm (action : String) (requestData : PhpArray)
  deriving DecidableEq, Repr

/-- What one transport call yields: `curl_exec`, `curl_error`, and the HTTP status. -/
structure CurlResult where
  response : String
  error : String
  httpCode : Nat
  deriving DecidableEq, Repr

/-- Constant `ONOPAY_MAX_RETRIES`. -/
def ONOPAY_MAX_RETRIES : Nat := 3

/-- Constant `ONOPAY_RETRY_DELAY`, in seconds. -/
def ONOPAY_RETRY_DELAY : Nat := 2

/-- Constant `ONOPAY_SUPPORTED_PAYMENT_METHODS`. -/
def ONOPAY_SUPPORTED_PAYMENT_METHODS : List String :=
  ["upi", "netbanking", "card", "wallet", "nb", "credit_card", "debit_card"]

/-- Shorthand for a string key. -/
abbrev key (s : String) : PhpKey := PhpKey.str s

/-! ## Checksum -/

/-- The local `$fieldsToHash` of `generateIndianChecksum`. -/
def fieldsToHash : List String :=
  ["merchant_id", "api_key", "order_id", "amount", "currency",
   "customer_email", "customer_phone", "payment_method", "gst_number"]

/-- The local `$checksumValues`: values of the hashed fields that are set, in field order. -/
def checksumValues (data : PhpArray) : List String :=
  fieldsToHash.filterMap (fun k => if isset data (key k) then some (strval (arrayGet data (key k))) else none)

/-- The local `$finalStringToHash`. -/
def finalStringToHash (gw : OnopayIndiaGateway) (data : PhpArray) : String :=
  implode "|" (checksumValues data) ++ "|" ++ gw.saltKeyRequest

/-- Method `generateIndianChecksum`. -/
def generateIndianChecksum (H : String → String) (gw : OnopayIndiaGateway) (data : PhpArray) : String :=
  H (finalStringToHash gw data)

/-- Method `verifyIndianResponseChecksum`. -/
def verifyIndianResponseChecksum (H : String → String) (gw : OnopayIndiaGateway)
    (responseData : PhpArray) : Except OnopayException Unit :=
  if phpEmpty (arrayGet responseData (key "checksum")) then
    Except.error (OnopayException.security "Checksum missing in response")
  else
    let receivedChecksum := arrayGet responseData (key "checksum")
    let responseData := arrayUnset responseData (key "checksum")
    let calculatedChecksum := generateIndianChecksum H gw responseData
    match hash_equals receivedChecksum calculatedChecksum with
    | Except.error e => Except.error e
    | Except.ok equal =>
      if !equal then
        Except.error (OnopayException.security "Checksum verification failed. Possible tampering.")
      else Except.ok ()

/-! ## Response handling -/

/-- Method `interpretIndianStatusCode`; its parameter is declared `?string`. -/
def interpretIndianStatusCode (statusCode : Option String) : String :=
  if in_array statusCode ["00", "SUCCESS", "TXN_SUCCESS"] then "success"
  else if in_array statusCode ["01", "FAILURE", "TXN_FAILURE"] then "failed"
  else if in_array statusCode ["02", "PENDING", "TXN_PENDING"] then "pending"
  else if statusCode = some "UPI_PENDING" then "upi_pending"
  else "unknown"

/-- A field of the result written `$x ?? 0`: the response value when set, else integer zero. -/
inductive OrZero where
  | val (v : PhpVal)
  | zero
  deriving DecidableEq, Repr

/-- The array returned by `handleIndianPaymentResponse`, one field per key. -/
structure PaymentResult where
  status : String
  message : PhpVal
  order_id : PhpVal
  transaction_id : PhpVal
  payment_method : PhpVal
  upi_reference : PhpVal
  bank_reference : PhpVal
  raw_response : PhpArray
  gst_amount : OrZero
  tds_amount : OrZero
  invoice_number : PhpVal
  deriving DecidableEq, Repr

/-- The expression `$a[k] ?? 0`. -/
def getOrZero (a : PhpArray) (k : PhpKey) : OrZero :=
  if isset a k then OrZero.val (arrayGet a k) else OrZero.zero

/-- Method `handleIndianPaymentResponse`. -/
def handleIndianPaymentResponse (H : String → String) (gw : OnopayIndiaGateway)
    (responseData : PhpArray) : Except OnopayException PaymentResult :=
  if responseData.isEmpty then
    Except.error (OnopayException.response "Received empty response from payment gateway")
  else
    match verifyIndianResponseChecksum H gw responseData with
    | Except.error e => Except.error e
    | Except.ok () =>
      let orderId := arrayGet responseData (key "order_id")
      let transactionId := arrayGet responseData (key "transaction_id")
      let statusCode := arrayGet responseData (key "status_code")
      let responseMessage :=
        if isset responseData (key "message") then arrayGet responseData (key "message")
        else PhpVal.str "No message from gateway"
      let paymentMethod := arrayGet responseData (key "payment_method")
      let upiReference := arrayGet responseData (key "upi_reference_id")
      let bankReference := arrayGet responseData (key "bank_reference_number")
      match toNullableString
          "OnopayIndiaGateway::interpretIndianStatusCode(): Argument #1 ($statusCode)"
          statusCode with
      | Except.error e => Except.error e
      | Except.ok code =>
      let status := interpretIndianStatusCode code
      Except.ok {
        status := status
        message := responseMessage
        order_id := orderId
        transaction_id := transactionId
        payment_method := paymentMethod
        upi_reference := upiReference
        bank_reference := bankReference
        raw_response := responseData
        gst_amount := getOrZero responseData (key "gst_amount")
        tds_amount := getOrZero responseData (key "tds_amount")
        invoice_number := arrayGet responseData (key "invoice_number") }

/-! ## Validation -/

/-- Method `validateIndianPaymentParameters`. -/
def validateIndianPaymentParameters (gw : OnopayIndiaGateway) (orderId : String) (amount : PhpFloat)
    (customerPhone : String) : Except OnopayException Unit :=
  if emptyString orderId then
    Except.error (OnopayException.request "Order ID cannot be empty")
  else if amount ≤ 0 then
    Except.error (OnopayException.request "Amount must be greater than zero")
  else if !pregMatchPhone customerPhone then
    Except.error (OnopayException.request "Indian phone number must be 10 digits")
  else if amount > 200000 ∧ emptyString gw.panNumber = true then
    Except.error (OnopayException.request "PAN number is required for transactions above 2 lakh INR")
  else Except.ok ()

/-- Method `validateUPIParameters`. -/
def validateUPIParameters (orderId : String) (amount : PhpFloat)
    (customerPhone : String) : Except OnopayException Unit :=
  if emptyString orderId then
    Except.error (OnopayException.request "Order ID cannot be empty for UPI payment")
  else if amount ≤ 0 then
    Except.error (OnopayException.request "Amount must be greater than zero for UPI payment")
  else if !pregMatchPhone customerPhone then
    Except.error (OnopayException.request "Indian phone number must be 10 digits for UPI payment")
  else if amount > 100000 then
    Except.error (OnopayException.request "UPI payments are limited to 1 lakh INR per transaction")
  else Except.ok ()

/-- Method `validateMandateParameters`. -/
def validateMandateParameters (orderId : String) (amount : PhpFloat) (customerPhone : String)
    (bankAccount : String) (ifsc : String) (mandateType : String) : Except OnopayException Unit :=
  let _ := bankAccount
  if emptyString orderId then
    Except.error (OnopayException.request "Mandate ID cannot be empty")
  else if amount ≤ 0 then
    Except.error (OnopayException.request "Amount must be greater than zero for mandate")
  else if !pregMatchPhone customerPhone then
    Except.error (OnopayException.request "Indian phone number must be 10 digits for mandate")
  else if !pregMatchIfsc ifsc then
    Except.error (OnopayException.request "Invalid IFSC code format")
  else if !in_array (some mandateType) ["nach", "upi_autopay"] then
    Except.error (OnopayException.request "Invalid mandate type. Must be \x27nach\x27 or \x27upi_autopay\x27")
  else Except.ok ()

/-! ## Dispatch -/

/-- PHP `strtoupper`: ASCII letters to upper case, every other character unchanged. -/
def strtoupper (s : String) : String := String.mk (s.data.map Char.toUpper)

/-- Truth value of a string in a condition: everything but the empty string and "0". -/
def stringTruthy (s : String) : Bool := !emptyString s

/-- Method `executeCurlRequest`.  `transport n` is what the `n`-th transport call of the
enclosing action yields; `calls` counts the transport calls made so far. -/
def executeCurlRequest (transport : Nat → CurlResult) (calls : Nat) (url : String)
    (postData : PhpArray) (method : String) (headers : List String) (retry : Nat) :
    Except OnopayException String × List Event :=
  let postFields := if strtoupper method == "POST" then some postData else none
  let call := Event.curlExec url postFields headers
  let reply := transport calls
  if stringTruthy reply.error || decide (reply.httpCode ≥ 500) then
    if retry < ONOPAY_MAX_RETRIES then
      let next := executeCurlRequest transport (calls + 1) url postData method headers (retry + 1)
      (next.1, call :: Event.sleep ONOPAY_RETRY_DELAY :: next.2)
    else
      (Except.error (OnopayException.network ("cURL error after retries: " ++ reply.error)), [call])
  else (Except.ok reply.response, [call])
termination_by ONOPAY_MAX_RETRIES - retry

/-! ## Building and sending requests -/

/-- Lines 142 to 167 of `initiateIndianPayment`: the field mapping with its checksum. -/
def indianPaymentRequestData (H : String → String) (rnd : ℚ → Nat → Nat) (gw : OnopayIndiaGateway)
    (orderId : String) (amount : PhpFloat) (customerName customerEmail customerPhone redirectUrl paymentMethod
      description : String) (additionalParams : PhpArray) : PhpArray :=
  let requestData : PhpArray := [
    (key "merchant_id", PhpVal.str gw.merchantId),
    (key "api_key", PhpVal.str gw.apiKey),
    (key "order_id", PhpVal.str orderId),
    (key "amount", PhpVal.str (number_format rnd amount 2)),
    (key "currency", PhpVal.str "INR"),
    (key "customer_name", PhpVal.str customerName),
    (key "customer_email", PhpVal.str customerEmail),
    (key "customer_phone", PhpVal.str customerPhone),
    (key "redirect_url", PhpVal.str redirectUrl),
    (key "description", PhpVal.str description),
    (key "payment_method", PhpVal.str paymentMethod),
    (key "country", PhpVal.str "IN"),
    (key "gst_enabled", PhpVal.str (if gw.gstEnabled then "1" else "0")),
    (key "gst_number", PhpVal.str gw.gstNumber),
    (key "pan_number", PhpVal.str gw.panNumber)]
  let requestData :=
    if paymentMethod = "upi" then
      arraySet (arraySet requestData (key "upi_flow") (PhpVal.str "collect"))
        (key "upi_expiry") (PhpVal.str "10")
    else requestData
  let requestData := array_merge requestData additionalParams
  arraySet requestData (key "checksum") (PhpVal.str (generateIndianChecksum H gw requestData))

/-- Method `renderPaymentForm`: the form is written with one hidden input per field, then the
script ends.  `htmlspecialchars` converts a scalar value to its string and raises `TypeError`
on an array value, after the output has begun. -/
def renderPaymentForm (gw : OnopayIndiaGateway) (requestData : PhpArray) :
    Except OnopayException Unit × List Event :=
  (if requestData.any (fun p => isArray p.2) then
      Except.error (OnopayException.typeError
        "htmlspecialchars(): Argument #1 ($string) must be of type string, array given")
    else Except.ok (),
    [Event.renderPaymentForm gw.paymentInitiateUrl requestData])

/-- Method `initiateIndianPayment`; the form output ends the script. -/
def initiateIndianPayment (H : String → String) (rnd : ℚ → Nat → Nat) (gw : OnopayIndiaGateway)
    (orderId : String) (amount : PhpFloat) (customerName customerEmail customerPhone redirectUrl paymentMethod
      description : String) (additionalParams : PhpArray) :
    Except OnopayException Unit × List Event :=
  match validateIndianPaymentParameters gw orderId amount customerPhone with
  | Except.error e => (Except.error e, [])
  | Except.ok () =>
    let requestData := indianPaymentRequestData H rnd gw orderId amount customerName
      customerEmail customerPhone redirectUrl paymentMethod description additionalParams
    renderPaymentForm gw requestData

/-- Lines 286 to 300 of `initiateUPIPayment`: the field mapping with its checksum. -/
def upiRequestData (H : String → String) (rnd : ℚ → Nat → Nat) (gw : OnopayIndiaGateway)
    (orderId : String) (amount : PhpFloat) (customerPhone redirectUrl description upiFlow : String) : PhpArray :=
  let requestData : PhpArray := [
    (key "merchant_id", PhpVal.str gw.merchantId),
    (key "api_key", PhpVal.str gw.apiKey),
    (key "order_id", PhpVal.str orderId),
    (key "amount", PhpVal.str (number_format rnd amount 2)),
    (key "currency", PhpVal.str "INR"),
    (key "customer_phone", PhpVal.str customerPhone),
    (key "redirect_url", PhpVal.str redirectUrl),
    (key "description", PhpVal.str description),
    (key "payment_method", PhpVal.str "upi"),
    (key "upi_flow", PhpVal.str upiFlow),
    (key "upi_expiry", PhpVal.str "10")]
  arraySet requestData (key "checksum") (PhpVal.str (generateIndianChecksum H gw requestData))

/-- Decoding and status check shared in shape by the two API actions: `json_decode` yields
`none` on a JSON error; a decoded value that is not an array is represented by the empty array
(no field of it is set). `wrap` builds the action-specific exception, whose constructor takes
a `string` message. -/
def interpretApiReply (json_decode : String → Option PhpArray) (invalidJson : String)
    (wrap : String → OnopayException) (fallback : String) (response : String) :
    Except OnopayException PhpArray :=
  match json_decode response with
  | none => Except.error (OnopayException.response invalidJson)
  | some responseData =>
    if !isset responseData (key "status")
        || decide (arrayGet responseData (key "status") ≠ PhpVal.str "success") then
      (if isset responseData (key "message") then
        match toStringArgument "Exception::__construct(): Argument #1 ($message)"
            (arrayGet responseData (key "message")) with
        | Except.error e => Except.error e
        | Except.ok message => Except.error (wrap message)
      else Except.error (wrap fallback))
    else Except.ok responseData

/-- Method `initiateUPIPayment`. -/
def initiateUPIPayment (H : String → String) (rnd : ℚ → Nat → Nat) (gw : OnopayIndiaGateway)
    (transport : Nat → CurlResult) (json_decode : String → Option PhpArray) (orderId : String)
    (amount : PhpFloat) (customerPhone redirectUrl description upiFlow : String) :
    Except OnopayException PhpArray × List Event :=
  match validateUPIParameters orderId amount customerPhone with
  | Except.error e => (Except.error e, [])
  | Except.ok () =>
    let requestData := upiRequestData H rnd gw orderId amount customerPhone redirectUrl description
      upiFlow
    let sent := executeCurlRequest transport 0 gw.upiCollectUrl requestData "POST" [] 0
    match sent.1 with
    | Except.error e => (Except.error e, sent.2)
    | Except.ok response =>
      (interpretApiReply json_decode "Invalid JSON response from UPI API" OnopayException.upi
        "UPI payment initiation failed" response, sent.2)

/-- Lines 376 to 395 of `createPaymentMandate`: the field mapping with its checksum. -/
def mandateRequestData (H : String → String) (rnd : ℚ → Nat → Nat) (gw : OnopayIndiaGateway)
    (orderId : String) (amount : PhpFloat) (customerName customerEmail customerPhone bankAccount ifsc mandateType
      frequency startDate endDate : String) : PhpArray :=
  let requestData : PhpArray := [
    (key "merchant_id", PhpVal.str gw.merchantId),
    (key "api_key", PhpVal.str gw.apiKey),
    (key "order_id", PhpVal.str orderId),
    (key "amount", PhpVal.str (number_format rnd amount 2)),
    (key "currency", PhpVal.str "INR"),
    (key "customer_name", PhpVal.str customerName),
    (key "customer_email", PhpVal.str customerEmail),
    (key "customer_phone", PhpVal.str customerPhone),
    (key "bank_account", PhpVal.str bankAccount),
    (key "ifsc_code", PhpVal.str ifsc),
    (key "mandate_type", PhpVal.str mandateType),
    (key "frequency", PhpVal.str frequency),
    (key "start_date", PhpVal.str startDate),
    (key "end_date", PhpVal.str endDate),
    (key "gst_enabled", PhpVal.str (if gw.gstEnabled then "1" else "0")),
    (key "gst_number", PhpVal.str gw.gstNumber)]
  arraySet requestData (key "checksum") (PhpVal.str (generateIndianChecksum H gw requestData))

/-- Method `createPaymentMandate`. -/
def createPaymentMandate (H : String → String) (rnd : ℚ → Nat → Nat) (gw : OnopayIndiaGateway)
    (transport : Nat → CurlResult) (json_decode : String → Option PhpArray) (orderId : String)
    (amount : PhpFloat) (customerName customerEmail customerPhone bankAccount ifsc mandateType
      frequency startDate endDate : String) :
    Except OnopayException PhpArray × List Event :=
  match validateMandateParameters orderId amount customerPhone bankAccount ifsc mandateType with
  | Except.error e => (Except.error e, [])
  | Except.ok () =>
    let requestData := mandateRequestData H rnd gw orderId amount customerName customerEmail
      customerPhone bankAccount ifsc mandateType frequency startDate endDate
    let sent := executeCurlRequest transport 0 gw.mandateUrl requestData "POST" [] 0
    match sent.1 with
    | Except.error e => (Except.error e, sent.2)
    | Except.ok response =>
      (interpretApiReply json_decode "Invalid JSON response from Mandate API"
        OnopayException.mandate "Mandate creation failed" response, sent.2)

end Onopay

/-! # User store of `src/auth.js` -/

namespace Auth

/-- The argument of `register`: the two properties the function reads, each a string or
`undefined` (`none`), and the remaining own properties the spread copies. -/
structure UserData where
  username : Option String
  email : Option String
  rest : List (String × String)
  deriving DecidableEq, Repr

/-- An element of the module-level array `users`: the copied properties, then `id` and
`createdAt`. -/
structure User where
  username : Option String
  email : Option String
  rest : List (String × String)
  id : String
  createdAt : String
  deriving DecidableEq, Repr

/-- The object `register` returns. -/
structure RegisterResult where
  success : Bool
  message : String
  deriving DecidableEq, Repr

/-- What the clock yields during one call: `Date.now().toString()` and
`new Date().toISOString()`. -/
structure Clock where
  now : String
  iso : String
  deriving DecidableEq, Repr

/-- Function `register`, with the array `users` passed in and returned. -/
def register (users : List User) (clock : Clock) (userData : UserData) :
    RegisterResult × List User :=
  let usernameExists := users.any (fun user => user.username == userData.username)
  if usernameExists then
    ({ success := false, message := "Username already exists" }, users)
  else
    let emailExists := users.any (fun user => user.email == userData.email)
    if emailExists then
      ({ success := false, message := "Email already registered" }, users)
    else
      ({ success := true, message := "Registration successful" },
        users ++ [{ username := userData.username, email := userData.email,
                    rest := userData.rest, id := clock.now, createdAt := clock.iso }])

/-- The array `users` after a sequence of `register` calls. -/
def registerAll (users : List User) : List (Clock × UserData) → List User
  | [] => users
  | (clock, userData) :: more => registerAll (register users clock userData).2 more

end Auth

namespace Onopay

/-! ## Reading a rendered amount -/

/-- Numeric value of a decimal string with exactly two fraction digits (one or more digits, a
point, two digits); `none` for every other string.  This is the reading under which the
rendered amount is judged, not code of the gateway class. -/
def twoFractionDigitsValue (s : String) : Option ℚ :=
  match s.data.reverse with
  | b :: a :: '.' :: wholeReversed =>
    if !wholeReversed.isEmpty && wholeReversed.all Char.isDigit && a.isDigit && b.isDigit then
      some ((digitsValue wholeReversed.reverse : ℚ) + (digitsValue [a, b] : ℚ) / 100)
    else none
  | _ => none

/-! ## Sample configuration -/

/-- A configuration with distinct request and response secrets, used in the worked instances. -/
def sampleGateway : OnopayIndiaGateway where
  merchantId := "M1"
  apiKey := "K1"
  saltKeyRequest := "REQ"
  saltKeyResponse := "RESP"
  paymentInitiateUrl := "https://api.onopay.in/payment/initiate"
  paymentStatusUrl := "https://api.onopay.in/payment/status"
  refundInitiateUrl := "https://api.onopay.in/payment/refund"
  upiCollectUrl := "https://api.onopay.in/upi/collect"
  mandateUrl := "https://api.onopay.in/mandate/create"
  debugMode := true
  gstEnabled := true
  gstNumber := "GST1"
  panNumber := "PAN1"
  tdsPercentage := 0

theorem hash_equals_ok_true_iff (v : PhpVal) (s : String) :
    hash_equals v s = Except.ok true ↔ v = PhpVal.str s := by
  cases v <;> simp [hash_equals]

theorem hash_equals_of_str (known s : String) :
    hash_equals (PhpVal.str known) s = Except.ok (known == s) := rfl

theorem hash_equals_error (v : PhpVal) (s : String) (e : OnopayException)
    (h : hash_equals v s = Except.error e) :
    (∀ known, v ≠ PhpVal.str known) ∧ ∃ msg, e = OnopayException.typeError msg := by
  cases v with
  | str known => cases h
  | null => exact ⟨fun known hk => (by cases hk), _, (Except.error.inj h).symm⟩
  | bool b => exact ⟨fun known hk => (by cases hk), _, (Except.error.inj h).symm⟩
  | int i => exact ⟨fun known hk => (by cases hk), _, (Except.error.inj h).symm⟩
  | float x t => exact ⟨fun known hk => (by cases hk), _, (Except.error.inj h).symm⟩
  | arr items => exact ⟨fun known hk => (by cases hk), _, (Except.error.inj h).symm⟩

theorem verifyIndianResponseChecksum_ok_iff (H : String → String) (gw : OnopayIndiaGateway)
    (r : PhpArray) :
    verifyIndianResponseChecksum H gw r = Except.ok () ↔
      phpEmpty (arrayGet r (key "checksum")) = false ∧
        arrayGet r (key "checksum")
          = PhpVal.str (generateIndianChecksum H gw (arrayUnset r (key "checksum"))) := by
  unfold verifyIndianResponseChecksum
  by_cases h1 : phpEmpty (arrayGet r (key "checksum")) = true
  · simp [h1]
  · simp only [h1, Bool.false_eq_true, if_false]
    cases hh : hash_equals (arrayGet r (key "checksum"))
        (generateIndianChecksum H gw (arrayUnset r (key "checksum"))) with
    | error e =>
      have hns := (hash_equals_error _ _ e hh).1
      simp only [reduceCtorEq, false_iff, not_and]
      intro _ hstr
      exact hns _ hstr
    | ok equal =>
      cases equal with
      | true =>
        have h3 := (hash_equals_ok_true_iff _ _).1 hh
        simp only [Bool.not_true, Bool.false_eq_true, if_false, true_iff]
        exact ⟨trivial, h3⟩
      | false =>
        simp only [Bool.not_false, if_true, reduceCtorEq, false_iff, not_and]
        intro _ hstr
        rw [(hash_equals_ok_true_iff _ _).2 hstr] at hh
        cases hh

/-- The class of a failed verification: a security exception when the checksum value is empty
or a string, a `TypeError` when it is a non-empty value of another type. -/
theorem verifyIndianResponseChecksum_error (H : String → String) (gw : OnopayIndiaGateway)
    (r : PhpArray) (e : OnopayException) (h : verifyIndianResponseChecksum H gw r = Except.error e) :
    ((phpEmpty (arrayGet r (key "checksum")) = true ∨ ∃ s, arrayGet r (key "checksum") = PhpVal.str s)
        → ∃ msg, e = OnopayException.security msg)
    ∧ ((phpEmpty (arrayGet r (key "checksum")) = false
        ∧ ∀ s, arrayGet r (key "checksum") ≠ PhpVal.str s)
        → ∃ msg, e = OnopayException.typeError msg) := by
  unfold verifyIndianResponseChecksum at h
  by_cases h1 : phpEmpty (arrayGet r (key "checksum")) = true
  · simp only [h1, if_true] at h
    refine ⟨fun _ => ⟨_, (Except.error.inj h).symm⟩, ?_⟩
    rintro ⟨h2, _⟩
    rw [h1] at h2
    cases h2
  · simp only [h1, Bool.false_eq_true, if_false] at h
    cases hh : hash_equals (arrayGet r (key "checksum"))
        (generateIndianChecksum H gw (arrayUnset r (key "checksum"))) with
    | error e2 =>
      rw [hh] at h
      obtain ⟨hns, msg, hmsg⟩ := hash_equals_error _ _ e2 hh
      have he : e = e2 := (Except.error.inj h).symm
      refine ⟨?_, fun _ => ⟨msg, he.trans hmsg⟩⟩
      rintro (h2 | ⟨s, hs⟩)
      · exact absurd h2 h1
      · exact absurd hs (hns s)
    | ok equal =>
      rw [hh] at h
      cases equal with
      | true => simp at h
      | false =>
        simp only [Bool.not_false, if_true] at h
        refine ⟨fun _ => ⟨_, (Except.error.inj h).symm⟩, ?_⟩
        rintro ⟨_, hns⟩
        cases hv : arrayGet r (key "checksum") with
        | str s => exact absurd hv (hns s)
        | null => rw [hv] at hh; cases hh
        | bool b => rw [hv] at hh; cases hh
        | int i => rw [hv] at hh; cases hh
        | float x t => rw [hv] at hh; cases hh
        | arr items => rw [hv] at hh; cases hh

/-- C1, as stated, fails when the checksum is a non-empty value that is not a string: the
response with order id `A` and the one-element array `['x']` as checksum is not empty, its
checksum differs from the recomputed one, and the call ends in the `TypeError` of
`hash_equals`, not in `OnopaySecurityException`. -/
theorem handleIndianPaymentResponse_nonstring_checksum :
    ([(key "order_id", PhpVal.str "A"),
      (key "checksum", PhpVal.arr (PhpItems.cons (PhpKey.int 0) (PhpVal.str "x") PhpItems.nil))]
        : PhpArray) ≠ []
    ∧ arrayGet [(key "order_id", PhpVal.str "A"),
          (key "checksum", PhpVal.arr (PhpItems.cons (PhpKey.int 0) (PhpVal.str "x") PhpItems.nil))]
        (key "checksum")
      ≠ PhpVal.str (generateIndianChecksum id sampleGateway
          (arrayUnset [(key "order_id", PhpVal.str "A"),
            (key "checksum",
              PhpVal.arr (PhpItems.cons (PhpKey.int 0) (PhpVal.str "x") PhpItems.nil))]
            (key "checksum")))
    ∧ handleIndianPaymentResponse id sampleGateway
        [(key "order_id", PhpVal.str "A"),
          (key "checksum", PhpVal.arr (PhpItems.cons (PhpKey.int 0) (PhpVal.str "x") PhpItems.nil))]
      = Except.error (OnopayException.typeError
          "hash_equals(): Argument #1 ($known_string) must be of type string") := by
  decide

/-- C1, amended: a non-empty response whose `checksum` value differs from the checksum
recomputed over the response without its checksum field makes `handleIndianPaymentResponse`
fail, returning no result: with `OnopaySecurityException` when the checksum value is absent,
empty or a string, and with the `TypeError` of `hash_equals` when it is a non-empty value that
is not a string.  Whenever the call returns a result, the supplied checksum equals the
recomputed one. -/
theorem handleIndianPaymentResponse_checksum_guard (H : String → String)
    (gw : OnopayIndiaGateway) (responseData : PhpArray) :
    (responseData ≠ [] →
      arrayGet responseData (key "checksum")
        ≠ PhpVal.str (generateIndianChecksum H gw (arrayUnset responseData (key "checksum"))) →
      (∃ e, handleIndianPaymentResponse H gw responseData = Except.error e)
      ∧ ((phpEmpty (arrayGet responseData (key "checksum")) = true
            ∨ ∃ s, arrayGet responseData (key "checksum") = PhpVal.str s) →
          ∃ msg, handleIndianPaymentResponse H gw responseData
            = Except.error (OnopayException.security msg))
      ∧ ((phpEmpty (arrayGet responseData (key "checksum")) = false
            ∧ ∀ s, arrayGet responseData (key "checksum") ≠ PhpVal.str s) →
          ∃ msg, handleIndianPaymentResponse H gw responseData
            = Except.error (OnopayException.typeError msg)))
    ∧ (∀ result, handleIndianPaymentResponse H gw responseData = Except.ok result →
      arrayGet responseData (key "checksum")
        = PhpVal.str (generateIndianChecksum H gw (arrayUnset responseData (key "checksum")))) := by
  constructor
  · intro hne hdiff
    have hemp : responseData.isEmpty = false := by
      cases responseData with
      | nil => exact absurd rfl hne
      | cons p rest => rfl
    have hform : ∀ e, verifyIndianResponseChecksum H gw responseData = Except.error e →
        handleIndianPaymentResponse H gw responseData = Except.error e := by
      intro e he
      unfold handleIndianPaymentResponse
      rw [hemp, he]
      rfl
    cases hv : verifyIndianResponseChecksum H gw responseData with
    | error e =>
      obtain ⟨hsec, htype⟩ := verifyIndianResponseChecksum_error H gw responseData e hv
      refine ⟨⟨e, hform e hv⟩, ?_, ?_⟩
      · intro hcase
        obtain ⟨msg, hmsg⟩ := hsec hcase
        exact ⟨msg, by rw [hform e hv, hmsg]⟩
      · intro hcase
        obtain ⟨msg, hmsg⟩ := htype hcase
        exact ⟨msg, by rw [hform e hv, hmsg]⟩
    | ok u =>
      exact absurd ((verifyIndianResponseChecksum_ok_iff H gw responseData).1 hv).2 hdiff
  · intro result hres
    unfold handleIndianPaymentResponse at hres
    split at hres
    · cases hres
    · cases hv : verifyIndianResponseChecksum H gw responseData with
      | error e => rw [hv] at hres; cases hres
      | ok u => exact ((verifyIndianResponseChecksum_ok_iff H gw responseData).1 hv).2

/-- C1 amended, at a tampered response with a string checksum. -/
theorem handleIndianPaymentResponse_checksum_guard_witness :
    ([(key "order_id", PhpVal.str "A"), (key "checksum", PhpVal.str "bad")] : PhpArray) ≠ []
    ∧ arrayGet [(key "order_id", PhpVal.str "A"), (key "checksum", PhpVal.str "bad")] (key "checksum")
        ≠ PhpVal.str (generateIndianChecksum id sampleGateway
            (arrayUnset [(key "order_id", PhpVal.str "A"), (key "checksum", PhpVal.str "bad")]
              (key "checksum")))
    ∧ ∃ msg, handleIndianPaymentResponse id sampleGateway
          [(key "order_id", PhpVal.str "A"), (key "checksum", PhpVal.str "bad")]
        = Except.error (OnopayException.security msg) :=
  ⟨by decide, by decide,
    ((handleIndianPaymentResponse_checksum_guard id sampleGateway
      [(key "order_id", PhpVal.str "A"), (key "checksum", PhpVal.str "bad")]).1
      (by decide) (by decide)).2.1 (Or.inr ⟨"bad", rfl⟩)⟩

/-! ## Array and string lemmas -/

theorem string_append_left_cancel (a x y : String) (h : a ++ x = a ++ y) : x = y := by
  have hd := congrArg String.data h
  simp only [String.data_append] at hd
  exact String.ext (List.append_cancel_left hd)

theorem string_append_right_cancel (x y b : String) (h : x ++ b = y ++ b) : x = y := by
  have hd := congrArg String.data h
  simp only [String.data_append] at hd
  exact String.ext (List.append_cancel_right hd)

theorem lookup_cons_pair (k1 pk : PhpKey) (pv : PhpVal) (rest : PhpArray) :
    List.lookup k1 ((pk, pv) :: rest) = if k1 = pk then some pv else List.lookup k1 rest := by
  by_cases h : k1 = pk
  · subst h; simp [List.lookup]
  · have hb : (k1 == pk) = false := by simpa using h
    simp [List.lookup, hb, h]

theorem lookup_map_replace (a : PhpArray) (k k1 : PhpKey) (v : PhpVal) :
    List.lookup k1 (a.map (fun p => if p.1 == k then (p.1, v) else p))
      = if k1 = k then (List.lookup k a).map (fun _ => v) else List.lookup k1 a := by
  induction a with
  | nil => simp
  | cons p rest ih =>
    obtain ⟨pk, pv⟩ := p
    by_cases hp : pk = k
    · subst hp
      have hm : List.map (fun p : PhpKey × PhpVal => if p.1 == pk then (p.1, v) else p)
          ((pk, pv) :: rest)
          = (pk, v) :: List.map (fun p : PhpKey × PhpVal => if p.1 == pk then (p.1, v) else p) rest := by
        simp
      rw [hm]
      simp only [lookup_cons_pair, ih]
      by_cases hk : k1 = pk
      · simp [hk]
      · simp [hk]
    · have hb : (pk == k) = false := by simpa using hp
      have hm : List.map (fun p : PhpKey × PhpVal => if p.1 == k then (p.1, v) else p)
          ((pk, pv) :: rest)
          = (pk, pv) :: List.map (fun p : PhpKey × PhpVal => if p.1 == k then (p.1, v) else p) rest := by
        simp [hp]
      rw [hm]
      simp only [lookup_cons_pair, ih]
      by_cases hk : k1 = k
      · subst hk
        have h2 : ¬ k1 = pk := fun h => hp h.symm
        simp [h2, hp]
      · simp [hk]

theorem lookup_append_pair (a : PhpArray) (k k1 : PhpKey) (v : PhpVal) :
    List.lookup k1 (a ++ [(k, v)])
      = match List.lookup k1 a with
        | some x => some x
        | none => if k1 = k then some v else none := by
  induction a with
  | nil => simp [lookup_cons_pair]
  | cons p rest ih =>
    obtain ⟨pk, pv⟩ := p
    simp only [List.cons_append, lookup_cons_pair, ih]
    by_cases hk : k1 = pk
    · simp [hk]
    · simp [hk]

theorem any_key_eq_false (a : PhpArray) (k : PhpKey) :
    a.any (fun p => p.1 == k) = false ↔ List.lookup k a = none := by
  induction a with
  | nil => simp
  | cons p rest ih =>
    obtain ⟨pk, pv⟩ := p
    simp only [List.any_cons, Bool.or_eq_false_iff, ih, lookup_cons_pair]
    by_cases hk : k = pk
    · subst hk; simp
    · have h2 : ¬ pk = k := fun h => hk h.symm
      simp [hk, h2]

theorem lookup_arraySet (a : PhpArray) (k k1 : PhpKey) (v : PhpVal) :
    List.lookup k1 (arraySet a k v) = if k1 = k then some v else List.lookup k1 a := by
  unfold arraySet
  cases hany : a.any (fun p => p.1 == k) with
  | true =>
    have hsome : List.lookup k a ≠ none := by
      intro hnone
      rw [(any_key_eq_false a k).2 hnone] at hany
      cases hany
    simp only [if_true, lookup_map_replace]
    by_cases hk : k1 = k
    · cases hl : List.lookup k a with
      | none => exact absurd hl hsome
      | some x => simp [hk]
    · simp [hk]
  | false =>
    have hnone := (any_key_eq_false a k).1 hany
    simp only [Bool.false_eq_true, if_false, lookup_append_pair]
    by_cases hk : k1 = k
    · subst hk; simp [hnone]
    · cases hl : List.lookup k1 a <;> simp [hk]

theorem lookup_arrayUnset (a : PhpArray) (k k1 : PhpKey) :
    List.lookup k1 (arrayUnset a k) = if k1 = k then none else List.lookup k1 a := by
  unfold arrayUnset
  induction a with
  | nil => simp
  | cons p rest ih =>
    obtain ⟨pk, pv⟩ := p
    by_cases hp : pk = k
    · subst hp
      have : ((pk, pv) :: rest).filter (fun p => p.1 != pk) = rest.filter (fun p => p.1 != pk) := by
        simp [List.filter_cons]
      rw [this, ih, lookup_cons_pair]
      by_cases hk : k1 = pk <;> simp [hk]
    · have : ((pk, pv) :: rest).filter (fun p => p.1 != k)
          = (pk, pv) :: rest.filter (fun p => p.1 != k) := by
        simp [List.filter_cons, hp]
      rw [this, lookup_cons_pair, lookup_cons_pair, ih]
      by_cases hk : k1 = k
      · subst hk
        have h2 : ¬ k1 = pk := fun h => hp h.symm
        simp [h2]
      · simp [hk]

theorem arrayGet_arraySet (a : PhpArray) (k k1 : PhpKey) (v : PhpVal) :
    arrayGet (arraySet a k v) k1 = if k1 = k then v else arrayGet a k1 := by
  unfold arrayGet
  rw [lookup_arraySet]
  by_cases hk : k1 = k <;> simp [hk]

theorem arrayGet_arrayUnset (a : PhpArray) (k k1 : PhpKey) :
    arrayGet (arrayUnset a k) k1 = if k1 = k then PhpVal.null else arrayGet a k1 := by
  unfold arrayGet
  rw [lookup_arrayUnset]
  by_cases hk : k1 = k <;> simp [hk]

/-! ## The hashed string -/

theorem filterMap_cons_toList (g : String → Option String) (a : String) (t : List String) :
    List.filterMap g (a :: t) = (g a).toList ++ List.filterMap g t := by
  cases h : g a <;> simp [List.filterMap_cons, h]

theorem filterMap_update (l : List String) (g1 : String → Option String) (f : String)
    (hnd : l.Nodup) (hf : f ∈ l) :
    ∃ P Q : List String, ∀ g2 : String → Option String, (∀ k, k ≠ f → g1 k = g2 k) →
      l.filterMap g2 = P ++ (g2 f).toList ++ Q := by
  induction l with
  | nil => cases hf
  | cons a t ih =>
    have hat : a ∉ t := (List.nodup_cons.1 hnd).1
    have htnd : t.Nodup := (List.nodup_cons.1 hnd).2
    by_cases ha : a = f
    · subst ha
      refine ⟨[], t.filterMap g1, fun g2 hagree => ?_⟩
      have hsame : t.filterMap g2 = t.filterMap g1 := by
        apply List.filterMap_congr
        intro k hk
        exact (hagree k (fun h => hat (h ▸ hk))).symm
      rw [filterMap_cons_toList, hsame]
      simp
    · have hft : f ∈ t := by
        rcases List.mem_cons.1 hf with h | h
        · exact absurd h.symm ha
        · exact h
      obtain ⟨P, Q, hPQ⟩ := ih htnd hft
      refine ⟨(g1 a).toList ++ P, Q, fun g2 hagree => ?_⟩
      rw [filterMap_cons_toList, hPQ g2 hagree, hagree a ha]
      simp

theorem implode_around (glue : String) (P Q : List String) :
    ∃ A B : String, ∀ v, implode glue (P ++ v :: Q) = A ++ v ++ B := by
  induction P with
  | nil =>
    cases Q with
    | nil => exact ⟨"", "", fun v => by simp [implode]⟩
    | cons y rest =>
      exact ⟨"", glue ++ implode glue (y :: rest), fun v => by simp [implode, String.append_assoc]⟩
  | cons x P1 ih =>
    obtain ⟨A, B, hAB⟩ := ih
    refine ⟨x ++ glue ++ A, B, fun v => ?_⟩
    have hstep : implode glue (x :: P1 ++ v :: Q) = x ++ glue ++ implode glue (P1 ++ v :: Q) := by
      cases P1 with
      | nil => simp [implode]
      | cons z more => simp [implode]
    rw [hstep, hAB v]
    simp [String.append_assoc]

theorem implode_length_insert (glue : String) (P Q : List String) (v : String) :
    (implode glue (P ++ v :: Q)).length
      = (implode glue (P ++ Q)).length + v.length + (if P ++ Q = [] then 0 else glue.length) := by
  induction P with
  | nil =>
    cases Q with
    | nil => simp [implode]
    | cons y rest => simp [implode]; omega
  | cons x P1 ih =>
    have hstep : implode glue (x :: P1 ++ v :: Q) = x ++ glue ++ implode glue (P1 ++ v :: Q) := by
      cases P1 with
      | nil => simp [implode]
      | cons z more => simp [implode]
    rw [hstep]
    by_cases hPQ : P1 ++ Q = []
    · have hP : P1 = [] := (List.append_eq_nil.1 hPQ).1
      have hQ : Q = [] := (List.append_eq_nil.1 hPQ).2
      subst hP; subst hQ
      simp [implode]; omega
    · have hstep2 : implode glue (x :: P1 ++ Q) = x ++ glue ++ implode glue (P1 ++ Q) := by
        cases hPQ2 : P1 ++ Q with
        | nil => exact absurd hPQ2 hPQ
        | cons z more =>
          have : x :: P1 ++ Q = x :: z :: more := by simp [hPQ2]
          rw [this]; simp [implode]
      rw [hstep2]
      simp only [String.length_append, ih, hPQ, if_false]
      simp
      omega

theorem fieldsToHash_nodup : fieldsToHash.Nodup := by decide

theorem key_ne_checksum (f : String) (hf : f ∈ fieldsToHash) : key f ≠ key "checksum" := by
  intro h
  have hf2 : f = "checksum" := by injection h
  subst hf2
  revert hf
  decide

/-- The value a hashed field contributes, as a function of the stored value. -/
theorem checksumValues_eq (data : PhpArray) :
    checksumValues data = fieldsToHash.filterMap (fun k =>
      match arrayGet data (key k) with
      | PhpVal.null => none
      | v => some (strval v)) := by
  unfold checksumValues
  apply List.filterMap_congr
  intro k _
  unfold isset
  cases arrayGet data (key k) <;> simp [strval]

theorem checksumValues_congr (a b : PhpArray)
    (h : ∀ k ∈ fieldsToHash, arrayGet a (key k) = arrayGet b (key k)) :
    checksumValues a = checksumValues b := by
  rw [checksumValues_eq, checksumValues_eq]
  apply List.filterMap_congr
  intro k hk
  rw [h k hk]

theorem checksumValues_unset_checksum_set (r : PhpArray) (f : String) (x : PhpVal) :
    checksumValues (arrayUnset (arraySet r (key f) x) (key "checksum"))
      = checksumValues (arraySet (arrayUnset r (key "checksum")) (key f) x) := by
  apply checksumValues_congr
  intro k hk
  have hkc := key_ne_checksum k hk
  rw [arrayGet_arrayUnset, arrayGet_arraySet, arrayGet_arraySet, arrayGet_arrayUnset]
  simp [hkc]

theorem checksumValues_unset_checksum_unset (r : PhpArray) (f : String) :
    checksumValues (arrayUnset (arrayUnset r (key f)) (key "checksum"))
      = checksumValues (arrayUnset (arrayUnset r (key "checksum")) (key f)) := by
  apply checksumValues_congr
  intro k hk
  have hkc := key_ne_checksum k hk
  rw [arrayGet_arrayUnset, arrayGet_arrayUnset, arrayGet_arrayUnset, arrayGet_arrayUnset]
  simp [hkc]

/-- The contribution of one stored value to the hashed values. -/
theorem hashed_value_cases (x : PhpVal) :
    (match x with
      | PhpVal.null => (none : Option String)
      | v => some (strval v)) = none ↔ x = PhpVal.null := by
  cases x <;> simp

/-- Splitting the hashed values around one field: the values of the other fields, `P` before
and `Q` after, do not change when that field is replaced or removed. -/
theorem checksumValues_split (d : PhpArray) (f : String) (x : PhpVal) (hf : f ∈ fieldsToHash)
    (hv : arrayGet d (key f) = x) (hx : x ≠ PhpVal.null) :
    ∃ P Q : List String, checksumValues d = P ++ strval x :: Q
      ∧ (∀ y, y ≠ PhpVal.null → checksumValues (arraySet d (key f) y) = P ++ strval y :: Q)
      ∧ checksumValues (arrayUnset d (key f)) = P ++ Q
      ∧ (P ++ Q = [] ↔ ∀ g ∈ fieldsToHash, g ≠ f → isset d (key g) = false) := by
  obtain ⟨P, Q, hPQ⟩ := filterMap_update fieldsToHash (fun k =>
      match arrayGet d (key k) with
      | PhpVal.null => none
      | v => some (strval v)) f fieldsToHash_nodup hf
  have hkey : ∀ k : String, k ≠ f → key k ≠ key f := by
    intro k hk h
    exact hk (by injection h)
  have hsome : ∀ y : PhpVal, y ≠ PhpVal.null →
      (match y with
        | PhpVal.null => (none : Option String)
        | v => some (strval v)) = some (strval y) := by
    intro y hy
    cases y with
    | null => exact absurd rfl hy
    | bool b => rfl
    | int i => rfl
    | float a t => rfl
    | str s => rfl
    | arr items => rfl
  have h0 : checksumValues d = P ++ strval x :: Q := by
    rw [checksumValues_eq, hPQ _ (fun k _ => rfl)]
    simp only [hv, hsome x hx, Option.toList_some]
    simp
  have hset : ∀ y, y ≠ PhpVal.null →
      checksumValues (arraySet d (key f) y) = P ++ strval y :: Q := by
    intro y hy
    rw [checksumValues_eq, hPQ]
    · simp only [arrayGet_arraySet, if_true, hsome y hy, Option.toList_some]
      simp
    · intro k hk
      simp [arrayGet_arraySet, hkey k hk]
  have hunset : checksumValues (arrayUnset d (key f)) = P ++ Q := by
    rw [checksumValues_eq, hPQ]
    · simp [arrayGet_arrayUnset]
    · intro k hk
      simp [arrayGet_arrayUnset, hkey k hk]
  refine ⟨P, Q, h0, hset, hunset, ?_⟩
  rw [← hunset, checksumValues_eq, List.filterMap_eq_nil_iff]
  constructor
  · intro h g hg hgf
    have := h g hg
    rw [hashed_value_cases, arrayGet_arrayUnset] at this
    simp only [hkey g hgf, if_false] at this
    simp [isset, this]
  · intro h g hg
    rw [hashed_value_cases, arrayGet_arrayUnset]
    by_cases hgf : g = f
    · simp [hgf]
    · have := h g hg hgf
      simp only [hkey g hgf, if_false]
      unfold isset at this
      cases hx2 : arrayGet d (key g) with
      | null => rfl
      | bool b => rw [hx2] at this; cases this
      | int i => rw [hx2] at this; cases this
      | float a t => rw [hx2] at this; cases this
      | str s => rw [hx2] at this; cases this
      | arr items => rw [hx2] at this; cases this
/-! ## Response verification -/

theorem verifyIndianResponseChecksum_not_ok (H : String → String) (gw : OnopayIndiaGateway)
    (r : PhpArray)
    (hstr : phpEmpty (arrayGet r (key "checksum")) = true
      ∨ ∃ s, arrayGet r (key "checksum") = PhpVal.str s)
    (h : verifyIndianResponseChecksum H gw r ≠ Except.ok ()) :
    ∃ msg, verifyIndianResponseChecksum H gw r = Except.error (OnopayException.security msg) := by
  cases hv : verifyIndianResponseChecksum H gw r with
  | error e =>
    obtain ⟨msg, hmsg⟩ := (verifyIndianResponseChecksum_error H gw r e hv).1 hstr
    exact ⟨msg, by rw [hmsg]⟩
  | ok u => exact absurd hv h

/-- C2: the code verifies a response against the request secret.  With request secret `REQ`
and response secret `RESP`, the response with order id `A` signed with the response secret is
rejected, and the same response signed with the request secret is accepted, for every digest
function that separates the two hashed strings and gives a non-empty digest. -/
theorem verifyIndianResponseChecksum_response_secret_rejected (H : String → String)
    (hdiff : H "A|RESP" ≠ H "A|REQ") (hne : emptyString (H "A|REQ") = false) :
    (∃ msg, verifyIndianResponseChecksum H sampleGateway
        [(key "order_id", PhpVal.str "A"), (key "checksum", PhpVal.str (H "A|RESP"))]
      = Except.error (OnopayException.security msg))
    ∧ verifyIndianResponseChecksum H sampleGateway
        [(key "order_id", PhpVal.str "A"), (key "checksum", PhpVal.str (H "A|REQ"))]
      = Except.ok () := by
  have hfinal : ∀ c : String, finalStringToHash sampleGateway
      (arrayUnset [(key "order_id", PhpVal.str "A"), (key "checksum", PhpVal.str c)]
        (key "checksum")) = "A|REQ" := by
    intro c
    rfl
  constructor
  · apply verifyIndianResponseChecksum_not_ok H sampleGateway
      [(key "order_id", PhpVal.str "A"), (key "checksum", PhpVal.str (H "A|RESP"))]
      (Or.inr ⟨H "A|RESP", rfl⟩)
    intro hok
    have h2 := ((verifyIndianResponseChecksum_ok_iff H sampleGateway _).1 hok).2
    unfold generateIndianChecksum at h2
    rw [hfinal] at h2
    have h3 : arrayGet [(key "order_id", PhpVal.str "A"), (key "checksum", PhpVal.str (H "A|RESP"))]
        (key "checksum") = PhpVal.str (H "A|RESP") := rfl
    rw [h3] at h2
    exact hdiff (PhpVal.str.inj h2)
  · rw [verifyIndianResponseChecksum_ok_iff]
    have h3 : arrayGet [(key "order_id", PhpVal.str "A"), (key "checksum", PhpVal.str (H "A|REQ"))]
        (key "checksum") = PhpVal.str (H "A|REQ") := rfl
    unfold generateIndianChecksum
    rw [hfinal, h3]
    exact ⟨hne, rfl⟩

/-- C2 for the digest stand-in that tags its input. -/
theorem verifyIndianResponseChecksum_response_secret_rejected_witness :
    (fun s : String => "sha512:" ++ s) "A|RESP" ≠ (fun s : String => "sha512:" ++ s) "A|REQ"
    ∧ emptyString ((fun s : String => "sha512:" ++ s) "A|REQ") = false
    ∧ (∃ msg, verifyIndianResponseChecksum (fun s : String => "sha512:" ++ s) sampleGateway
        [(key "order_id", PhpVal.str "A"), (key "checksum", PhpVal.str "sha512:A|RESP")]
      = Except.error (OnopayException.security msg)) :=
  ⟨by decide, by decide,
    (verifyIndianResponseChecksum_response_secret_rejected (fun s : String => "sha512:" ++ s)
      (by decide) (by decide)).1⟩

/-- C3, as stated, fails at the mapping with no fields: it carries no checksum field and
`handleIndianPaymentResponse` raises `OnopayResponseException`, not a security exception. -/
theorem handleIndianPaymentResponse_empty_mapping :
    List.lookup (key "checksum") ([] : PhpArray) = none
    ∧ handleIndianPaymentResponse id sampleGateway []
      = Except.error (OnopayException.response "Received empty response from payment gateway") :=
  ⟨rfl, rfl⟩

/-- C3, amended: every response mapping with at least one field and no checksum field makes
`handleIndianPaymentResponse` fail with `OnopaySecurityException` ("Checksum missing in
response"), whatever its other fields. -/
theorem handleIndianPaymentResponse_missing_checksum (H : String → String)
    (gw : OnopayIndiaGateway) (responseData : PhpArray) (hne : responseData ≠ [])
    (hmissing : List.lookup (key "checksum") responseData = none) :
    handleIndianPaymentResponse H gw responseData
      = Except.error (OnopayException.security "Checksum missing in response") := by
  have hemp : responseData.isEmpty = false := by
    cases responseData with
    | nil => exact absurd rfl hne
    | cons p rest => rfl
  have hget : arrayGet responseData (key "checksum") = PhpVal.null := by
    unfold arrayGet
    rw [hmissing]
    rfl
  unfold handleIndianPaymentResponse verifyIndianResponseChecksum
  simp [hemp, hget, phpEmpty]

/-- C3 amended, at a response that has an order id and a status code but no checksum. -/
theorem handleIndianPaymentResponse_missing_checksum_witness :
    ([(key "order_id", PhpVal.str "A"), (key "status_code", PhpVal.str "00")] : PhpArray) ≠ []
    ∧ List.lookup (key "checksum")
        ([(key "order_id", PhpVal.str "A"), (key "status_code", PhpVal.str "00")] : PhpArray) = none
    ∧ handleIndianPaymentResponse id sampleGateway
        [(key "order_id", PhpVal.str "A"), (key "status_code", PhpVal.str "00")]
      = Except.error (OnopayException.security "Checksum missing in response") :=
  ⟨by decide, by decide,
    handleIndianPaymentResponse_missing_checksum id sampleGateway
      [(key "order_id", PhpVal.str "A"), (key "status_code", PhpVal.str "00")]
      (by decide) (by decide)⟩

/-- C4, as stated, fails for removal: the response whose only hashed field is an empty
`order_id` verifies, and still verifies with the same checksum after `order_id` is removed,
because both hash inputs are the string "|REQ" (digest taken as the identity, which is
collision-free). -/
theorem verifyIndianResponseChecksum_removal_undetected :
    Function.Injective (id : String → String)
    ∧ "order_id" ∈ fieldsToHash
    ∧ arrayGet [(key "order_id", PhpVal.str ""), (key "checksum", PhpVal.str "|REQ")]
        (key "order_id") = PhpVal.str ""
    ∧ verifyIndianResponseChecksum id sampleGateway
        [(key "order_id", PhpVal.str ""), (key "checksum", PhpVal.str "|REQ")] = Except.ok ()
    ∧ verifyIndianResponseChecksum id sampleGateway
        (arrayUnset [(key "order_id", PhpVal.str ""), (key "checksum", PhpVal.str "|REQ")]
          (key "order_id")) = Except.ok () :=
  ⟨Function.injective_id, by decide, by decide, by decide, by decide⟩

/-- C4, amended: for a response that passes `verifyIndianResponseChecksum` under a
collision-free digest, and a hashed field holding a value `x` other than null, hashed as the
string `strval x` (a string is hashed as itself): replacing `x` by any non-null value with
another string form, checksum kept, makes verification fail; removing the field makes
verification fail provided the string form of `x` is not the empty string or some other
hashed field is set. -/
theorem verifyIndianResponseChecksum_tamper_sensitive (H : String → String)
    (gw : OnopayIndiaGateway) (r : PhpArray) (f : String) (x : PhpVal)
    (hH : Function.Injective H) (hf : f ∈ fieldsToHash)
    (hok : verifyIndianResponseChecksum H gw r = Except.ok ())
    (hv : arrayGet r (key f) = x) (hx : x ≠ PhpVal.null) :
    (∀ y, y ≠ PhpVal.null → strval y ≠ strval x →
      ∃ msg, verifyIndianResponseChecksum H gw (arraySet r (key f) y)
        = Except.error (OnopayException.security msg))
    ∧ ((strval x ≠ "" ∨ ∃ g ∈ fieldsToHash, g ≠ f ∧ isset r (key g) = true) →
        ∃ msg, verifyIndianResponseChecksum H gw (arrayUnset r (key f))
          = Except.error (OnopayException.security msg)) := by
  have hfc := key_ne_checksum f hf
  have hcf : key "checksum" ≠ key f := fun h => hfc h.symm
  obtain ⟨hnonempty, hsum⟩ := (verifyIndianResponseChecksum_ok_iff H gw r).1 hok
  have hv0 : arrayGet (arrayUnset r (key "checksum")) (key f) = x := by
    rw [arrayGet_arrayUnset]
    simp [hfc, hv]
  obtain ⟨P, Q, hP0, hPset, hPunset, hPQ⟩ :=
    checksumValues_split (arrayUnset r (key "checksum")) f x hf hv0 hx
  obtain ⟨A, B, hAB⟩ := implode_around "|" P Q
  constructor
  · intro y hy hw
    have hck : arrayGet (arraySet r (key f) y) (key "checksum")
        = PhpVal.str (generateIndianChecksum H gw (arrayUnset r (key "checksum"))) := by
      rw [arrayGet_arraySet]
      simp only [hcf, if_false]
      exact hsum
    apply verifyIndianResponseChecksum_not_ok _ _ _ (Or.inr ⟨_, hck⟩)
    intro hok2
    have hsum2 := ((verifyIndianResponseChecksum_ok_iff H gw _).1 hok2).2
    rw [hck] at hsum2
    have hfin := hH (PhpVal.str.inj hsum2)
    unfold finalStringToHash at hfin
    rw [checksumValues_unset_checksum_set, hPset y hy, hP0, hAB (strval x), hAB (strval y)] at hfin
    have h1 := string_append_right_cancel _ _ _ hfin
    have h2 := string_append_right_cancel _ _ _ h1
    have h3 := string_append_right_cancel _ _ _ h2
    exact hw (string_append_left_cancel _ _ _ h3).symm
  · intro hcond
    have hck : arrayGet (arrayUnset r (key f)) (key "checksum")
        = PhpVal.str (generateIndianChecksum H gw (arrayUnset r (key "checksum"))) := by
      rw [arrayGet_arrayUnset]
      simp only [hcf, if_false]
      exact hsum
    apply verifyIndianResponseChecksum_not_ok _ _ _ (Or.inr ⟨_, hck⟩)
    intro hok2
    have hsum2 := ((verifyIndianResponseChecksum_ok_iff H gw _).1 hok2).2
    rw [hck] at hsum2
    have hfin := hH (PhpVal.str.inj hsum2)
    unfold finalStringToHash at hfin
    rw [checksumValues_unset_checksum_unset, hPunset, hP0] at hfin
    have h1 := string_append_right_cancel _ _ _ hfin
    have h2 := string_append_right_cancel _ _ _ h1
    have hlen := congrArg String.length h2
    rw [implode_length_insert] at hlen
    rcases hcond with hvne | ⟨g, hg, hgf, hset⟩
    · have hpos : 0 < (strval x).length := by
        rcases Nat.eq_zero_or_pos (strval x).length with h0 | h0
        · exact absurd (String.ext (List.length_eq_zero.1 h0)) hvne
        · exact h0
      omega
    · have hne : P ++ Q ≠ [] := by
        intro hnil
        have := (hPQ.1 hnil) g hg hgf
        unfold isset at this hset
        rw [arrayGet_arrayUnset] at this
        have hgc := key_ne_checksum g hg
        simp only [hgc, if_false] at this
        rw [this] at hset
        cases hset
      simp only [hne, if_false] at hlen
      have : ("|" : String).length = 1 := rfl
      omega

/-- C4 amended, at the response with order id `A` signed under the identity digest: changing
the order id to `B`, or removing it, is rejected. -/
theorem verifyIndianResponseChecksum_tamper_sensitive_witness :
    Function.Injective (id : String → String)
    ∧ "order_id" ∈ fieldsToHash
    ∧ verifyIndianResponseChecksum id sampleGateway
        [(key "order_id", PhpVal.str "A"), (key "checksum", PhpVal.str "A|REQ")] = Except.ok ()
    ∧ arrayGet [(key "order_id", PhpVal.str "A"), (key "checksum", PhpVal.str "A|REQ")]
        (key "order_id") = PhpVal.str "A"
    ∧ PhpVal.str "A" ≠ PhpVal.null
    ∧ (∃ msg, verifyIndianResponseChecksum id sampleGateway
        (arraySet [(key "order_id", PhpVal.str "A"), (key "checksum", PhpVal.str "A|REQ")]
          (key "order_id") (PhpVal.str "B")) = Except.error (OnopayException.security msg))
    ∧ (∃ msg, verifyIndianResponseChecksum id sampleGateway
        (arrayUnset [(key "order_id", PhpVal.str "A"), (key "checksum", PhpVal.str "A|REQ")]
          (key "order_id")) = Except.error (OnopayException.security msg)) :=
  ⟨Function.injective_id, by decide, by decide, by decide, by decide,
    (verifyIndianResponseChecksum_tamper_sensitive id sampleGateway
      [(key "order_id", PhpVal.str "A"), (key "checksum", PhpVal.str "A|REQ")] "order_id"
      (PhpVal.str "A") Function.injective_id (by decide) (by decide) (by decide) (by decide)).1
      (PhpVal.str "B") (by decide) (by decide),
    (verifyIndianResponseChecksum_tamper_sensitive id sampleGateway
      [(key "order_id", PhpVal.str "A"), (key "checksum", PhpVal.str "A|REQ")] "order_id"
      (PhpVal.str "A") Function.injective_id (by decide) (by decide) (by decide) (by decide)).2
      (Or.inl (by decide))⟩

/-! ## Dispatch and effects -/

theorem post_toUpper : (strtoupper "POST" == "POST") = true := by decide

/-- Every effect of a POST dispatch is the fixed sleep or a transport call carrying exactly
the given url, fields and headers. -/
theorem executeCurlRequest_events (transport : Nat → CurlResult) (url : String)
    (postData : PhpArray) (headers : List String) (n : Nat) :
    ∀ calls retry, ONOPAY_MAX_RETRIES - retry = n →
      ∀ ev ∈ (executeCurlRequest transport calls url postData "POST" headers retry).2,
        ev = Event.sleep ONOPAY_RETRY_DELAY ∨ ev = Event.curlExec url (some postData) headers := by
  induction n with
  | zero =>
    intro calls retry hn ev hev
    have hnot : ¬ retry < ONOPAY_MAX_RETRIES := by omega
    rw [executeCurlRequest] at hev
    simp only [post_toUpper, if_true, hnot, if_false] at hev
    split at hev
    · simp at hev; exact Or.inr hev
    · simp at hev; exact Or.inr hev
  | succ m ih =>
    intro calls retry hn ev hev
    have hlt : retry < ONOPAY_MAX_RETRIES := by omega
    rw [executeCurlRequest] at hev
    simp only [post_toUpper, if_true, hlt] at hev
    split at hev
    · simp only [List.mem_cons] at hev
      rcases hev with h | h | h
      · exact Or.inr h
      · exact Or.inl h
      · exact ih (calls + 1) (retry + 1) (by omega) ev h
    · simp at hev; exact Or.inr hev

/-! ## Validation before any effect -/

/-- C7: for every amount at most zero and every choice of the other arguments, each of
`initiateIndianPayment`, `initiateUPIPayment` and `createPaymentMandate` fails with
`OnopayRequestException` and produces no effect at all: no transport call, no sleep, no form. -/
theorem nonpositive_amount_rejected (H : String → String) (rnd : ℚ → Nat → Nat) (gw : OnopayIndiaGateway)
    (transport : Nat → CurlResult) (json_decode : String → Option PhpArray)
    (orderId : String) (amount : PhpFloat) (customerName customerEmail customerPhone redirectUrl
      paymentMethod description upiFlow bankAccount ifsc mandateType frequency startDate
      endDate : String) (additionalParams : PhpArray) (hamount : amount ≤ 0) :
    (∃ msg, initiateIndianPayment H rnd gw orderId amount customerName customerEmail customerPhone
        redirectUrl paymentMethod description additionalParams
      = (Except.error (OnopayException.request msg), []))
    ∧ (∃ msg, initiateUPIPayment H rnd gw transport json_decode orderId amount customerPhone
        redirectUrl description upiFlow
      = (Except.error (OnopayException.request msg), []))
    ∧ (∃ msg, createPaymentMandate H rnd gw transport json_decode orderId amount customerName
        customerEmail customerPhone bankAccount ifsc mandateType frequency startDate endDate
      = (Except.error (OnopayException.request msg), [])) := by
  refine ⟨?_, ?_, ?_⟩
  · unfold initiateIndianPayment validateIndianPaymentParameters
    by_cases ho : emptyString orderId = true
    · exact ⟨"Order ID cannot be empty", by simp [ho]⟩
    · exact ⟨"Amount must be greater than zero", by simp [ho, hamount]⟩
  · unfold initiateUPIPayment validateUPIParameters
    by_cases ho : emptyString orderId = true
    · exact ⟨"Order ID cannot be empty for UPI payment", by simp [ho]⟩
    · exact ⟨"Amount must be greater than zero for UPI payment", by simp [ho, hamount]⟩
  · unfold createPaymentMandate validateMandateParameters
    by_cases ho : emptyString orderId = true
    · exact ⟨"Mandate ID cannot be empty", by simp [ho]⟩
    · exact ⟨"Amount must be greater than zero for mandate", by simp [ho, hamount]⟩

/-- C7 at amount zero with otherwise valid arguments, for the UPI action. -/
theorem nonpositive_amount_rejected_witness :
    (0 : PhpFloat) ≤ 0
    ∧ ∃ msg, initiateUPIPayment id roundHalfUp sampleGateway
        (fun _ => { response := "", error := "", httpCode := 200 }) (fun _ => none)
        "ORD1" 0 "9876543210" "https://shop.example/back" "UPI Payment" "collect"
      = (Except.error (OnopayException.request msg), []) :=
  ⟨by decide,
    (nonpositive_amount_rejected id roundHalfUp sampleGateway
      (fun _ => { response := "", error := "", httpCode := 200 }) (fun _ => none)
      "ORD1" 0 "N" "e@shop.example" "9876543210" "https://shop.example/back" "upi"
      "UPI Payment" "collect" "123456" "HDFC0001234" "nach" "MONTHLY" "2026-01-01" "2027-01-01"
      [] (by decide)).2.1⟩

/-- C8: the phone rule accepts the 11-character string made of ten digits and a line feed, in
all three validators; the two strings of the claim behave as stated ("98765432" rejected,
"9876543210" accepted). -/
theorem phone_rule_accepts_trailing_newline :
    "9876543210\n".length = 11
    ∧ validateIndianPaymentParameters sampleGateway "ORD1" 10 "9876543210\n" = Except.ok ()
    ∧ validateUPIParameters "ORD1" 10 "9876543210\n" = Except.ok ()
    ∧ validateMandateParameters "ORD1" 10 "9876543210\n" "123456" "HDFC0001234" "nach"
        = Except.ok ()
    ∧ pregMatchPhone "9876543210" = true
    ∧ pregMatchPhone "98765432" = false := by
  refine ⟨by decide, by decide, by decide, ?_, by decide, by decide⟩
  with_unfolding_all decide

/-- C9: the IFSC rule accepts the 12-character string "HDFC0001234" followed by a line feed;
the two strings of the claim behave as stated ("HDFC0001234" accepted, "HDFC1234" rejected). -/
theorem ifsc_rule_accepts_trailing_newline :
    "HDFC0001234\n".length = 12
    ∧ validateMandateParameters "ORD1" 10 "9876543210" "123456" "HDFC0001234\n" "nach"
        = Except.ok ()
    ∧ pregMatchIfsc "HDFC0001234" = true
    ∧ pregMatchIfsc "HDFC1234" = false := by
  refine ⟨by decide, ?_, by decide, by decide⟩
  with_unfolding_all decide

/-- C10: `initiateIndianPayment` never consults `ONOPAY_SUPPORTED_PAYMENT_METHODS`: with the
payment method "bitcoin", outside the supported set, and otherwise valid arguments it raises
nothing and hands a signed request carrying that method to the payment form. -/
theorem initiateIndianPayment_accepts_unsupported_method :
    "bitcoin" ∉ ONOPAY_SUPPORTED_PAYMENT_METHODS
    ∧ ∃ requestData, initiateIndianPayment id roundHalfUp sampleGateway "ORD1" 10 "N" "e@shop.example"
          "9876543210" "https://shop.example/back" "bitcoin" "Payment for Order" []
        = (Except.ok (), [Event.renderPaymentForm sampleGateway.paymentInitiateUrl requestData])
      ∧ arrayGet requestData (key "payment_method") = PhpVal.str "bitcoin"
      ∧ isset requestData (key "checksum") = true :=
  ⟨by decide, _, rfl, by decide, by decide⟩

/-- What the phone pattern accepts: ten decimal digits, optionally followed by one line feed. -/
theorem pregMatchPhone_iff (s : String) :
    pregMatchPhone s = true ↔
      ∃ ds : List Char, ds.length = 10 ∧ (∀ c ∈ ds, c.isDigit = true)
        ∧ (s.data = ds ∨ s.data = ds ++ ['\n']) := by
  unfold pregMatchPhone dollarAssertion
  simp only [Bool.and_eq_true, Bool.or_eq_true, decide_eq_true_eq, List.all_eq_true, beq_iff_eq]
  constructor
  · rintro ⟨⟨hlen, hdig⟩, hrest⟩
    refine ⟨s.data.take 10, by rw [List.length_take]; exact Nat.min_eq_left hlen, hdig, ?_⟩
    rcases hrest with h | h
    · left
      have := List.take_append_drop 10 s.data
      rw [h, List.append_nil] at this
      exact this.symm
    · right
      have := List.take_append_drop 10 s.data
      rw [h] at this
      exact this.symm
  · rintro ⟨ds, hlen, hdig, h | h⟩
    · rw [h]
      refine ⟨⟨by omega, ?_⟩, Or.inl ?_⟩
      · rw [List.take_of_length_le (by omega)]; exact hdig
      · rw [List.drop_of_length_le (by omega)]
    · rw [h]
      refine ⟨⟨by simp; omega, ?_⟩, Or.inr ?_⟩
      · rw [List.take_append_of_le_length (by omega), List.take_of_length_le (by omega)]
        exact hdig
      · rw [List.drop_append_of_le_length (by omega), List.drop_of_length_le (by omega)]
        rfl

/-- Outside the supported mandate types the loose membership test fails. -/
theorem in_array_mandate_types (mandateType : String) (h1 : mandateType ≠ "nach")
    (h2 : mandateType ≠ "upi_autopay") :
    in_array (some mandateType) ["nach", "upi_autopay"] = false := by
  have n1 : numericString "nach" = none := by with_unfolding_all decide
  have n2 : numericString "upi_autopay" = none := by with_unfolding_all decide
  simp only [in_array, looseEq, List.any_cons, List.any_nil, n1, n2]
  cases numericString mandateType <;> simp [h1, h2]

/-- The mandate half of C10: a mandate type other than `nach` and `upi_autopay` makes
`createPaymentMandate` fail with `OnopayRequestException` before any effect. -/
theorem createPaymentMandate_rejects_unknown_type (H : String → String) (rnd : ℚ → Nat → Nat)
    (gw : OnopayIndiaGateway) (transport : Nat → CurlResult)
    (json_decode : String → Option PhpArray) (orderId : String) (amount : PhpFloat)
    (customerName customerEmail customerPhone bankAccount ifsc mandateType frequency startDate
      endDate : String) (h1 : mandateType ≠ "nach") (h2 : mandateType ≠ "upi_autopay") :
    ∃ msg, createPaymentMandate H rnd gw transport json_decode orderId amount customerName
        customerEmail customerPhone bankAccount ifsc mandateType frequency startDate endDate
      = (Except.error (OnopayException.request msg), []) := by
  have hin := in_array_mandate_types mandateType h1 h2
  unfold createPaymentMandate validateMandateParameters
  simp only [hin, Bool.not_false, if_true]
  split_ifs <;> exact ⟨_, rfl⟩

/-! ## Merging and signing requests -/

theorem lookup_mergeInto (xs : PhpArray) :
    ∀ (acc : PhpArray) (n : Int) (s : String),
      List.lookup (key s) (mergeInto acc n xs)
        = (List.lookup (key s) xs.reverse).or (List.lookup (key s) acc) := by
  induction xs with
  | nil => intro acc n s; simp [mergeInto]
  | cons p rest ih =>
    intro acc n s
    obtain ⟨pk, pv⟩ := p
    cases pk with
    | int i =>
      have hne : ¬ key s = PhpKey.int n := fun h => by cases h
      have hne2 : ¬ key s = PhpKey.int i := fun h => by cases h
      simp only [mergeInto, ih, List.reverse_cons, lookup_append_pair, hne, hne2, if_false]
      cases List.lookup (key s) rest.reverse <;> cases List.lookup (key s) acc <;> rfl
    | str t =>
      simp only [mergeInto, ih, List.reverse_cons, lookup_append_pair, lookup_arraySet]
      cases List.lookup (key s) rest.reverse with
      | some x => rfl
      | none =>
        by_cases hst : key s = PhpKey.str t
        · simp [hst]
        · simp [hst]

theorem lookup_reverse_none (xs : PhpArray) (k : PhpKey) (h : List.lookup k xs = none) :
    List.lookup k xs.reverse = none := by
  rw [List.lookup_eq_none_iff] at h ⊢
  intro p hp
  exact h p (List.mem_reverse.1 hp)

/-- A string key that the second array does not carry keeps, after `array_merge`, the value
found in the first array (its last occurrence there). -/
theorem lookup_array_merge_of_absent (a b : PhpArray) (s : String)
    (hb : List.lookup (key s) b = none) :
    List.lookup (key s) (array_merge a b) = List.lookup (key s) a.reverse := by
  unfold array_merge
  rw [lookup_mergeInto, List.reverse_append, List.lookup_append, lookup_reverse_none b _ hb]
  simp [Option.or_none]

theorem arraySet_of_absent (a : PhpArray) (k : PhpKey) (v : PhpVal)
    (h : List.lookup k a = none) : arraySet a k v = a ++ [(k, v)] := by
  unfold arraySet
  rw [(any_key_eq_false a k).2 h]
  simp

theorem lastKey_arraySet_of_absent (a : PhpArray) (k : PhpKey) (v : PhpVal)
    (h : List.lookup k a = none) : (arrayKeys (arraySet a k v)).getLast? = some k := by
  rw [arraySet_of_absent a k v h]
  simp [arrayKeys]

/-- No entry under the key `checksum` takes part in the hashed string. -/
theorem generateIndianChecksum_ignores_checksum_entry (H : String → String)
    (gw : OnopayIndiaGateway) (data : PhpArray) :
    generateIndianChecksum H gw data
      = generateIndianChecksum H gw (arrayUnset data (key "checksum")) := by
  unfold generateIndianChecksum finalStringToHash
  rw [checksumValues_congr data (arrayUnset data (key "checksum"))]
  intro k hk
  rw [arrayGet_arrayUnset]
  simp [key_ne_checksum k hk]

theorem any_isArray_arraySet (a : PhpArray) (k : PhpKey) (v : PhpVal)
    (ha : a.any (fun p => isArray p.2) = false) (hv : isArray v = false) :
    (arraySet a k v).any (fun p => isArray p.2) = false := by
  rw [List.any_eq_false] at ha ⊢
  intro p hp
  unfold arraySet at hp
  split at hp
  · rw [List.mem_map] at hp
    obtain ⟨q, hq, hqp⟩ := hp
    split at hqp
    · rw [← hqp]
      simp [hv]
    · rw [← hqp]
      exact ha q hq
  · rw [List.mem_append] at hp
    rcases hp with hp | hp
    · exact ha p hp
    · rw [List.mem_singleton] at hp
      rw [hp]
      simp [hv]

theorem any_isArray_mergeInto (xs : PhpArray) :
    ∀ (acc : PhpArray) (next : Int), acc.any (fun p => isArray p.2) = false →
      xs.any (fun p => isArray p.2) = false →
      (mergeInto acc next xs).any (fun p => isArray p.2) = false := by
  induction xs with
  | nil =>
    intro acc next hacc _
    exact hacc
  | cons x rest ih =>
    intro acc next hacc hxs
    rw [List.any_cons, Bool.or_eq_false_iff] at hxs
    obtain ⟨k, v⟩ := x
    cases k with
    | int i =>
      rw [mergeInto]
      apply ih _ _ _ hxs.2
      rw [List.any_append, hacc]
      simpa using hxs.1
    | str t =>
      rw [mergeInto]
      exact ih _ _ (any_isArray_arraySet acc _ v hacc hxs.1) hxs.2

/-- The signed mapping holds no array value when the additional parameters hold none. -/
theorem indianPaymentRequestData_scalars (H : String → String) (rnd : ℚ → Nat → Nat)
    (gw : OnopayIndiaGateway) (orderId : String) (amount : PhpFloat)
    (customerName customerEmail customerPhone redirectUrl paymentMethod description : String)
    (additionalParams : PhpArray)
    (hscalar : additionalParams.any (fun p => isArray p.2) = false) :
    (indianPaymentRequestData H rnd gw orderId amount customerName customerEmail customerPhone
      redirectUrl paymentMethod description additionalParams).any (fun p => isArray p.2)
      = false := by
  unfold indianPaymentRequestData
  refine any_isArray_arraySet _ _ (PhpVal.str _) ?_ rfl
  unfold array_merge
  refine any_isArray_mergeInto _ [] 0 rfl ?_
  rw [List.any_append, hscalar, Bool.or_false]
  split
  · exact any_isArray_arraySet _ _ (PhpVal.str _)
      (any_isArray_arraySet _ _ (PhpVal.str _) rfl rfl) rfl
  · rfl

theorem initiateIndianPayment_of_valid (H : String → String) (rnd : ℚ → Nat → Nat)
    (gw : OnopayIndiaGateway)
    (orderId : String) (amount : PhpFloat) (customerName customerEmail customerPhone redirectUrl
      paymentMethod description : String) (additionalParams : PhpArray)
    (hvalid : validateIndianPaymentParameters gw orderId amount customerPhone = Except.ok ()) :
    (initiateIndianPayment H rnd gw orderId amount customerName customerEmail customerPhone
        redirectUrl paymentMethod description additionalParams).2
      = [Event.renderPaymentForm gw.paymentInitiateUrl
          (indianPaymentRequestData H rnd gw orderId amount customerName customerEmail customerPhone
            redirectUrl paymentMethod description additionalParams)]
    ∧ (additionalParams.any (fun p => isArray p.2) = false →
      initiateIndianPayment H rnd gw orderId amount customerName customerEmail customerPhone
        redirectUrl paymentMethod description additionalParams
      = (Except.ok (), [Event.renderPaymentForm gw.paymentInitiateUrl
          (indianPaymentRequestData H rnd gw orderId amount customerName customerEmail customerPhone
            redirectUrl paymentMethod description additionalParams)])) := by
  unfold initiateIndianPayment
  rw [hvalid]
  refine ⟨rfl, fun hscalar => ?_⟩
  simp only [renderPaymentForm]
  rw [indianPaymentRequestData_scalars H rnd gw orderId amount customerName customerEmail
    customerPhone redirectUrl paymentMethod description additionalParams hscalar]
  rfl

theorem executeCurlRequest_first_event (transport : Nat → CurlResult) (calls : Nat)
    (url : String) (postData : PhpArray) (headers : List String) (retry : Nat) :
    (executeCurlRequest transport calls url postData "POST" headers retry).2.head?
      = some (Event.curlExec url (some postData) headers) := by
  rw [executeCurlRequest]
  simp only [post_toUpper, if_true]
  split
  · split <;> rfl
  · rfl

theorem initiateUPIPayment_events (H : String → String) (rnd : ℚ → Nat → Nat) (gw : OnopayIndiaGateway)
    (transport : Nat → CurlResult) (json_decode : String → Option PhpArray) (orderId : String)
    (amount : PhpFloat) (customerPhone redirectUrl description upiFlow : String)
    (hvalid : validateUPIParameters orderId amount customerPhone = Except.ok ()) :
    (initiateUPIPayment H rnd gw transport json_decode orderId amount customerPhone redirectUrl
        description upiFlow).2
      = (executeCurlRequest transport 0 gw.upiCollectUrl
          (upiRequestData H rnd gw orderId amount customerPhone redirectUrl description upiFlow)
          "POST" [] 0).2 := by
  unfold initiateUPIPayment
  rw [hvalid]
  dsimp only
  split <;> rfl

theorem createPaymentMandate_events (H : String → String) (rnd : ℚ → Nat → Nat) (gw : OnopayIndiaGateway)
    (transport : Nat → CurlResult) (json_decode : String → Option PhpArray) (orderId : String)
    (amount : PhpFloat) (customerName customerEmail customerPhone bankAccount ifsc mandateType
      frequency startDate endDate : String)
    (hvalid : validateMandateParameters orderId amount customerPhone bankAccount ifsc mandateType
      = Except.ok ()) :
    (createPaymentMandate H rnd gw transport json_decode orderId amount customerName customerEmail
        customerPhone bankAccount ifsc mandateType frequency startDate endDate).2
      = (executeCurlRequest transport 0 gw.mandateUrl
          (mandateRequestData H rnd gw orderId amount customerName customerEmail customerPhone
            bankAccount ifsc mandateType frequency startDate endDate)
          "POST" [] 0).2 := by
  unfold createPaymentMandate
  rw [hvalid]
  dsimp only
  split <;> rfl

theorem checksumValues_arraySet_checksum (d : PhpArray) (v : PhpVal) :
    checksumValues (arraySet d (key "checksum") v) = checksumValues d := by
  apply checksumValues_congr
  intro k hk
  rw [arrayGet_arraySet]
  simp [key_ne_checksum k hk]

/-- The mapping obtained by attaching the generated checksum carries the digest of its own
hashed values joined by `|`, then `|` and the request secret. -/
theorem signed_mapping_checksum (H : String → String) (gw : OnopayIndiaGateway) (d : PhpArray) :
    arrayGet (arraySet d (key "checksum") (PhpVal.str (generateIndianChecksum H gw d)))
        (key "checksum")
      = PhpVal.str (H (implode "|"
          (checksumValues (arraySet d (key "checksum") (PhpVal.str (generateIndianChecksum H gw d))))
          ++ "|" ++ gw.saltKeyRequest)) := by
  rw [arrayGet_arraySet, checksumValues_arraySet_checksum]
  rfl

theorem upiRequestData_values (H : String → String) (rnd : ℚ → Nat → Nat) (gw : OnopayIndiaGateway)
    (orderId : String) (amount : PhpFloat) (customerPhone redirectUrl description upiFlow : String) :
    checksumValues (upiRequestData H rnd gw orderId amount customerPhone redirectUrl description
        upiFlow)
      = [gw.merchantId, gw.apiKey, orderId, number_format rnd amount 2, "INR", customerPhone,
          "upi"] := by
  unfold upiRequestData
  rw [checksumValues_arraySet_checksum]
  rfl

theorem mandateRequestData_values (H : String → String) (rnd : ℚ → Nat → Nat) (gw : OnopayIndiaGateway)
    (orderId : String) (amount : PhpFloat) (customerName customerEmail customerPhone bankAccount ifsc
      mandateType frequency startDate endDate : String) :
    checksumValues (mandateRequestData H rnd gw orderId amount customerName customerEmail
        customerPhone bankAccount ifsc mandateType frequency startDate endDate)
      = [gw.merchantId, gw.apiKey, orderId, number_format rnd amount 2, "INR", customerEmail,
          customerPhone, gw.gstNumber] := by
  unfold mandateRequestData
  rw [checksumValues_arraySet_checksum]
  rfl

theorem indianPaymentRequestData_values (H : String → String) (rnd : ℚ → Nat → Nat) (gw : OnopayIndiaGateway)
    (orderId : String) (amount : PhpFloat) (customerName customerEmail customerPhone redirectUrl
      paymentMethod description : String) (additionalParams : PhpArray)
    (hfree : ∀ f ∈ fieldsToHash, List.lookup (key f) additionalParams = none) :
    checksumValues (indianPaymentRequestData H rnd gw orderId amount customerName customerEmail
        customerPhone redirectUrl paymentMethod description additionalParams)
      = [gw.merchantId, gw.apiKey, orderId, number_format rnd amount 2, "INR", customerEmail,
          customerPhone, paymentMethod, gw.gstNumber] := by
  unfold indianPaymentRequestData
  rw [checksumValues_arraySet_checksum]
  have hcv : ∀ base : PhpArray,
      (∀ k ∈ fieldsToHash, List.lookup (key k) base.reverse
        = List.lookup (key k) ([
          (key "merchant_id", PhpVal.str gw.merchantId),
          (key "api_key", PhpVal.str gw.apiKey),
          (key "order_id", PhpVal.str orderId),
          (key "amount", PhpVal.str (number_format rnd amount 2)),
          (key "currency", PhpVal.str "INR"),
          (key "customer_email", PhpVal.str customerEmail),
          (key "customer_phone", PhpVal.str customerPhone),
          (key "payment_method", PhpVal.str paymentMethod),
          (key "gst_number", PhpVal.str gw.gstNumber)] : PhpArray)) →
      checksumValues (array_merge base additionalParams)
        = [gw.merchantId, gw.apiKey, orderId, number_format rnd amount 2,
          "INR", customerEmail, customerPhone, paymentMethod, gw.gstNumber] := by
    intro base hbase
    rw [checksumValues_congr (array_merge base additionalParams) [
          (key "merchant_id", PhpVal.str gw.merchantId),
          (key "api_key", PhpVal.str gw.apiKey),
          (key "order_id", PhpVal.str orderId),
          (key "amount", PhpVal.str (number_format rnd amount 2)),
          (key "currency", PhpVal.str "INR"),
          (key "customer_email", PhpVal.str customerEmail),
          (key "customer_phone", PhpVal.str customerPhone),
          (key "payment_method", PhpVal.str paymentMethod),
          (key "gst_number", PhpVal.str gw.gstNumber)]]
    · rfl
    · intro k hk
      unfold arrayGet
      rw [lookup_array_merge_of_absent _ _ _ (hfree k hk), hbase k hk]
  by_cases hupi : paymentMethod = "upi"
  · simp only [hupi, if_true]
    rw [← hupi, hcv]
    intro k hk
    simp only [fieldsToHash, List.mem_cons, List.mem_singleton, List.not_mem_nil, or_false] at hk
    rcases hk with h | h | h | h | h | h | h | h | h <;> subst h <;> rfl
  · simp only [hupi, if_false]
    rw [hcv]
    intro k hk
    simp only [fieldsToHash, List.mem_cons, List.mem_singleton, List.not_mem_nil, or_false] at hk
    rcases hk with h | h | h | h | h | h | h | h | h <;> subst h <;> rfl

theorem indianPaymentRequestData_lastKey (H : String → String) (rnd : ℚ → Nat → Nat) (gw : OnopayIndiaGateway)
    (orderId : String) (amount : PhpFloat) (customerName customerEmail customerPhone redirectUrl
      paymentMethod description : String) (additionalParams : PhpArray)
    (hfree : List.lookup (key "checksum") additionalParams = none) :
    (arrayKeys (indianPaymentRequestData H rnd gw orderId amount customerName customerEmail
        customerPhone redirectUrl paymentMethod description additionalParams)).getLast?
      = some (key "checksum") := by
  unfold indianPaymentRequestData
  apply lastKey_arraySet_of_absent
  rw [lookup_array_merge_of_absent _ _ _ hfree]
  by_cases hupi : paymentMethod = "upi"
  · simp only [hupi, if_true]; rfl
  · simp only [hupi, if_false]; rfl

/-- C5, as stated, fails for the UPI action: the request it sends has no `customer_email` and no
`gst_number`, so seven values are hashed, not nine.  With the identity as digest the attached
checksum shows the hashed string itself. -/
theorem upi_checksum_hashes_seven_values :
    validateUPIParameters "ORD1" 10 "9876543210" = Except.ok ()
    ∧ arrayGet (upiRequestData id roundHalfUp sampleGateway "ORD1" 10 "9876543210"
        "https://shop.example/back" "UPI Payment" "collect") (key "checksum")
      = PhpVal.str "M1|K1|ORD1|10.00|INR|9876543210|upi|REQ"
    ∧ isset (upiRequestData id roundHalfUp sampleGateway "ORD1" 10 "9876543210"
        "https://shop.example/back" "UPI Payment" "collect") (key "customer_email") = false
    ∧ isset (upiRequestData id roundHalfUp sampleGateway "ORD1" 10 "9876543210"
        "https://shop.example/back" "UPI Payment" "collect") (key "gst_number") = false
    ∧ (checksumValues (upiRequestData id roundHalfUp sampleGateway "ORD1" 10 "9876543210"
        "https://shop.example/back" "UPI Payment" "collect")).length = 7
    ∧ (initiateUPIPayment id roundHalfUp sampleGateway
        (fun _ => { response := "ok", error := "", httpCode := 200 }) (fun _ => none)
        "ORD1" 10 "9876543210" "https://shop.example/back" "UPI Payment" "collect").2.head?
      = some (Event.curlExec "https://api.onopay.in/upi/collect"
          (some (upiRequestData id roundHalfUp sampleGateway "ORD1" 10 "9876543210"
            "https://shop.example/back" "UPI Payment" "collect")) []) := by
  refine ⟨by decide, ?_, by decide, by decide, by decide, ?_⟩
  · with_unfolding_all decide
  · rw [initiateUPIPayment_events id roundHalfUp sampleGateway _ _ "ORD1" 10 "9876543210"
      "https://shop.example/back" "UPI Payment" "collect" (by decide)]
    exact executeCurlRequest_first_event _ _ _ _ _ _

/-- C5, amended: the attached checksum is the digest of the values of those of the nine fields
that are set in the request mapping, in the fixed order, joined by `|`, followed by `|` and the
request secret.  These are all nine for `initiateIndianPayment` when `additionalParams` sets
none of the nine keys, the seven other than `customer_email` and `gst_number` for
`initiateUPIPayment`, and the eight other than `payment_method` for `createPaymentMandate`.
Every transport call of the two API actions carries that signed mapping. -/
theorem request_checksum_over_present_fields (H : String → String) (rnd : ℚ → Nat → Nat)
    (gw : OnopayIndiaGateway)
    (transport : Nat → CurlResult) (json_decode : String → Option PhpArray)
    (orderId : String) (amount : PhpFloat) (customerName customerEmail customerPhone redirectUrl
      paymentMethod description upiFlow bankAccount ifsc mandateType frequency startDate
      endDate : String) (additionalParams : PhpArray) :
    (validateIndianPaymentParameters gw orderId amount customerPhone = Except.ok () →
      ∃ requestData,
        (initiateIndianPayment H rnd gw orderId amount customerName customerEmail customerPhone
            redirectUrl paymentMethod description additionalParams).2
          = [Event.renderPaymentForm gw.paymentInitiateUrl requestData]
        ∧ (additionalParams.any (fun p => isArray p.2) = false →
          initiateIndianPayment H rnd gw orderId amount customerName customerEmail customerPhone
              redirectUrl paymentMethod description additionalParams
            = (Except.ok (), [Event.renderPaymentForm gw.paymentInitiateUrl requestData]))
        ∧ arrayGet requestData (key "checksum")
          = PhpVal.str (H (implode "|" (checksumValues requestData) ++ "|" ++ gw.saltKeyRequest))
        ∧ ((∀ f ∈ fieldsToHash, List.lookup (key f) additionalParams = none) →
          checksumValues requestData
            = [gw.merchantId, gw.apiKey, orderId, number_format rnd amount 2, "INR", customerEmail,
                customerPhone, paymentMethod, gw.gstNumber]))
    ∧ (validateUPIParameters orderId amount customerPhone = Except.ok () →
      ∃ requestData,
        (initiateUPIPayment H rnd gw transport json_decode orderId amount customerPhone redirectUrl
            description upiFlow).2.head?
          = some (Event.curlExec gw.upiCollectUrl (some requestData) [])
        ∧ (∀ ev ∈ (initiateUPIPayment H rnd gw transport json_decode orderId amount customerPhone
              redirectUrl description upiFlow).2,
            ev = Event.sleep ONOPAY_RETRY_DELAY
              ∨ ev = Event.curlExec gw.upiCollectUrl (some requestData) [])
        ∧ arrayGet requestData (key "checksum")
          = PhpVal.str (H (implode "|" (checksumValues requestData) ++ "|" ++ gw.saltKeyRequest))
        ∧ checksumValues requestData
          = [gw.merchantId, gw.apiKey, orderId, number_format rnd amount 2, "INR", customerPhone,
              "upi"])
    ∧ (validateMandateParameters orderId amount customerPhone bankAccount ifsc mandateType
        = Except.ok () →
      ∃ requestData,
        (createPaymentMandate H rnd gw transport json_decode orderId amount customerName
            customerEmail customerPhone bankAccount ifsc mandateType frequency startDate
            endDate).2.head?
          = some (Event.curlExec gw.mandateUrl (some requestData) [])
        ∧ (∀ ev ∈ (createPaymentMandate H rnd gw transport json_decode orderId amount customerName
              customerEmail customerPhone bankAccount ifsc mandateType frequency startDate
              endDate).2,
            ev = Event.sleep ONOPAY_RETRY_DELAY
              ∨ ev = Event.curlExec gw.mandateUrl (some requestData) [])
        ∧ arrayGet requestData (key "checksum")
          = PhpVal.str (H (implode "|" (checksumValues requestData) ++ "|" ++ gw.saltKeyRequest))
        ∧ checksumValues requestData
          = [gw.merchantId, gw.apiKey, orderId, number_format rnd amount 2, "INR", customerEmail,
              customerPhone, gw.gstNumber]) := by
  refine ⟨?_, ?_, ?_⟩
  · intro hvalid
    refine ⟨_, (initiateIndianPayment_of_valid H rnd gw orderId amount customerName customerEmail
      customerPhone redirectUrl paymentMethod description additionalParams hvalid).1,
      (initiateIndianPayment_of_valid H rnd gw orderId amount customerName customerEmail
      customerPhone redirectUrl paymentMethod description additionalParams hvalid).2, ?_,
      indianPaymentRequestData_values H rnd gw orderId amount customerName customerEmail
        customerPhone redirectUrl paymentMethod description additionalParams⟩
    unfold indianPaymentRequestData
    exact signed_mapping_checksum H gw _
  · intro hvalid
    refine ⟨upiRequestData H rnd gw orderId amount customerPhone redirectUrl description upiFlow,
      ?_, ?_, ?_, upiRequestData_values H rnd gw orderId amount customerPhone redirectUrl description
        upiFlow⟩
    · rw [initiateUPIPayment_events H rnd gw transport json_decode orderId amount customerPhone
        redirectUrl description upiFlow hvalid]
      exact executeCurlRequest_first_event _ _ _ _ _ _
    · rw [initiateUPIPayment_events H rnd gw transport json_decode orderId amount customerPhone
        redirectUrl description upiFlow hvalid]
      exact executeCurlRequest_events transport _ _ [] _ 0 0 rfl
    · unfold upiRequestData
      exact signed_mapping_checksum H gw _
  · intro hvalid
    refine ⟨mandateRequestData H rnd gw orderId amount customerName customerEmail customerPhone
      bankAccount ifsc mandateType frequency startDate endDate, ?_, ?_, ?_,
      mandateRequestData_values H rnd gw orderId amount customerName customerEmail customerPhone
        bankAccount ifsc mandateType frequency startDate endDate⟩
    · rw [createPaymentMandate_events H rnd gw transport json_decode orderId amount customerName
        customerEmail customerPhone bankAccount ifsc mandateType frequency startDate endDate
        hvalid]
      exact executeCurlRequest_first_event _ _ _ _ _ _
    · rw [createPaymentMandate_events H rnd gw transport json_decode orderId amount customerName
        customerEmail customerPhone bankAccount ifsc mandateType frequency startDate endDate
        hvalid]
      exact executeCurlRequest_events transport _ _ [] _ 0 0 rfl
    · unfold mandateRequestData
      exact signed_mapping_checksum H gw _

/-- C5 amended, at a valid mandate creation: the transport call carries a mapping whose
checksum covers eight values. -/
theorem request_checksum_over_present_fields_witness :
    validateMandateParameters "ORD1" 10 "9876543210" "123456" "HDFC0001234" "nach" = Except.ok ()
    ∧ ∃ requestData,
        (createPaymentMandate id roundHalfUp sampleGateway
            (fun _ => { response := "ok", error := "", httpCode := 200 }) (fun _ => none)
            "ORD1" 10 "N" "e@shop.example" "9876543210" "123456" "HDFC0001234" "nach" "MONTHLY"
            "2026-01-01" "2027-01-01").2.head?
          = some (Event.curlExec sampleGateway.mandateUrl (some requestData) [])
        ∧ (∀ ev ∈ (createPaymentMandate id roundHalfUp sampleGateway
              (fun _ => { response := "ok", error := "", httpCode := 200 }) (fun _ => none)
              "ORD1" 10 "N" "e@shop.example" "9876543210" "123456" "HDFC0001234" "nach" "MONTHLY"
              "2026-01-01" "2027-01-01").2,
            ev = Event.sleep ONOPAY_RETRY_DELAY
              ∨ ev = Event.curlExec sampleGateway.mandateUrl (some requestData) [])
        ∧ arrayGet requestData (key "checksum")
          = PhpVal.str (id (implode "|" (checksumValues requestData) ++ "|"
              ++ sampleGateway.saltKeyRequest))
        ∧ checksumValues requestData
          = [sampleGateway.merchantId, sampleGateway.apiKey, "ORD1", number_format roundHalfUp 10 2,
              "INR",
              "e@shop.example", "9876543210", sampleGateway.gstNumber] :=
  ⟨by with_unfolding_all decide,
    (request_checksum_over_present_fields id roundHalfUp sampleGateway
      (fun _ => { response := "ok", error := "", httpCode := 200 }) (fun _ => none)
      "ORD1" 10 "N" "e@shop.example" "9876543210" "https://shop.example/back" "card"
      "Payment for Order" "collect" "123456" "HDFC0001234" "nach" "MONTHLY" "2026-01-01"
      "2027-01-01" []).2.2 (by with_unfolding_all decide)⟩

/-- C6, as stated, fails when `additionalParams` already carries a `checksum` key followed by
another key: the assignment overwrites the existing entry in place, so the last key of the
signed mapping is `note`, not `checksum`. -/
theorem checksum_not_last_with_additional_checksum :
    validateIndianPaymentParameters sampleGateway "ORD1" 10 "9876543210" = Except.ok ()
    ∧ initiateIndianPayment id roundHalfUp sampleGateway "ORD1" 10 "N" "e@shop.example" "9876543210"
          "https://shop.example/back" "card" "Payment for Order"
          [(key "checksum", PhpVal.str "x"), (key "note", PhpVal.str "y")]
        = (Except.ok (), [Event.renderPaymentForm sampleGateway.paymentInitiateUrl
            (indianPaymentRequestData id roundHalfUp sampleGateway "ORD1" 10 "N" "e@shop.example"
              "9876543210" "https://shop.example/back" "card" "Payment for Order"
              [(key "checksum", PhpVal.str "x"), (key "note", PhpVal.str "y")])])
    ∧ (arrayKeys (indianPaymentRequestData id roundHalfUp sampleGateway "ORD1" 10 "N" "e@shop.example"
          "9876543210" "https://shop.example/back" "card" "Payment for Order"
          [(key "checksum", PhpVal.str "x"), (key "note", PhpVal.str "y")])).getLast?
        = some (key "note") :=
  ⟨by decide, rfl, by decide⟩

/-- C6, amended: the `checksum` key is the last key of the signed mapping of
`initiateIndianPayment` whenever `additionalParams` has no `checksum` key, and always for
`initiateUPIPayment` and `createPaymentMandate`; and the value `generateIndianChecksum`
computes does not depend on any `checksum` entry of the data it hashes. -/
theorem checksum_last_and_not_self_hashed (H : String → String) (rnd : ℚ → Nat → Nat)
    (gw : OnopayIndiaGateway)
    (transport : Nat → CurlResult) (json_decode : String → Option PhpArray)
    (orderId : String) (amount : PhpFloat) (customerName customerEmail customerPhone redirectUrl
      paymentMethod description upiFlow bankAccount ifsc mandateType frequency startDate
      endDate : String) (additionalParams : PhpArray) :
    (validateIndianPaymentParameters gw orderId amount customerPhone = Except.ok () →
      List.lookup (key "checksum") additionalParams = none →
      ∃ requestData,
        (initiateIndianPayment H rnd gw orderId amount customerName customerEmail customerPhone
            redirectUrl paymentMethod description additionalParams).2
          = [Event.renderPaymentForm gw.paymentInitiateUrl requestData]
        ∧ (additionalParams.any (fun p => isArray p.2) = false →
          initiateIndianPayment H rnd gw orderId amount customerName customerEmail customerPhone
              redirectUrl paymentMethod description additionalParams
            = (Except.ok (), [Event.renderPaymentForm gw.paymentInitiateUrl requestData]))
        ∧ (arrayKeys requestData).getLast? = some (key "checksum"))
    ∧ (validateUPIParameters orderId amount customerPhone = Except.ok () →
      ∃ requestData,
        (initiateUPIPayment H rnd gw transport json_decode orderId amount customerPhone redirectUrl
            description upiFlow).2.head?
          = some (Event.curlExec gw.upiCollectUrl (some requestData) [])
        ∧ (arrayKeys requestData).getLast? = some (key "checksum"))
    ∧ (validateMandateParameters orderId amount customerPhone bankAccount ifsc mandateType
        = Except.ok () →
      ∃ requestData,
        (createPaymentMandate H rnd gw transport json_decode orderId amount customerName
            customerEmail customerPhone bankAccount ifsc mandateType frequency startDate
            endDate).2.head?
          = some (Event.curlExec gw.mandateUrl (some requestData) [])
        ∧ (arrayKeys requestData).getLast? = some (key "checksum"))
    ∧ (∀ (data : PhpArray) (v : PhpVal),
        generateIndianChecksum H gw (arraySet data (key "checksum") v)
          = generateIndianChecksum H gw data
        ∧ generateIndianChecksum H gw (arrayUnset data (key "checksum"))
          = generateIndianChecksum H gw data) := by
  refine ⟨?_, ?_, ?_, ?_⟩
  · intro hvalid hfree
    exact ⟨_, (initiateIndianPayment_of_valid H rnd gw orderId amount customerName customerEmail
      customerPhone redirectUrl paymentMethod description additionalParams hvalid).1,
      (initiateIndianPayment_of_valid H rnd gw orderId amount customerName customerEmail
      customerPhone redirectUrl paymentMethod description additionalParams hvalid).2,
      indianPaymentRequestData_lastKey H rnd gw orderId amount customerName customerEmail
        customerPhone redirectUrl paymentMethod description additionalParams hfree⟩
  · intro hvalid
    refine ⟨upiRequestData H rnd gw orderId amount customerPhone redirectUrl description upiFlow,
      ?_, rfl⟩
    rw [initiateUPIPayment_events H rnd gw transport json_decode orderId amount customerPhone
      redirectUrl description upiFlow hvalid]
    exact executeCurlRequest_first_event _ _ _ _ _ _
  · intro hvalid
    refine ⟨mandateRequestData H rnd gw orderId amount customerName customerEmail customerPhone
      bankAccount ifsc mandateType frequency startDate endDate, ?_, rfl⟩
    rw [createPaymentMandate_events H rnd gw transport json_decode orderId amount customerName
      customerEmail customerPhone bankAccount ifsc mandateType frequency startDate endDate
      hvalid]
    exact executeCurlRequest_first_event _ _ _ _ _ _
  · intro data v
    constructor
    · rw [generateIndianChecksum_ignores_checksum_entry H gw (arraySet data (key "checksum") v),
        generateIndianChecksum_ignores_checksum_entry H gw data]
      unfold generateIndianChecksum finalStringToHash
      rw [checksumValues_congr]
      intro k hk
      rw [arrayGet_arrayUnset, arrayGet_arrayUnset, arrayGet_arraySet]
      simp [key_ne_checksum k hk]
    · exact (generateIndianChecksum_ignores_checksum_entry H gw data).symm

/-- C6 amended, at a valid payment initiation whose additional parameters carry one extra
field and no checksum. -/
theorem checksum_last_and_not_self_hashed_witness :
    validateIndianPaymentParameters sampleGateway "ORD1" 10 "9876543210" = Except.ok ()
    ∧ List.lookup (key "checksum") ([(key "note", PhpVal.str "y")] : PhpArray) = none
    ∧ ∃ requestData,
        (initiateIndianPayment id roundHalfUp sampleGateway "ORD1" 10 "N" "e@shop.example"
            "9876543210" "https://shop.example/back" "upi" "Payment for Order"
            [(key "note", PhpVal.str "y")]).2
          = [Event.renderPaymentForm sampleGateway.paymentInitiateUrl requestData]
        ∧ (([(key "note", PhpVal.str "y")] : PhpArray).any (fun p => isArray p.2) = false →
          initiateIndianPayment id roundHalfUp sampleGateway "ORD1" 10 "N" "e@shop.example"
              "9876543210" "https://shop.example/back" "upi" "Payment for Order"
              [(key "note", PhpVal.str "y")]
            = (Except.ok (),
                [Event.renderPaymentForm sampleGateway.paymentInitiateUrl requestData]))
        ∧ (arrayKeys requestData).getLast? = some (key "checksum") :=
  ⟨by decide, by decide,
    (checksum_last_and_not_self_hashed id roundHalfUp sampleGateway
      (fun _ => { response := "", error := "", httpCode := 200 }) (fun _ => none)
      "ORD1" 10 "N" "e@shop.example" "9876543210" "https://shop.example/back" "upi"
      "Payment for Order" "collect" "123456" "HDFC0001234" "nach" "MONTHLY" "2026-01-01"
      "2027-01-01" [(key "note", PhpVal.str "y")]).1 (by decide) (by decide)⟩

/-- What the IFSC pattern accepts: four upper-case letters, the digit zero, six upper-case
letters or digits, optionally followed by one line feed. -/
theorem pregMatchIfsc_iff (s : String) :
    pregMatchIfsc s = true ↔
      ∃ a b : List Char, a.length = 4 ∧ (∀ c ∈ a, isUpperAZ c = true)
        ∧ b.length = 6 ∧ (∀ c ∈ b, isUpperAZ09 c = true)
        ∧ (s.data = a ++ '0' :: b ∨ s.data = a ++ '0' :: (b ++ ['\n'])) := by
  unfold pregMatchIfsc dollarAssertion
  simp only [Bool.and_eq_true, Bool.or_eq_true, decide_eq_true_eq, List.all_eq_true, beq_iff_eq]
  constructor
  · rintro ⟨⟨⟨⟨hlen, ha⟩, hzero⟩, hb⟩, hrest⟩
    have h4 : s.data = s.data.take 4 ++ s.data.drop 4 := (List.take_append_drop 4 s.data).symm
    have h5 : s.data.drop 4 = (s.data.drop 4).take 1 ++ s.data.drop 5 := by
      have := (List.take_append_drop 1 (s.data.drop 4)).symm
      rwa [List.drop_drop] at this
    have h11 : s.data.drop 5 = (s.data.drop 5).take 6 ++ s.data.drop 11 := by
      have := (List.take_append_drop 6 (s.data.drop 5)).symm
      rwa [List.drop_drop] at this
    refine ⟨s.data.take 4, (s.data.drop 5).take 6, ?_, ha, ?_, hb, ?_⟩
    · rw [List.length_take]; omega
    · rw [List.length_take, List.length_drop]; omega
    · rw [hzero] at h5
      rcases hrest with h | h
      · left
        rw [h, List.append_nil] at h11
        rw [← h11, ← List.singleton_append, ← h5]
        exact h4
      · right
        rw [h] at h11
        rw [← h11, ← List.singleton_append, ← h5]
        exact h4
  · rintro ⟨a, b, hla, ha, hlb, hb, h | h⟩
    · rw [h]
      have e4 : (a ++ '0' :: b).take 4 = a := by
        rw [List.take_append_of_le_length (by omega), List.take_of_length_le (by omega)]
      have d4 : (a ++ '0' :: b).drop 4 = '0' :: b := by
        rw [List.drop_append_of_le_length (by omega), List.drop_of_length_le (by omega)]
        rfl
      have d5 : (a ++ '0' :: b).drop 5 = b := by
        have : (a ++ '0' :: b).drop 5 = ((a ++ '0' :: b).drop 4).drop 1 := by
          rw [List.drop_drop]
        rw [this, d4]; rfl
      have d11 : (a ++ '0' :: b).drop 11 = [] := by
        apply List.drop_of_length_le
        simp; omega
      rw [e4, d4, d5, d11]
      refine ⟨⟨⟨⟨by simp; omega, ha⟩, rfl⟩, ?_⟩, Or.inl rfl⟩
      rw [List.take_of_length_le (by omega)]
      exact hb
    · rw [h]
      have e4 : (a ++ '0' :: (b ++ ['\n'])).take 4 = a := by
        rw [List.take_append_of_le_length (by omega), List.take_of_length_le (by omega)]
      have d4 : (a ++ '0' :: (b ++ ['\n'])).drop 4 = '0' :: (b ++ ['\n']) := by
        rw [List.drop_append_of_le_length (by omega), List.drop_of_length_le (by omega)]
        rfl
      have d5 : (a ++ '0' :: (b ++ ['\n'])).drop 5 = b ++ ['\n'] := by
        have : (a ++ '0' :: (b ++ ['\n'])).drop 5 = ((a ++ '0' :: (b ++ ['\n'])).drop 4).drop 1 := by
          rw [List.drop_drop]
        rw [this, d4]; rfl
      have d11 : (a ++ '0' :: (b ++ ['\n'])).drop 11 = ['\n'] := by
        have : (a ++ '0' :: (b ++ ['\n'])).drop 11 = ((a ++ '0' :: (b ++ ['\n'])).drop 5).drop 6 := by
          rw [List.drop_drop]
        rw [this, d5, List.drop_append_of_le_length (by omega), List.drop_of_length_le (by omega)]
        rfl
      rw [e4, d4, d5, d11]
      refine ⟨⟨⟨⟨by simp; omega, ha⟩, rfl⟩, ?_⟩, Or.inr rfl⟩
      rw [List.take_append_of_le_length (by omega), List.take_of_length_le (by omega)]
      exact hb

/-- The outcome of response verification does not depend on the configured response secret. -/
theorem verifyIndianResponseChecksum_ignores_response_secret (H : String → String)
    (gw : OnopayIndiaGateway) (secret : String) (r : PhpArray) :
    verifyIndianResponseChecksum H { gw with saltKeyResponse := secret } r
      = verifyIndianResponseChecksum H gw r := rfl


/-! ## Amount thresholds -/

/-- What PHP `empty` holds of a string: it is the empty string or the string "0". -/
theorem emptyString_iff (s : String) : emptyString s = true ↔ s = "" ∨ s = "0" := by
  simp [emptyString]

theorem emptyString_eq_false_iff (s : String) : emptyString s = false ↔ s ≠ "" ∧ s ≠ "0" := by
  simp [emptyString]

/-- A float above a number is a finite value above it or `INF`. -/
theorem phpFloat_lt_iff (n : Nat) (a : PhpFloat) :
    (OfNat.ofNat n : PhpFloat) < a ↔ (∃ q, a = PhpFloat.finite q ∧ (n : ℚ) < q) ∨ a = PhpFloat.inf := by
  change PhpFloat.lt (PhpFloat.finite (n : ℚ)) a = true ↔ _
  cases a <;> simp [PhpFloat.lt]

/-- A float at most a number is a finite value at most it or `-INF`. -/
theorem phpFloat_le_iff (n : Nat) (a : PhpFloat) :
    a ≤ (OfNat.ofNat n : PhpFloat)
      ↔ (∃ q, a = PhpFloat.finite q ∧ q ≤ (n : ℚ)) ∨ a = PhpFloat.negInf := by
  change PhpFloat.le a (PhpFloat.finite (n : ℚ)) = true ↔ _
  cases a <;> simp [PhpFloat.le]

theorem phpFloat_not_le_zero_of_pos (a : PhpFloat) (h : (0 : PhpFloat) < a) : ¬ a ≤ 0 := by
  rw [phpFloat_lt_iff] at h
  rw [phpFloat_le_iff]
  rcases h with ⟨q, rfl, hq⟩ | rfl
  · rintro (⟨p, hp, hle⟩ | h2)
    · cases hp
      exact absurd hq (not_lt.2 hle)
    · cases h2
  · rintro (⟨p, hp, _⟩ | h2)
    · cases hp
    · cases h2

/-- C11, as stated, fails at the order id "0": it is not the empty string, the amount 10 is
positive and below the threshold and the phone is valid, yet `validateIndianPaymentParameters`
fails, because `empty("0")` holds in PHP.  Likewise the PAN "0" is present, yet the amount
250000 is refused as if no PAN were configured. -/
theorem validateIndianPaymentParameters_zero_strings :
    "0" ≠ "" ∧ (0 : PhpFloat) < 10 ∧ pregMatchPhone "9876543210" = true
    ∧ ¬ ((200000 : PhpFloat) < 10)
    ∧ validateIndianPaymentParameters sampleGateway "0" 10 "9876543210"
      = Except.error (OnopayException.request "Order ID cannot be empty")
    ∧ (0 : PhpFloat) < 250000
    ∧ validateIndianPaymentParameters { sampleGateway with panNumber := "0" } "ORD1" 250000
        "9876543210"
      = Except.error (OnopayException.request
          "PAN number is required for transactions above 2 lakh INR") := by
  refine ⟨by decide, ?_, by decide, ?_, ?_, ?_, ?_⟩ <;> with_unfolding_all decide

/-- C11, amended: with an order id that is neither the empty string nor "0", a positive amount
(a finite float above zero, or `INF`) and a phone number the phone rule accepts,
`validateIndianPaymentParameters` fails exactly when the amount exceeds 200000 and the
configured PAN is the empty string or "0"; the failure is an `OnopayRequestException`.  An
amount of exactly 200000 passes whatever the PAN, and every amount passes when the PAN is
neither the empty string nor "0". -/
theorem validateIndianPaymentParameters_high_value (gw : OnopayIndiaGateway) (orderId : String)
    (amount : PhpFloat) (customerPhone : String) (horder1 : orderId ≠ "") (horder2 : orderId ≠ "0")
    (hpos : 0 < amount) (hphone : pregMatchPhone customerPhone = true) :
    ((∃ e, validateIndianPaymentParameters gw orderId amount customerPhone = Except.error e)
        ↔ (200000 < amount ∧ (gw.panNumber = "" ∨ gw.panNumber = "0")))
    ∧ (200000 < amount → (gw.panNumber = "" ∨ gw.panNumber = "0") →
        validateIndianPaymentParameters gw orderId amount customerPhone
          = Except.error (OnopayException.request
              "PAN number is required for transactions above 2 lakh INR"))
    ∧ (amount = 200000 →
        validateIndianPaymentParameters gw orderId amount customerPhone = Except.ok ())
    ∧ (gw.panNumber ≠ "" → gw.panNumber ≠ "0" →
        validateIndianPaymentParameters gw orderId amount customerPhone = Except.ok ()) := by
  have horder : emptyString orderId = false := (emptyString_eq_false_iff orderId).2 ⟨horder1, horder2⟩
  have hnot : ¬ amount ≤ 0 := phpFloat_not_le_zero_of_pos amount hpos
  have hform : validateIndianPaymentParameters gw orderId amount customerPhone
      = if amount > 200000 ∧ emptyString gw.panNumber = true then
          Except.error (OnopayException.request
            "PAN number is required for transactions above 2 lakh INR")
        else Except.ok () := by
    unfold validateIndianPaymentParameters
    simp [horder, hnot, hphone]
  have hpan := emptyString_iff gw.panNumber
  rw [hform]
  refine ⟨?_, ?_, ?_, ?_⟩
  · by_cases h : amount > 200000 ∧ emptyString gw.panNumber = true
    · rw [if_pos h]
      exact ⟨fun _ => ⟨h.1, hpan.1 h.2⟩, fun _ => ⟨_, rfl⟩⟩
    · rw [if_neg h]
      constructor
      · rintro ⟨e, he⟩
        cases he
      · intro h2
        exact absurd ⟨h2.1, hpan.2 h2.2⟩ h
  · intro h1 h2
    rw [if_pos ⟨h1, hpan.2 h2⟩]
  · intro h
    have : ¬ (amount > 200000 ∧ emptyString gw.panNumber = true) := by
      rintro ⟨h1, _⟩
      rw [h] at h1
      revert h1
      with_unfolding_all decide
    rw [if_neg this]
  · intro h1 h2
    have : ¬ (amount > 200000 ∧ emptyString gw.panNumber = true) := by
      rintro ⟨_, h3⟩
      rcases hpan.1 h3 with h4 | h4
      · exact h1 h4
      · exact h2 h4
    rw [if_neg this]

/-- C11 amended, at amount 250000 with an empty PAN: the request is refused. -/
theorem validateIndianPaymentParameters_high_value_witness :
    "ORD1" ≠ "" ∧ "ORD1" ≠ "0" ∧ (0 : PhpFloat) < 250000 ∧ pregMatchPhone "9876543210" = true
    ∧ validateIndianPaymentParameters { sampleGateway with panNumber := "" } "ORD1" 250000
        "9876543210"
      = Except.error (OnopayException.request
          "PAN number is required for transactions above 2 lakh INR") :=
  ⟨by decide, by decide, by with_unfolding_all decide, by decide,
    (validateIndianPaymentParameters_high_value { sampleGateway with panNumber := "" } "ORD1"
      250000 "9876543210" (by decide) (by decide) (by with_unfolding_all decide)
      (by decide)).2.1 (by with_unfolding_all decide) (Or.inl rfl)⟩

/-- C19, as stated, fails at the order id "0": it is not the empty string, the phone is valid
and the amount 10 is neither at most zero nor above 100000, yet `initiateUPIPayment` fails in
validation before any effect, because `empty("0")` holds in PHP. -/
theorem initiateUPIPayment_order_id_zero :
    "0" ≠ "" ∧ pregMatchPhone "9876543210" = true
    ∧ ¬ ((10 : PhpFloat) ≤ 0 ∨ (100000 : PhpFloat) < 10)
    ∧ initiateUPIPayment id roundHalfUp sampleGateway
        (fun _ => { response := "ok", error := "", httpCode := 200 }) (fun _ => none)
        "0" 10 "9876543210" "https://shop.example/back" "UPI Payment" "collect"
      = (Except.error (OnopayException.request "Order ID cannot be empty for UPI payment"), []) := by
  refine ⟨by decide, by decide, ?_, ?_⟩ <;> with_unfolding_all decide

/-- C19, amended: with an order id that is neither the empty string nor "0" and a phone number
the phone rule accepts, `initiateUPIPayment` fails in validation, with
`OnopayRequestException` and before any effect, exactly when the amount is at most zero or
exceeds 100000 (comparisons of floats: `NAN` is neither, and passes); an amount of exactly
100000 passes validation and reaches the transport. -/
theorem initiateUPIPayment_amount_ceiling (H : String → String) (rnd : ℚ → Nat → Nat)
    (gw : OnopayIndiaGateway)
    (transport : Nat → CurlResult) (json_decode : String → Option PhpArray) (orderId : String)
    (amount : PhpFloat) (customerPhone redirectUrl description upiFlow : String)
    (horder1 : orderId ≠ "") (horder2 : orderId ≠ "0")
    (hphone : pregMatchPhone customerPhone = true) :
    ((∃ msg, initiateUPIPayment H rnd gw transport json_decode orderId amount customerPhone
          redirectUrl description upiFlow
        = (Except.error (OnopayException.request msg), []))
      ↔ (amount ≤ 0 ∨ 100000 < amount))
    ∧ ((∃ e, validateUPIParameters orderId amount customerPhone = Except.error e)
      ↔ (amount ≤ 0 ∨ 100000 < amount))
    ∧ (amount = 100000 →
        validateUPIParameters orderId amount customerPhone = Except.ok ()
        ∧ (initiateUPIPayment H rnd gw transport json_decode orderId amount customerPhone
            redirectUrl description upiFlow).2 ≠ [])
    ∧ (amount = PhpFloat.nan →
        validateUPIParameters orderId amount customerPhone = Except.ok ()) := by
  have horder : emptyString orderId = false := (emptyString_eq_false_iff orderId).2 ⟨horder1, horder2⟩
  have hform : validateUPIParameters orderId amount customerPhone
      = if amount ≤ 0 then
          Except.error (OnopayException.request
            "Amount must be greater than zero for UPI payment")
        else if amount > 100000 then
          Except.error (OnopayException.request
            "UPI payments are limited to 1 lakh INR per transaction")
        else Except.ok () := by
    unfold validateUPIParameters
    simp [horder, hphone]
  have hnonempty : validateUPIParameters orderId amount customerPhone = Except.ok () →
      (initiateUPIPayment H rnd gw transport json_decode orderId amount customerPhone
        redirectUrl description upiFlow).2 ≠ [] := by
    intro hvalid hnil
    have hhead := executeCurlRequest_first_event transport 0 gw.upiCollectUrl
      (upiRequestData H rnd gw orderId amount customerPhone redirectUrl description upiFlow) [] 0
    rw [← initiateUPIPayment_events H rnd gw transport json_decode orderId amount customerPhone
      redirectUrl description upiFlow hvalid, hnil] at hhead
    cases hhead
  refine ⟨?_, ?_, ?_, ?_⟩
  · constructor
    · rintro ⟨msg, hmsg⟩
      by_contra hcon
      have h1 : ¬ amount ≤ 0 := fun h => hcon (Or.inl h)
      have h2 : ¬ amount > 100000 := fun h => hcon (Or.inr h)
      have hvalid : validateUPIParameters orderId amount customerPhone = Except.ok () := by
        rw [hform, if_neg h1, if_neg h2]
      exact hnonempty hvalid (by rw [hmsg])
    · intro hcase
      unfold initiateUPIPayment
      rw [hform]
      by_cases h1 : amount ≤ 0
      · exact ⟨_, by rw [if_pos h1]⟩
      · have h2 : amount > 100000 := by
          rcases hcase with h | h
          · exact absurd h h1
          · exact h
        exact ⟨_, by rw [if_neg h1, if_pos h2]⟩
  · rw [hform]
    by_cases h1 : amount ≤ 0
    · rw [if_pos h1]
      exact ⟨fun _ => Or.inl h1, fun _ => ⟨_, rfl⟩⟩
    · rw [if_neg h1]
      by_cases h2 : amount > 100000
      · rw [if_pos h2]
        exact ⟨fun _ => Or.inr h2, fun _ => ⟨_, rfl⟩⟩
      · rw [if_neg h2]
        constructor
        · rintro ⟨e, he⟩
          cases he
        · rintro (h | h)
          · exact absurd h h1
          · exact absurd h h2
  · intro h
    have hvalid : validateUPIParameters orderId amount customerPhone = Except.ok () := by
      rw [hform, h]
      with_unfolding_all decide
    exact ⟨hvalid, hnonempty hvalid⟩
  · intro h
    rw [hform, h]
    rfl

/-- C19 amended, at amount 100000.01: refused before any effect. -/
theorem initiateUPIPayment_amount_ceiling_witness :
    "ORD1" ≠ "" ∧ "ORD1" ≠ "0" ∧ pregMatchPhone "9876543210" = true
    ∧ ∃ msg, initiateUPIPayment id roundHalfUp sampleGateway
        (fun _ => { response := "ok", error := "", httpCode := 200 }) (fun _ => none)
        "ORD1" (PhpFloat.finite (10000001 / 100)) "9876543210" "https://shop.example/back"
        "UPI Payment" "collect"
      = (Except.error (OnopayException.request msg), []) :=
  ⟨by decide, by decide, by decide,
    (initiateUPIPayment_amount_ceiling id roundHalfUp sampleGateway
      (fun _ => { response := "ok", error := "", httpCode := 200 }) (fun _ => none)
      "ORD1" (PhpFloat.finite (10000001 / 100)) "9876543210" "https://shop.example/back"
      "UPI Payment" "collect"
      (by decide) (by decide) (by decide)).1.2 (Or.inr (by with_unfolding_all decide))⟩

/-! ## Status interpretation -/

/-- C12: the membership tests of `interpretIndianStatusCode` compare loosely, so codes that are
numerically equal to a listed literal are taken for it: "0" gives `success`, "1" gives
`failed`, "2" gives `pending`, although none of them is one of the listed literals.  The
examples of the claim hold: "00" gives `success`, "02" gives `pending`, "XX99" and `null` give
`unknown`. -/
theorem interpretIndianStatusCode_loose_match :
    interpretIndianStatusCode (some "0") = "success"
    ∧ "0" ∉ ["00", "SUCCESS", "TXN_SUCCESS"]
    ∧ interpretIndianStatusCode (some "1") = "failed"
    ∧ interpretIndianStatusCode (some "2") = "pending"
    ∧ interpretIndianStatusCode (some "00") = "success"
    ∧ interpretIndianStatusCode (some "02") = "pending"
    ∧ interpretIndianStatusCode (some "XX99") = "unknown"
    ∧ interpretIndianStatusCode none = "unknown" := by
  refine ⟨?_, by decide, ?_, ?_, ?_, ?_, ?_, by decide⟩ <;> with_unfolding_all decide

/-- The result of `interpretIndianStatusCode` always lies in the closed set of five values. -/
theorem interpretIndianStatusCode_closed (statusCode : Option String) :
    interpretIndianStatusCode statusCode
      ∈ ["success", "failed", "pending", "upi_pending", "unknown"] := by
  unfold interpretIndianStatusCode
  split_ifs <;> simp

theorem looseEq_of_not_numeric (s lit : String) (h : numericString s = none) :
    looseEq s lit = (s == lit) := by
  unfold looseEq
  rw [h]

/-- On codes that are not numeric strings the mapping is the exact literal match. -/
theorem interpretIndianStatusCode_of_not_numeric (s : String) (h : numericString s = none) :
    interpretIndianStatusCode (some s)
      = if s ∈ ["00", "SUCCESS", "TXN_SUCCESS"] then "success"
        else if s ∈ ["01", "FAILURE", "TXN_FAILURE"] then "failed"
        else if s ∈ ["02", "PENDING", "TXN_PENDING"] then "pending"
        else if s = "UPI_PENDING" then "upi_pending"
        else "unknown" := by
  unfold interpretIndianStatusCode in_array
  simp only [List.any_cons, List.any_nil, looseEq_of_not_numeric _ _ h, Bool.or_false,
    Bool.or_eq_true, beq_iff_eq, List.mem_cons, List.mem_singleton, List.not_mem_nil, or_false,
    Option.some.injEq, or_assoc]
/-! ## Bounded retry -/

theorem executeCurlRequest_success (transport : Nat → CurlResult) (calls : Nat) (url : String)
    (postData : PhpArray) (method : String) (headers : List String) (retry : Nat)
    (hgood : (stringTruthy (transport calls).error
      || decide ((transport calls).httpCode ≥ 500)) = false) :
    executeCurlRequest transport calls url postData method headers retry
      = (Except.ok (transport calls).response,
          [Event.curlExec url (if strtoupper method == "POST" then some postData else none)
            headers]) := by
  rw [executeCurlRequest]
  simp only [hgood, Bool.false_eq_true, if_false]

theorem executeCurlRequest_retry (transport : Nat → CurlResult) (calls : Nat) (url : String)
    (postData : PhpArray) (method : String) (headers : List String) (retry : Nat)
    (hbad : (stringTruthy (transport calls).error
      || decide ((transport calls).httpCode ≥ 500)) = true)
    (hlt : retry < ONOPAY_MAX_RETRIES) :
    executeCurlRequest transport calls url postData method headers retry
      = ((executeCurlRequest transport (calls + 1) url postData method headers (retry + 1)).1,
          Event.curlExec url (if strtoupper method == "POST" then some postData else none)
              headers
            :: Event.sleep ONOPAY_RETRY_DELAY
            :: (executeCurlRequest transport (calls + 1) url postData method headers
                (retry + 1)).2) := by
  rw [executeCurlRequest]
  simp only [hbad, if_true, hlt]

theorem executeCurlRequest_give_up (transport : Nat → CurlResult) (calls : Nat) (url : String)
    (postData : PhpArray) (method : String) (headers : List String) (retry : Nat)
    (hbad : (stringTruthy (transport calls).error
      || decide ((transport calls).httpCode ≥ 500)) = true)
    (hge : ¬ retry < ONOPAY_MAX_RETRIES) :
    executeCurlRequest transport calls url postData method headers retry
      = (Except.error (OnopayException.network
            ("cURL error after retries: " ++ (transport calls).error)),
          [Event.curlExec url (if strtoupper method == "POST" then some postData else none)
            headers]) := by
  rw [executeCurlRequest]
  simp only [hbad, if_true, hge, if_false]

/-- Retry from any counter value: `k` failing attempts followed by a good one. -/
theorem executeCurlRequest_after_failures (transport : Nat → CurlResult) (url : String)
    (postData : PhpArray) (method : String) (headers : List String) (k : Nat) :
    ∀ calls retry, retry + k ≤ ONOPAY_MAX_RETRIES →
      (∀ i, i < k → (stringTruthy (transport (calls + i)).error
        || decide ((transport (calls + i)).httpCode ≥ 500)) = true) →
      (stringTruthy (transport (calls + k)).error
        || decide ((transport (calls + k)).httpCode ≥ 500)) = false →
      executeCurlRequest transport calls url postData method headers retry
        = (Except.ok (transport (calls + k)).response,
            (List.replicate k
              [Event.curlExec url (if strtoupper method == "POST" then some postData else none)
                headers, Event.sleep ONOPAY_RETRY_DELAY]).flatten
            ++ [Event.curlExec url (if strtoupper method == "POST" then some postData else none)
                headers]) := by
  induction k with
  | zero =>
    intro calls retry _ _ hgood
    rw [executeCurlRequest_success transport calls url postData method headers retry hgood]
    rfl
  | succ j ih =>
    intro calls retry hle hbad hgood
    have h0 := hbad 0 (Nat.succ_pos j)
    rw [executeCurlRequest_retry transport calls url postData method headers retry h0
      (by omega)]
    have hnext := ih (calls + 1) (retry + 1) (by omega)
      (fun i hi => by
        have := hbad (i + 1) (by omega)
        rwa [show calls + (i + 1) = calls + 1 + i by omega] at this)
      (by rwa [show calls + (j + 1) = calls + 1 + j by omega] at hgood)
    rw [hnext, show calls + 1 + j = calls + (j + 1) by omega]
    simp [List.replicate_succ]

/-- Retry from any counter value when every attempt fails. -/
theorem executeCurlRequest_all_fail (transport : Nat → CurlResult) (url : String)
    (postData : PhpArray) (method : String) (headers : List String) (k : Nat) :
    ∀ calls retry, retry + k = ONOPAY_MAX_RETRIES →
      (∀ i, i ≤ k → (stringTruthy (transport (calls + i)).error
        || decide ((transport (calls + i)).httpCode ≥ 500)) = true) →
      executeCurlRequest transport calls url postData method headers retry
        = (Except.error (OnopayException.network
              ("cURL error after retries: " ++ (transport (calls + k)).error)),
            (List.replicate k
              [Event.curlExec url (if strtoupper method == "POST" then some postData else none)
                headers, Event.sleep ONOPAY_RETRY_DELAY]).flatten
            ++ [Event.curlExec url (if strtoupper method == "POST" then some postData else none)
                headers]) := by
  induction k with
  | zero =>
    intro calls retry hle hbad
    rw [executeCurlRequest_give_up transport calls url postData method headers retry
      (hbad 0 (Nat.le_refl 0)) (by omega)]
    rfl
  | succ j ih =>
    intro calls retry hle hbad
    rw [executeCurlRequest_retry transport calls url postData method headers retry
      (hbad 0 (Nat.zero_le _)) (by omega)]
    have hnext := ih (calls + 1) (retry + 1) (by omega)
      (fun i hi => by
        have := hbad (i + 1) (by omega)
        rwa [show calls + (i + 1) = calls + 1 + i by omega] at this)
    rw [hnext, show calls + 1 + j = calls + (j + 1) by omega]
    simp [List.replicate_succ]

/-- The number of transport calls of one dispatch never exceeds what the counter leaves. -/
theorem executeCurlRequest_call_bound (transport : Nat → CurlResult) (url : String)
    (postData : PhpArray) (method : String) (headers : List String) (k : Nat) :
    ∀ calls retry, ONOPAY_MAX_RETRIES - retry = k →
      ((executeCurlRequest transport calls url postData method headers retry).2.filter
        (fun ev => match ev with
          | Event.curlExec _ _ _ => true
          | _ => false)).length ≤ k + 1 := by
  induction k with
  | zero =>
    intro calls retry hk
    have hge : ¬ retry < ONOPAY_MAX_RETRIES := by omega
    cases hbad : (stringTruthy (transport calls).error
        || decide ((transport calls).httpCode ≥ 500)) with
    | true =>
      rw [executeCurlRequest_give_up transport calls url postData method headers retry hbad hge]
      simp
    | false =>
      rw [executeCurlRequest_success transport calls url postData method headers retry hbad]
      simp
  | succ j ih =>
    intro calls retry hk
    have hlt : retry < ONOPAY_MAX_RETRIES := by omega
    cases hbad : (stringTruthy (transport calls).error
        || decide ((transport calls).httpCode ≥ 500)) with
    | true =>
      rw [executeCurlRequest_retry transport calls url postData method headers retry hbad hlt]
      have := ih (calls + 1) (retry + 1) (by omega)
      simp only [List.filter_cons, if_true, Bool.false_eq_true, if_false, List.length_cons]
      omega
    | false =>
      rw [executeCurlRequest_success transport calls url postData method headers retry hbad]
      simp

theorem count_sleep_replicate (a : Event) (k : Nat)
    (ha : a ≠ Event.sleep ONOPAY_RETRY_DELAY) :
    List.count (Event.sleep ONOPAY_RETRY_DELAY)
      ((List.replicate k [a, Event.sleep ONOPAY_RETRY_DELAY]).flatten ++ [a]) = k := by
  induction k with
  | zero => simp [List.count_cons, ha]
  | succ j ih =>
    simp only [List.replicate_succ, List.flatten_cons, List.append_assoc, List.cons_append,
      List.nil_append, List.count_cons, ih]
    simp [ha]

theorem count_call_replicate (a : Event) (k : Nat)
    (ha : a ≠ Event.sleep ONOPAY_RETRY_DELAY) :
    List.count a
      ((List.replicate k [a, Event.sleep ONOPAY_RETRY_DELAY]).flatten ++ [a]) = k + 1 := by
  have hne : ¬ Event.sleep ONOPAY_RETRY_DELAY = a := fun h => ha h.symm
  induction k with
  | zero => simp
  | succ j ih =>
    simp only [List.replicate_succ, List.flatten_cons, List.append_assoc, List.cons_append,
      List.nil_append, List.count_cons, ih]
    simp [hne]

/-- C13: when the first `k` attempts (`k` at most 3) end in a transport error or an HTTP status
of 500 or more and attempt `k + 1` ends without error and with a status below 500,
`executeCurlRequest` called with `retry = 0` returns the body of attempt `k + 1` unchanged; its
effects are `k` times a transport call followed by a sleep of the fixed delay, then the final
transport call: `k + 1` calls, `k` sleeps. -/
theorem executeCurlRequest_retry_then_success (transport : Nat → CurlResult) (url : String)
    (postData : PhpArray) (method : String) (headers : List String) (k : Nat)
    (hk : k ≤ 3)
    (hbad : ∀ i, i < k →
      stringTruthy (transport i).error = true ∨ (transport i).httpCode ≥ 500)
    (hgood : stringTruthy (transport k).error = false ∧ (transport k).httpCode < 500) :
    executeCurlRequest transport 0 url postData method headers 0
      = (Except.ok (transport k).response,
          (List.replicate k
            [Event.curlExec url (if strtoupper method == "POST" then some postData else none)
              headers, Event.sleep ONOPAY_RETRY_DELAY]).flatten
          ++ [Event.curlExec url (if strtoupper method == "POST" then some postData else none)
              headers])
    ∧ List.count (Event.sleep ONOPAY_RETRY_DELAY)
        (executeCurlRequest transport 0 url postData method headers 0).2 = k
    ∧ List.count
        (Event.curlExec url (if strtoupper method == "POST" then some postData else none) headers)
        (executeCurlRequest transport 0 url postData method headers 0).2 = k + 1 := by
  have hmain := executeCurlRequest_after_failures transport url postData method headers k 0 0
    (by simpa [ONOPAY_MAX_RETRIES] using hk)
    (fun i hi => by
      rw [Nat.zero_add]
      rcases hbad i hi with h | h
      · simp [h]
      · simp [h])
    (by
      rw [Nat.zero_add]
      simp [hgood.1, hgood.2])
  rw [Nat.zero_add] at hmain
  rw [hmain]
  exact ⟨rfl, count_sleep_replicate _ k (fun h => by cases h),
    count_call_replicate _ k (fun h => by cases h)⟩

/-- C13 for the statuses 500, 500, 200: the body of the third attempt after two retries. -/
theorem executeCurlRequest_retry_then_success_witness :
    (2 : Nat) ≤ 3
    ∧ executeCurlRequest
        (fun n => if n < 2 then { response := "busy", error := "", httpCode := 500 }
          else { response := "body", error := "", httpCode := 200 })
        0 "https://api.onopay.in/upi/collect" [] "POST" [] 0
      = (Except.ok "body",
          [Event.curlExec "https://api.onopay.in/upi/collect" (some []) [],
           Event.sleep 2,
           Event.curlExec "https://api.onopay.in/upi/collect" (some []) [],
           Event.sleep 2,
           Event.curlExec "https://api.onopay.in/upi/collect" (some []) []]) :=
  ⟨by decide,
    (executeCurlRequest_retry_then_success
      (fun n => if n < 2 then { response := "busy", error := "", httpCode := 500 }
        else { response := "body", error := "", httpCode := 200 })
      "https://api.onopay.in/upi/collect" [] "POST" [] 2 (by decide)
      (fun i hi => Or.inr (by simp [hi]))
      ⟨by decide, by decide⟩).1⟩

/-- C14: when every attempt ends in a transport error or an HTTP status of 500 or more,
`executeCurlRequest` called with `retry = 0` returns (the function is total) after exactly
`ONOPAY_MAX_RETRIES + 1 = 4` transport calls and 3 sleeps and fails with
`OnopayNetworkException`; the call with counter value `r` below 3 delegates to the call with
counter value `r + 1`, and the call with counter value 3 gives up.  For every transport
whatsoever the number of transport calls is at most 4. -/
theorem executeCurlRequest_exhaustion (transport : Nat → CurlResult) (url : String)
    (postData : PhpArray) (method : String) (headers : List String) :
    ((∀ i, stringTruthy (transport i).error = true ∨ (transport i).httpCode ≥ 500) →
      executeCurlRequest transport 0 url postData method headers 0
        = (Except.error (OnopayException.network
              ("cURL error after retries: " ++ (transport 3).error)),
            [Event.curlExec url (if strtoupper method == "POST" then some postData else none)
                headers,
             Event.sleep ONOPAY_RETRY_DELAY,
             Event.curlExec url (if strtoupper method == "POST" then some postData else none)
                headers,
             Event.sleep ONOPAY_RETRY_DELAY,
             Event.curlExec url (if strtoupper method == "POST" then some postData else none)
                headers,
             Event.sleep ONOPAY_RETRY_DELAY,
             Event.curlExec url (if strtoupper method == "POST" then some postData else none)
                headers])
      ∧ (∀ r, r < 3 →
          executeCurlRequest transport r url postData method headers r
            = ((executeCurlRequest transport (r + 1) url postData method headers (r + 1)).1,
                Event.curlExec url
                    (if strtoupper method == "POST" then some postData else none) headers
                  :: Event.sleep ONOPAY_RETRY_DELAY
                  :: (executeCurlRequest transport (r + 1) url postData method headers
                      (r + 1)).2))
      ∧ executeCurlRequest transport 3 url postData method headers 3
          = (Except.error (OnopayException.network
                ("cURL error after retries: " ++ (transport 3).error)),
              [Event.curlExec url
                (if strtoupper method == "POST" then some postData else none) headers]))
    ∧ ONOPAY_MAX_RETRIES + 1 = 4
    ∧ ((executeCurlRequest transport 0 url postData method headers 0).2.filter
        (fun ev => match ev with
          | Event.curlExec _ _ _ => true
          | _ => false)).length ≤ 4 := by
  refine ⟨?_, rfl, ?_⟩
  · intro hall
    have hbad : ∀ i, (stringTruthy (transport i).error
        || decide ((transport i).httpCode ≥ 500)) = true := by
      intro i
      rcases hall i with h | h
      · simp [h]
      · simp [h]
    refine ⟨?_, ?_, ?_⟩
    · have := executeCurlRequest_all_fail transport url postData method headers 3 0 0 rfl
        (fun i _ => hbad (0 + i))
      rw [this]
      rfl
    · intro r hr
      exact executeCurlRequest_retry transport r url postData method headers r (hbad r)
        (by simpa [ONOPAY_MAX_RETRIES] using hr)
    · exact executeCurlRequest_give_up transport 3 url postData method headers 3 (hbad 3)
        (by simp [ONOPAY_MAX_RETRIES])
  · exact executeCurlRequest_call_bound transport url postData method headers 3 0 0 rfl

/-- C14 for a transport that always answers 503. -/
theorem executeCurlRequest_exhaustion_witness :
    (∀ i : Nat, stringTruthy
        ((fun _ : Nat => ({ response := "", error := "", httpCode := 503 } : CurlResult)) i).error
          = true
      ∨ ((fun _ : Nat => ({ response := "", error := "", httpCode := 503 } : CurlResult))
          i).httpCode ≥ 500)
    ∧ executeCurlRequest (fun _ => { response := "", error := "", httpCode := 503 }) 0
        "https://api.onopay.in/upi/collect" [] "POST" [] 0
      = (Except.error (OnopayException.network "cURL error after retries: "),
          [Event.curlExec "https://api.onopay.in/upi/collect" (some []) [],
           Event.sleep 2,
           Event.curlExec "https://api.onopay.in/upi/collect" (some []) [],
           Event.sleep 2,
           Event.curlExec "https://api.onopay.in/upi/collect" (some []) [],
           Event.sleep 2,
           Event.curlExec "https://api.onopay.in/upi/collect" (some []) []]) :=
  ⟨fun _ => Or.inr (by norm_num),
    ((executeCurlRequest_exhaustion (fun _ => { response := "", error := "", httpCode := 503 })
      "https://api.onopay.in/upi/collect" [] "POST" []).1
        (fun _ => Or.inr (by norm_num))).1⟩

/-! ## The verified result and what verification does not cover -/

theorem verifyIndianResponseChecksum_ok_nonempty (H : String → String) (gw : OnopayIndiaGateway)
    (r : PhpArray) (hok : verifyIndianResponseChecksum H gw r = Except.ok ()) :
    r.isEmpty = false ∧ List.lookup (key "checksum") r ≠ none := by
  have hne := ((verifyIndianResponseChecksum_ok_iff H gw r).1 hok).1
  have hlook : List.lookup (key "checksum") r ≠ none := by
    intro hnone
    unfold arrayGet at hne
    rw [hnone] at hne
    cases hne
  refine ⟨?_, hlook⟩
  cases r with
  | nil => exact absurd rfl hlook
  | cons p rest => rfl

theorem toNullableString_of_not_array (what : String) (v : PhpVal) :
    (∀ items, v ≠ PhpVal.arr items) →
    toNullableString what v
      = Except.ok (match v with
          | PhpVal.null => none
          | w => some (strval w)) := by
  intro h
  cases v with
  | arr items => exact absurd rfl (h items)
  | null => rfl
  | bool b => rfl
  | int i => rfl
  | float a t => rfl
  | str t => rfl

/-- C16, as stated, fails when `status_code` holds an array: the response with order id `A`,
the one-element array `['00']` as status code and a matching checksum passes verification,
and `handleIndianPaymentResponse` returns no result: passing the array to the `?string`
parameter of `interpretIndianStatusCode` raises `TypeError`. -/
theorem handleIndianPaymentResponse_array_status_code :
    verifyIndianResponseChecksum id sampleGateway
        [(key "order_id", PhpVal.str "A"),
         (key "status_code",
            PhpVal.arr (PhpItems.cons (PhpKey.int 0) (PhpVal.str "00") PhpItems.nil)),
         (key "checksum", PhpVal.str "A|REQ")] = Except.ok ()
    ∧ handleIndianPaymentResponse id sampleGateway
        [(key "order_id", PhpVal.str "A"),
         (key "status_code",
            PhpVal.arr (PhpItems.cons (PhpKey.int 0) (PhpVal.str "00") PhpItems.nil)),
         (key "checksum", PhpVal.str "A|REQ")]
      = Except.error (OnopayException.typeError
          ("OnopayIndiaGateway::interpretIndianStatusCode(): Argument #1 ($statusCode)"
            ++ " must be of type ?string, array given")) := by
  constructor <;> decide

/-- C16, amended: for every response mapping `r` that passes verification and whose
`status_code` is not an array, `handleIndianPaymentResponse` returns a result whose status is
`interpretIndianStatusCode` of `r`'s `status_code` as the `?string` parameter receives it
(`null` when absent or null, a string as it is, another scalar converted to its string), whose
`order_id`, `transaction_id`, `payment_method`, `upi_reference` and `bank_reference` are the
values of `order_id`, `transaction_id`, `payment_method`, `upi_reference_id` and
`bank_reference_number` in `r` (`null` when absent), whose message is `r`'s message when set and
"No message from gateway" otherwise, and whose `raw_response` is `r` itself, checksum field
included.  When `status_code` is an array the call raises `TypeError` and returns nothing. -/
theorem handleIndianPaymentResponse_result (H : String → String) (gw : OnopayIndiaGateway)
    (r : PhpArray) (hok : verifyIndianResponseChecksum H gw r = Except.ok ()) :
    ((∀ items, arrayGet r (key "status_code") ≠ PhpVal.arr items) →
      ∃ result, handleIndianPaymentResponse H gw r = Except.ok result
      ∧ result.status = interpretIndianStatusCode
          (match arrayGet r (key "status_code") with
            | PhpVal.null => none
            | v => some (strval v))
      ∧ (∀ s, arrayGet r (key "status_code") = PhpVal.str s →
          result.status = interpretIndianStatusCode (some s))
      ∧ (List.lookup (key "status_code") r = none →
          result.status = interpretIndianStatusCode none)
      ∧ result.order_id = arrayGet r (key "order_id")
      ∧ result.transaction_id = arrayGet r (key "transaction_id")
      ∧ result.payment_method = arrayGet r (key "payment_method")
      ∧ result.upi_reference = arrayGet r (key "upi_reference_id")
      ∧ result.bank_reference = arrayGet r (key "bank_reference_number")
      ∧ (∀ k, List.lookup k r = none → arrayGet r k = PhpVal.null)
      ∧ (isset r (key "message") = true → result.message = arrayGet r (key "message"))
      ∧ (isset r (key "message") = false →
          result.message = PhpVal.str "No message from gateway")
      ∧ (List.lookup (key "message") r = none →
          result.message = PhpVal.str "No message from gateway")
      ∧ result.raw_response = r
      ∧ List.lookup (key "checksum") result.raw_response ≠ none)
    ∧ (∀ items, arrayGet r (key "status_code") = PhpVal.arr items →
      ∃ msg, handleIndianPaymentResponse H gw r
        = Except.error (OnopayException.typeError msg)) := by
  obtain ⟨hemp, hck⟩ := verifyIndianResponseChecksum_ok_nonempty H gw r hok
  have habsent : ∀ k, List.lookup k r = none → arrayGet r k = PhpVal.null := by
    intro k hk
    unfold arrayGet
    rw [hk]
    rfl
  constructor
  · intro hscalar
    have hcode := toNullableString_of_not_array
      "OnopayIndiaGateway::interpretIndianStatusCode(): Argument #1 ($statusCode)"
      (arrayGet r (key "status_code")) hscalar
    refine ⟨_, by unfold handleIndianPaymentResponse; rw [hemp, hok]; dsimp only; rw [hcode]; rfl,
      rfl, ?_, ?_, rfl, rfl, rfl, rfl, rfl, habsent, ?_, ?_, ?_, rfl, hck⟩
    · intro s hs
      dsimp only
      rw [hs]
      rfl
    · intro hnone
      dsimp only
      rw [habsent _ hnone]
    · intro hset
      simp only [hset, if_true]
    · intro hset
      simp only [hset, Bool.false_eq_true, if_false]
    · intro hnone
      have hset : isset r (key "message") = false := by
        unfold isset
        rw [habsent _ hnone]
      simp only [hset, Bool.false_eq_true, if_false]
  · intro items hitems
    refine ⟨"OnopayIndiaGateway::interpretIndianStatusCode(): Argument #1 ($statusCode)"
      ++ " must be of type ?string, array given", ?_⟩
    unfold handleIndianPaymentResponse
    rw [hemp, hok]
    dsimp only
    rw [hitems]
    rfl

/-- C16 amended, at a verified response with a status code and no message. -/
theorem handleIndianPaymentResponse_result_witness :
    verifyIndianResponseChecksum id sampleGateway
        [(key "order_id", PhpVal.str "A"), (key "status_code", PhpVal.str "02"),
         (key "checksum", PhpVal.str "A|REQ")] = Except.ok ()
    ∧ (∀ items, arrayGet [(key "order_id", PhpVal.str "A"), (key "status_code", PhpVal.str "02"),
         (key "checksum", PhpVal.str "A|REQ")] (key "status_code") ≠ PhpVal.arr items)
    ∧ ∃ result, handleIndianPaymentResponse id sampleGateway
          [(key "order_id", PhpVal.str "A"), (key "status_code", PhpVal.str "02"),
           (key "checksum", PhpVal.str "A|REQ")] = Except.ok result
        ∧ result.status = "pending"
        ∧ result.order_id = PhpVal.str "A"
        ∧ result.message = PhpVal.str "No message from gateway"
        ∧ result.raw_response
          = [(key "order_id", PhpVal.str "A"), (key "status_code", PhpVal.str "02"),
             (key "checksum", PhpVal.str "A|REQ")] := by
  refine ⟨by decide, fun items h => (by cases h), ?_⟩
  obtain ⟨result, h1, _, h2, _, h3, _, _, _, _, _, _, _, h4, h5, _⟩ :=
    (handleIndianPaymentResponse_result id sampleGateway
      [(key "order_id", PhpVal.str "A"), (key "status_code", PhpVal.str "02"),
       (key "checksum", PhpVal.str "A|REQ")] (by decide)).1 (fun items h => (by cases h))
  refine ⟨result, h1, ?_, h3, h4 (by decide), h5⟩
  rw [h2 "02" rfl]
  with_unfolding_all decide

/-- C18: the hash input is not an injective encoding of the hashed fields: the mapping with
`order_id` "A|B" and no amount, and the mapping with `order_id` "A" and `amount` "B", differ
on the hashed subset and yield the same string, hence the same checksum, for every digest
function and every secret. -/
theorem generateIndianChecksum_not_injective (H : String → String) (gw : OnopayIndiaGateway) :
    arrayGet [(key "order_id", PhpVal.str "A|B")] (key "order_id")
        ≠ arrayGet [(key "order_id", PhpVal.str "A"), (key "amount", PhpVal.str "B")]
            (key "order_id")
    ∧ arrayGet [(key "order_id", PhpVal.str "A|B")] (key "amount")
        ≠ arrayGet [(key "order_id", PhpVal.str "A"), (key "amount", PhpVal.str "B")]
            (key "amount")
    ∧ finalStringToHash gw [(key "order_id", PhpVal.str "A|B")]
        = finalStringToHash gw [(key "order_id", PhpVal.str "A"), (key "amount", PhpVal.str "B")]
    ∧ finalStringToHash gw [(key "order_id", PhpVal.str "A|B")] = "A|B|" ++ gw.saltKeyRequest
    ∧ generateIndianChecksum H gw [(key "order_id", PhpVal.str "A|B")]
        = generateIndianChecksum H gw
            [(key "order_id", PhpVal.str "A"), (key "amount", PhpVal.str "B")] := by
  have h1 : checksumValues [(key "order_id", PhpVal.str "A|B")] = ["A|B"] := by decide
  have h2 : checksumValues [(key "order_id", PhpVal.str "A"), (key "amount", PhpVal.str "B")]
      = ["A", "B"] := by decide
  have h3 : implode "|" ["A", "B"] = "A|B" := by decide
  have h4 : implode "|" ["A|B"] = "A|B" := by decide
  have hfinal : finalStringToHash gw [(key "order_id", PhpVal.str "A|B")]
      = finalStringToHash gw
          [(key "order_id", PhpVal.str "A"), (key "amount", PhpVal.str "B")] := by
    unfold finalStringToHash
    rw [h1, h2, h3, h4]
  refine ⟨by decide, by decide, hfinal, ?_, ?_⟩
  · unfold finalStringToHash
    rw [h1, h4, String.append_assoc]
    rfl
  · unfold generateIndianChecksum
    rw [hfinal]

theorem checksumValues_unset_checksum_congr (r1 r2 : PhpArray)
    (hf : ∀ f ∈ fieldsToHash, arrayGet r1 (key f) = arrayGet r2 (key f)) :
    checksumValues (arrayUnset r1 (key "checksum"))
      = checksumValues (arrayUnset r2 (key "checksum")) := by
  apply checksumValues_congr
  intro k hk
  rw [arrayGet_arrayUnset, arrayGet_arrayUnset, hf k hk]

theorem handleIndianPaymentResponse_status (H : String → String) (gw : OnopayIndiaGateway)
    (r : PhpArray) (s : String) (hok : verifyIndianResponseChecksum H gw r = Except.ok ())
    (hcode : arrayGet r (key "status_code") = PhpVal.str s) :
    ∃ result, handleIndianPaymentResponse H gw r = Except.ok result
      ∧ result.status = interpretIndianStatusCode (some s) := by
  have hemp := (verifyIndianResponseChecksum_ok_nonempty H gw r hok).1
  exact ⟨_, by unfold handleIndianPaymentResponse; rw [hemp, hok]; dsimp only; rw [hcode]; rfl,
    rfl⟩

/-- C17: the outcome of `verifyIndianResponseChecksum` is the same for any two response
mappings that agree on `checksum` and on the nine hashed fields, however they differ in
`status_code`, `transaction_id`, `message`, the reference numbers, `gst_amount` or any other
field.  Hence the response with order id "A" and status code "01", signed over its hashed
fields, verifies and is interpreted as `failed`, and with the status code changed to "00" it
still verifies and is interpreted as `success` (for every digest that is not empty there). -/
theorem verifyIndianResponseChecksum_ignores_unhashed_fields (H : String → String)
    (gw : OnopayIndiaGateway) (r1 r2 : PhpArray) :
    (arrayGet r1 (key "checksum") = arrayGet r2 (key "checksum") →
      (∀ f ∈ fieldsToHash, arrayGet r1 (key f) = arrayGet r2 (key f)) →
      verifyIndianResponseChecksum H gw r1 = verifyIndianResponseChecksum H gw r2)
    ∧ (emptyString (H ("A" ++ "|" ++ gw.saltKeyRequest)) = false →
      verifyIndianResponseChecksum H gw
          [(key "order_id", PhpVal.str "A"), (key "status_code", PhpVal.str "01"),
           (key "checksum", PhpVal.str (H ("A" ++ "|" ++ gw.saltKeyRequest)))] = Except.ok ()
      ∧ (∃ result, handleIndianPaymentResponse H gw
          [(key "order_id", PhpVal.str "A"), (key "status_code", PhpVal.str "01"),
           (key "checksum", PhpVal.str (H ("A" ++ "|" ++ gw.saltKeyRequest)))] = Except.ok result
        ∧ result.status = "failed")
      ∧ verifyIndianResponseChecksum H gw
          (arraySet [(key "order_id", PhpVal.str "A"), (key "status_code", PhpVal.str "01"),
             (key "checksum", PhpVal.str (H ("A" ++ "|" ++ gw.saltKeyRequest)))]
            (key "status_code") (PhpVal.str "00")) = Except.ok ()
      ∧ (∃ result, handleIndianPaymentResponse H gw
          (arraySet [(key "order_id", PhpVal.str "A"), (key "status_code", PhpVal.str "01"),
             (key "checksum", PhpVal.str (H ("A" ++ "|" ++ gw.saltKeyRequest)))]
            (key "status_code") (PhpVal.str "00")) = Except.ok result
        ∧ result.status = "success")) := by
  have hgen : ∀ a b : PhpArray,
      arrayGet a (key "checksum") = arrayGet b (key "checksum") →
      (∀ f ∈ fieldsToHash, arrayGet a (key f) = arrayGet b (key f)) →
      verifyIndianResponseChecksum H gw a = verifyIndianResponseChecksum H gw b := by
    intro a b hck hf
    unfold verifyIndianResponseChecksum generateIndianChecksum finalStringToHash
    dsimp only
    rw [hck, checksumValues_unset_checksum_congr a b hf]
  refine ⟨hgen r1 r2, ?_⟩
  intro hne
  have hfailed : interpretIndianStatusCode (some "01") = "failed" := by
    with_unfolding_all decide
  have hsuccess : interpretIndianStatusCode (some "00") = "success" := by
    with_unfolding_all decide
  have hok1 : verifyIndianResponseChecksum H gw
      [(key "order_id", PhpVal.str "A"), (key "status_code", PhpVal.str "01"),
       (key "checksum", PhpVal.str (H ("A" ++ "|" ++ gw.saltKeyRequest)))] = Except.ok () := by
    rw [verifyIndianResponseChecksum_ok_iff]
    exact ⟨hne, rfl⟩
  have hok2 : verifyIndianResponseChecksum H gw
      (arraySet [(key "order_id", PhpVal.str "A"), (key "status_code", PhpVal.str "01"),
         (key "checksum", PhpVal.str (H ("A" ++ "|" ++ gw.saltKeyRequest)))]
        (key "status_code") (PhpVal.str "00")) = Except.ok () := by
    rw [← hok1]
    apply hgen
    · rfl
    · intro f hf
      simp only [fieldsToHash, List.mem_cons, List.mem_singleton, List.not_mem_nil,
        or_false] at hf
      rcases hf with h | h | h | h | h | h | h | h | h <;> subst h <;> rfl
  refine ⟨hok1, ?_, hok2, ?_⟩
  · obtain ⟨result, h1, h2⟩ := handleIndianPaymentResponse_status H gw _ "01" hok1 rfl
    exact ⟨result, h1, by rw [h2]; exact hfailed⟩
  · obtain ⟨result, h1, h2⟩ := handleIndianPaymentResponse_status H gw _ "00" hok2 rfl
    exact ⟨result, h1, by rw [h2]; exact hsuccess⟩

/-- C17 at two responses that differ in status code, transaction id and message only. -/
theorem verifyIndianResponseChecksum_ignores_unhashed_fields_witness :
    arrayGet [(key "order_id", PhpVal.str "A"), (key "status_code", PhpVal.str "01"),
        (key "checksum", PhpVal.str "A|REQ")] (key "checksum")
      = arrayGet [(key "order_id", PhpVal.str "A"), (key "status_code", PhpVal.str "00"),
        (key "transaction_id", PhpVal.str "T9"), (key "message", PhpVal.str "paid"),
        (key "checksum", PhpVal.str "A|REQ")] (key "checksum")
    ∧ (∀ f ∈ fieldsToHash,
        arrayGet [(key "order_id", PhpVal.str "A"), (key "status_code", PhpVal.str "01"),
          (key "checksum", PhpVal.str "A|REQ")] (key f)
        = arrayGet [(key "order_id", PhpVal.str "A"), (key "status_code", PhpVal.str "00"),
          (key "transaction_id", PhpVal.str "T9"), (key "message", PhpVal.str "paid"),
          (key "checksum", PhpVal.str "A|REQ")] (key f))
    ∧ verifyIndianResponseChecksum id sampleGateway
        [(key "order_id", PhpVal.str "A"), (key "status_code", PhpVal.str "01"),
          (key "checksum", PhpVal.str "A|REQ")]
      = verifyIndianResponseChecksum id sampleGateway
        [(key "order_id", PhpVal.str "A"), (key "status_code", PhpVal.str "00"),
          (key "transaction_id", PhpVal.str "T9"), (key "message", PhpVal.str "paid"),
          (key "checksum", PhpVal.str "A|REQ")] :=
  ⟨by decide, by decide,
    (verifyIndianResponseChecksum_ignores_unhashed_fields id sampleGateway
      [(key "order_id", PhpVal.str "A"), (key "status_code", PhpVal.str "01"),
        (key "checksum", PhpVal.str "A|REQ")]
      [(key "order_id", PhpVal.str "A"), (key "status_code", PhpVal.str "00"),
        (key "transaction_id", PhpVal.str "T9"), (key "message", PhpVal.str "paid"),
        (key "checksum", PhpVal.str "A|REQ")]).1 (by decide) (by decide)⟩

/-! ## Rendering of amounts -/

theorem digitChar_spec : ∀ d, d < 10 →
    (Nat.digitChar d).isDigit = true ∧ (Nat.digitChar d).toNat - 48 = d := by
  decide

theorem padded_fraction : ∀ r, r < 100 →
    (String.mk (List.replicate (2 - (toString r).length) '0') ++ toString r).data
      = [Nat.digitChar (r / 10), Nat.digitChar (r % 10)] := by
  decide

theorem digits_foldl (ds : List Char) :
    ∀ a : Nat, List.foldl (fun n c => 10 * n + (c.toNat - 48)) a ds
      = a * 10 ^ ds.length + digitsValue ds := by
  unfold digitsValue
  induction ds with
  | nil => intro a; simp
  | cons c rest ih =>
    intro a
    simp only [List.foldl_cons, List.length_cons]
    rw [ih (10 * a + (c.toNat - 48)), ih (10 * 0 + (c.toNat - 48))]
    ring

theorem digitsValue_cons (c : Char) (ds : List Char) :
    digitsValue (c :: ds) = (c.toNat - 48) * 10 ^ ds.length + digitsValue ds := by
  have h := digits_foldl ds (10 * 0 + (c.toNat - 48))
  unfold digitsValue at h ⊢
  simp only [List.foldl_cons]
  rw [h]
  simp

theorem toDigitsCore_spec (fuel : Nat) :
    ∀ (n : Nat) (ds : List Char), n < fuel → (∀ c ∈ ds, c.isDigit = true) →
      (∀ c ∈ Nat.toDigitsCore 10 fuel n ds, c.isDigit = true)
      ∧ digitsValue (Nat.toDigitsCore 10 fuel n ds) = n * 10 ^ ds.length + digitsValue ds
      ∧ Nat.toDigitsCore 10 fuel n ds ≠ [] := by
  induction fuel with
  | zero => intro n ds hn; omega
  | succ f ih =>
    intro n ds hn hds
    have hd := digitChar_spec (n % 10) (Nat.mod_lt n (by decide))
    have hds2 : ∀ c ∈ Nat.digitChar (n % 10) :: ds, c.isDigit = true := by
      intro c hc
      rcases List.mem_cons.1 hc with h | h
      · rw [h]; exact hd.1
      · exact hds c h
    unfold Nat.toDigitsCore
    by_cases hz : n / 10 = 0
    · simp only [hz, if_true]
      refine ⟨hds2, ?_, by simp⟩
      rw [digitsValue_cons, hd.2]
      have : n % 10 = n := by omega
      rw [this]
    · simp only [hz, if_false]
      obtain ⟨h1, h2, h3⟩ := ih (n / 10) (Nat.digitChar (n % 10) :: ds) (by omega) hds2
      refine ⟨h1, ?_, h3⟩
      rw [h2, digitsValue_cons, hd.2, List.length_cons, pow_succ]
      have hn10 : n = 10 * (n / 10) + n % 10 := (Nat.div_add_mod n 10).symm
      generalize 10 ^ ds.length = p
      generalize digitsValue ds = v
      generalize n / 10 = q at *
      generalize n % 10 = m at *
      subst hn10
      ring

theorem repr_spec (n : Nat) :
    (∀ c ∈ (toString n).data, c.isDigit = true)
      ∧ digitsValue (toString n).data = n
      ∧ (toString n).data ≠ [] := by
  have h := toDigitsCore_spec (n + 1) n [] (Nat.lt_succ_self n) (by simp)
  have hdata : (toString n).data = Nat.toDigitsCore 10 (n + 1) n [] := rfl
  rw [hdata]
  refine ⟨h.1, ?_, h.2.2⟩
  rw [h.2.1]
  simp [digitsValue]


theorem number_format_two_data (rnd : ℚ → Nat → Nat) (a : ℚ) (ha : 0 ≤ a) :
    (number_format rnd (PhpFloat.finite a) 2).data
      = (toString (rnd a 2 / 100)).data
        ++ ['.', Nat.digitChar (rnd a 2 % 100 / 10), Nat.digitChar (rnd a 2 % 100 % 10)] := by
  have hnot : ¬ a < 0 := not_lt.2 ha
  have hpad := padded_fraction (rnd a 2 % 100) (Nat.mod_lt _ (by decide))
  unfold number_format
  simp only [hnot, if_false, false_and]
  have h100 : (10 : Nat) ^ 2 = 100 := by decide
  have h20 : ¬ (2 : Nat) = 0 := by decide
  simp only [h100, h20, if_false, String.data_append, hpad]
  simp

/-- A non-negative finite amount renders as digits, a point and two digits; the value read
back is the rounded amount, `rnd a 2` hundredths. -/
theorem number_format_two_value (rnd : ℚ → Nat → Nat) (a : ℚ) (ha : 0 ≤ a) :
    twoFractionDigitsValue (number_format rnd (PhpFloat.finite a) 2)
      = some ((rnd a 2 : ℚ) / 100) := by
  obtain ⟨hall, hval, hne⟩ := repr_spec (rnd a 2 / 100)
  have hlt : rnd a 2 % 100 < 100 := Nat.mod_lt _ (by decide)
  have hd1 := digitChar_spec (rnd a 2 % 100 / 10) (by omega)
  have hd0 := digitChar_spec (rnd a 2 % 100 % 10) (by omega)
  unfold twoFractionDigitsValue
  rw [number_format_two_data rnd a ha]
  simp only [List.reverse_append, List.reverse_cons, List.reverse_nil, List.nil_append,
    List.cons_append, List.reverse_reverse]
  have hemp : (toString (rnd a 2 / 100)).data.reverse.isEmpty = false := by
    cases hrev : (toString (rnd a 2 / 100)).data.reverse with
    | nil => exact absurd (List.reverse_eq_nil_iff.1 hrev) hne
    | cons c rest => rfl
  have hallrev : (toString (rnd a 2 / 100)).data.reverse.all Char.isDigit = true := by
    rw [List.all_eq_true]
    intro c hc
    exact hall c (List.mem_reverse.1 hc)
  simp only [hemp, hallrev, hd1.1, hd0.1, Bool.not_false, Bool.and_self, if_true, hval]
  have hpair : digitsValue
      [Nat.digitChar (rnd a 2 % 100 / 10), Nat.digitChar (rnd a 2 % 100 % 10)]
      = rnd a 2 % 100 := by
    rw [digitsValue_cons, digitsValue_cons, hd1.2, hd0.2]
    simp only [List.length_cons, List.length_nil, digitsValue, List.foldl_nil]
    omega
  rw [hpair]
  congr 1
  have hsplit : rnd a 2 = 100 * (rnd a 2 / 100) + rnd a 2 % 100 := (Nat.div_add_mod _ 100).symm
  generalize rnd a 2 = n at hsplit ⊢
  have hq : (n : ℚ) = 100 * ((n / 100 : ℕ) : ℚ) + ((n % 100 : ℕ) : ℚ) := by
    exact_mod_cast hsplit
  rw [hq]
  ring

/-- A float that is not finite renders as "inf" or "nan", not as a decimal string. -/
theorem number_format_not_finite (rnd : ℚ → Nat → Nat) (amount : PhpFloat)
    (h : ∀ q, amount ≠ PhpFloat.finite q) :
    (number_format rnd amount 2 = "inf" ∨ number_format rnd amount 2 = "nan")
      ∧ twoFractionDigitsValue (number_format rnd amount 2) = none := by
  have hinf : twoFractionDigitsValue "inf" = none := by decide
  have hnan : twoFractionDigitsValue "nan" = none := by decide
  cases amount with
  | finite q => exact absurd rfl (h q)
  | inf => exact ⟨Or.inl rfl, hinf⟩
  | negInf => exact ⟨Or.inl rfl, hinf⟩
  | nan => exact ⟨Or.inr rfl, hnan⟩

theorem rounded_amount_pos (a : ℚ) (ha : 1 / 200 ≤ a) : 0 < roundHalfUp a 2 := by
  have h1 : (1 : ℤ) ≤ ⌊a * (10 : ℚ) ^ 2 + 1 / 2⌋ := by
    rw [Int.le_floor]
    push_cast
    linarith
  have h2 : Rat.floor (a * (10 : ℚ) ^ 2 + 1 / 2) = ⌊a * (10 : ℚ) ^ 2 + 1 / 2⌋ := rfl
  unfold roundHalfUp
  rw [h2]
  omega

theorem hundredths_pos_iff (n : Nat) : (0 : ℚ) < (n : ℚ) / 100 ↔ 0 < n := by
  constructor
  · intro h
    rcases Nat.eq_zero_or_pos n with h0 | h0
    · rw [h0] at h
      simp at h
    · exact h0
  · intro h
    have : (0 : ℚ) < (n : ℚ) := by exact_mod_cast h
    positivity

/-- What every validator leaves of a finite amount: it is above zero. -/
theorem finite_pos_of_not_le_zero (q : ℚ) (h : ¬ PhpFloat.finite q ≤ 0) : 0 < q := by
  rw [phpFloat_le_iff] at h
  by_contra hcon
  exact h (Or.inl ⟨q, rfl, by simpa using not_lt.1 hcon⟩)

theorem validateIndianPaymentParameters_pos (gw : OnopayIndiaGateway) (orderId : String)
    (amount : PhpFloat) (customerPhone : String)
    (h : validateIndianPaymentParameters gw orderId amount customerPhone = Except.ok ()) :
    ¬ amount ≤ 0 := by
  intro hle
  unfold validateIndianPaymentParameters at h
  split_ifs at h

theorem validateUPIParameters_pos (orderId : String) (amount : PhpFloat) (customerPhone : String)
    (h : validateUPIParameters orderId amount customerPhone = Except.ok ()) : ¬ amount ≤ 0 := by
  intro hle
  unfold validateUPIParameters at h
  split_ifs at h

theorem validateMandateParameters_pos (orderId : String) (amount : PhpFloat)
    (customerPhone bankAccount ifsc mandateType : String)
    (h : validateMandateParameters orderId amount customerPhone bankAccount ifsc mandateType
      = Except.ok ()) : ¬ amount ≤ 0 := by
  intro hle
  unfold validateMandateParameters at h
  split_ifs at h

/-- The reading of the amount field of a validated request: for a finite amount `q` it is
above zero and the field is the two-fraction-digit decimal of `rnd q 2` hundredths, which is
above zero exactly when the rounding is not zero, as it is under exact rounding once `q` is at
least 0.005; for an amount that is not finite the field is "inf" or "nan". -/
theorem validated_amount_rendering (rnd : ℚ → Nat → Nat) (amount : PhpFloat)
    (hvalid : ¬ amount ≤ 0) :
    (∀ q, amount = PhpFloat.finite q →
      0 < q
      ∧ twoFractionDigitsValue (number_format rnd amount 2) = some ((rnd q 2 : ℚ) / 100)
      ∧ ((0 : ℚ) < (rnd q 2 : ℚ) / 100 ↔ 0 < rnd q 2)
      ∧ (rnd q 2 = roundHalfUp q 2 → 1 / 200 ≤ q → (0 : ℚ) < (rnd q 2 : ℚ) / 100))
    ∧ ((∀ q, amount ≠ PhpFloat.finite q) →
      (number_format rnd amount 2 = "inf" ∨ number_format rnd amount 2 = "nan")
      ∧ twoFractionDigitsValue (number_format rnd amount 2) = none) := by
  constructor
  · intro q hq
    subst hq
    have hpos := finite_pos_of_not_le_zero q hvalid
    refine ⟨hpos, number_format_two_value rnd q (le_of_lt hpos), hundredths_pos_iff _, ?_⟩
    intro hrnd hbig
    rw [hundredths_pos_iff, hrnd]
    exact rounded_amount_pos q hbig
  · exact number_format_not_finite rnd amount

theorem upiRequestData_amount (H : String → String) (rnd : ℚ → Nat → Nat)
    (gw : OnopayIndiaGateway)
    (orderId : String) (amount : PhpFloat) (customerPhone redirectUrl description upiFlow : String) :
    arrayGet (upiRequestData H rnd gw orderId amount customerPhone redirectUrl description upiFlow)
        (key "amount") = PhpVal.str (number_format rnd amount 2) := by
  unfold upiRequestData
  rw [arrayGet_arraySet]
  rfl

theorem mandateRequestData_amount (H : String → String) (rnd : ℚ → Nat → Nat)
    (gw : OnopayIndiaGateway)
    (orderId : String) (amount : PhpFloat) (customerName customerEmail customerPhone bankAccount
      ifsc mandateType frequency startDate endDate : String) :
    arrayGet (mandateRequestData H rnd gw orderId amount customerName customerEmail customerPhone
        bankAccount ifsc mandateType frequency startDate endDate) (key "amount")
      = PhpVal.str (number_format rnd amount 2) := by
  unfold mandateRequestData
  rw [arrayGet_arraySet]
  rfl

theorem indianPaymentRequestData_amount (H : String → String) (rnd : ℚ → Nat → Nat)
    (gw : OnopayIndiaGateway)
    (orderId : String) (amount : PhpFloat) (customerName customerEmail customerPhone redirectUrl
      paymentMethod description : String) (additionalParams : PhpArray)
    (hfree : List.lookup (key "amount") additionalParams = none) :
    arrayGet (indianPaymentRequestData H rnd gw orderId amount customerName customerEmail
        customerPhone redirectUrl paymentMethod description additionalParams) (key "amount")
      = PhpVal.str (number_format rnd amount 2) := by
  unfold indianPaymentRequestData
  rw [arrayGet_arraySet]
  have hne : ¬ key "amount" = key "checksum" := by decide
  simp only [hne, if_false]
  unfold arrayGet
  rw [lookup_array_merge_of_absent _ _ _ hfree]
  by_cases hupi : paymentMethod = "upi"
  · simp only [hupi, if_true]; rfl
  · simp only [hupi, if_false]; rfl

/-- C15, as stated, fails in three ways.  `additionalParams` may set `amount`: with
`['amount' => 'abc']` the signed mapping of `initiateIndianPayment` carries `abc`, not a
decimal string.  The float `NAN` is neither at most zero nor above a threshold, passes
validation and is rendered "nan"; `INF` passes mandate validation and is rendered "inf".  And
an amount of one thousandth passes validation and is rendered "0.00", whose numeric value is
zero (exact rounding). -/
theorem amount_field_not_always_positive_decimal :
    validateIndianPaymentParameters sampleGateway "ORD1" 10 "9876543210" = Except.ok ()
    ∧ arrayGet (indianPaymentRequestData id roundHalfUp sampleGateway "ORD1" 10 "N"
          "e@shop.example" "9876543210" "https://shop.example/back" "card" "Payment for Order"
          [(key "amount", PhpVal.str "abc")]) (key "amount") = PhpVal.str "abc"
    ∧ twoFractionDigitsValue "abc" = none
    ∧ validateUPIParameters "ORD1" PhpFloat.nan "9876543210" = Except.ok ()
    ∧ arrayGet (upiRequestData id roundHalfUp sampleGateway "ORD1" PhpFloat.nan "9876543210"
          "https://shop.example/back" "UPI Payment" "collect") (key "amount")
        = PhpVal.str "nan"
    ∧ twoFractionDigitsValue "nan" = none
    ∧ validateMandateParameters "ORD1" PhpFloat.inf "9876543210" "123456" "HDFC0001234" "nach"
        = Except.ok ()
    ∧ arrayGet (mandateRequestData id roundHalfUp sampleGateway "ORD1" PhpFloat.inf "N"
          "e@shop.example" "9876543210" "123456" "HDFC0001234" "nach" "MONTHLY" "2026-01-01"
          "2027-01-01") (key "amount")
        = PhpVal.str "inf"
    ∧ twoFractionDigitsValue "inf" = none
    ∧ validateUPIParameters "ORD1" (PhpFloat.finite (1 / 1000)) "9876543210" = Except.ok ()
    ∧ arrayGet (upiRequestData id roundHalfUp sampleGateway "ORD1" (PhpFloat.finite (1 / 1000))
          "9876543210" "https://shop.example/back" "UPI Payment" "collect") (key "amount")
        = PhpVal.str "0.00"
    ∧ twoFractionDigitsValue "0.00" = some 0 := by
  refine ⟨?_, ?_, ?_, ?_, ?_, ?_, ?_, ?_, ?_, ?_, ?_, ?_⟩ <;> with_unfolding_all decide

/-- C15, amended: for every request that passes validation in `initiateUPIPayment` or
`createPaymentMandate`, and in `initiateIndianPayment` when `additionalParams` has no `amount`
key, the `amount` field of the signed mapping is `number_format` of the amount.  For a finite
amount `q` (then above zero) it is a decimal string with exactly two fraction digits whose
numeric value is the rounded amount, `rnd q 2` hundredths for the rounding `rnd` that
`number_format` applies; that value is strictly greater than zero exactly when the rounding is
not zero, and it is so under exact half-up rounding whenever the amount is at least 0.005.
For an amount that is not finite (`NAN`, `INF`) the field is "nan" or "inf", not a decimal
string. -/
theorem amount_field_two_fraction_digits (H : String → String) (rnd : ℚ → Nat → Nat)
    (gw : OnopayIndiaGateway)
    (transport : Nat → CurlResult) (json_decode : String → Option PhpArray)
    (orderId : String) (amount : PhpFloat) (customerName customerEmail customerPhone redirectUrl
      paymentMethod description upiFlow bankAccount ifsc mandateType frequency startDate
      endDate : String) (additionalParams : PhpArray) :
    ((validateIndianPaymentParameters gw orderId amount customerPhone = Except.ok () →
      List.lookup (key "amount") additionalParams = none →
      ∃ requestData,
        (initiateIndianPayment H rnd gw orderId amount customerName customerEmail customerPhone
            redirectUrl paymentMethod description additionalParams).2
          = [Event.renderPaymentForm gw.paymentInitiateUrl requestData]
        ∧ (additionalParams.any (fun p => isArray p.2) = false →
          initiateIndianPayment H rnd gw orderId amount customerName customerEmail customerPhone
              redirectUrl paymentMethod description additionalParams
            = (Except.ok (), [Event.renderPaymentForm gw.paymentInitiateUrl requestData]))
        ∧ arrayGet requestData (key "amount") = PhpVal.str (number_format rnd amount 2))
    ∧ (validateUPIParameters orderId amount customerPhone = Except.ok () →
      ∃ requestData,
        (initiateUPIPayment H rnd gw transport json_decode orderId amount customerPhone redirectUrl
            description upiFlow).2.head?
          = some (Event.curlExec gw.upiCollectUrl (some requestData) [])
        ∧ arrayGet requestData (key "amount") = PhpVal.str (number_format rnd amount 2))
    ∧ (validateMandateParameters orderId amount customerPhone bankAccount ifsc mandateType
        = Except.ok () →
      ∃ requestData,
        (createPaymentMandate H rnd gw transport json_decode orderId amount customerName
            customerEmail customerPhone bankAccount ifsc mandateType frequency startDate
            endDate).2.head?
          = some (Event.curlExec gw.mandateUrl (some requestData) [])
        ∧ arrayGet requestData (key "amount") = PhpVal.str (number_format rnd amount 2)))
    ∧ ((validateIndianPaymentParameters gw orderId amount customerPhone = Except.ok ()
        ∨ validateUPIParameters orderId amount customerPhone = Except.ok ()
        ∨ validateMandateParameters orderId amount customerPhone bankAccount ifsc mandateType
          = Except.ok ()) →
      (∀ q, amount = PhpFloat.finite q →
        0 < q
        ∧ twoFractionDigitsValue (number_format rnd amount 2) = some ((rnd q 2 : ℚ) / 100)
        ∧ ((0 : ℚ) < (rnd q 2 : ℚ) / 100 ↔ 0 < rnd q 2)
        ∧ (rnd q 2 = roundHalfUp q 2 → 1 / 200 ≤ q → (0 : ℚ) < (rnd q 2 : ℚ) / 100))
      ∧ ((∀ q, amount ≠ PhpFloat.finite q) →
        (number_format rnd amount 2 = "inf" ∨ number_format rnd amount 2 = "nan")
        ∧ twoFractionDigitsValue (number_format rnd amount 2) = none)) := by
  refine ⟨⟨?_, ?_, ?_⟩, ?_⟩
  · intro hvalid hfree
    exact ⟨_, (initiateIndianPayment_of_valid H rnd gw orderId amount customerName customerEmail
        customerPhone redirectUrl paymentMethod description additionalParams hvalid).1,
      (initiateIndianPayment_of_valid H rnd gw orderId amount customerName customerEmail
        customerPhone redirectUrl paymentMethod description additionalParams hvalid).2,
      indianPaymentRequestData_amount H rnd gw orderId amount customerName customerEmail
        customerPhone redirectUrl paymentMethod description additionalParams hfree⟩
  · intro hvalid
    refine ⟨upiRequestData H rnd gw orderId amount customerPhone redirectUrl description upiFlow,
      ?_, upiRequestData_amount H rnd gw orderId amount customerPhone redirectUrl description
        upiFlow⟩
    rw [initiateUPIPayment_events H rnd gw transport json_decode orderId amount customerPhone
      redirectUrl description upiFlow hvalid]
    exact executeCurlRequest_first_event _ _ _ _ _ _
  · intro hvalid
    refine ⟨mandateRequestData H rnd gw orderId amount customerName customerEmail customerPhone
      bankAccount ifsc mandateType frequency startDate endDate, ?_,
      mandateRequestData_amount H rnd gw orderId amount customerName customerEmail customerPhone
        bankAccount ifsc mandateType frequency startDate endDate⟩
    rw [createPaymentMandate_events H rnd gw transport json_decode orderId amount customerName
      customerEmail customerPhone bankAccount ifsc mandateType frequency startDate endDate
      hvalid]
    exact executeCurlRequest_first_event _ _ _ _ _ _
  · intro hvalid
    apply validated_amount_rendering
    rcases hvalid with h | h | h
    · exact validateIndianPaymentParameters_pos gw orderId amount customerPhone h
    · exact validateUPIParameters_pos orderId amount customerPhone h
    · exact validateMandateParameters_pos orderId amount customerPhone bankAccount ifsc
        mandateType h

/-- C15 amended, at a valid UPI request for 10.05 under exact rounding: the field is the
rendering of 10.05, read back as the rounded amount in hundredths, above zero. -/
theorem amount_field_two_fraction_digits_witness :
    validateUPIParameters "ORD1" (PhpFloat.finite (1005 / 100)) "9876543210" = Except.ok ()
    ∧ (1 : ℚ) / 200 ≤ 1005 / 100
    ∧ (∃ requestData,
        (initiateUPIPayment id roundHalfUp sampleGateway
            (fun _ => { response := "ok", error := "", httpCode := 200 }) (fun _ => none)
            "ORD1" (PhpFloat.finite (1005 / 100)) "9876543210" "https://shop.example/back"
            "UPI Payment" "collect").2.head?
          = some (Event.curlExec sampleGateway.upiCollectUrl (some requestData) [])
        ∧ arrayGet requestData (key "amount")
          = PhpVal.str (number_format roundHalfUp (PhpFloat.finite (1005 / 100)) 2))
    ∧ twoFractionDigitsValue (number_format roundHalfUp (PhpFloat.finite (1005 / 100)) 2)
        = some ((roundHalfUp (1005 / 100) 2 : ℚ) / 100)
    ∧ (0 : ℚ) < (roundHalfUp (1005 / 100) 2 : ℚ) / 100 := by
  have hvalid : validateUPIParameters "ORD1" (PhpFloat.finite (1005 / 100)) "9876543210"
      = Except.ok () := by
    with_unfolding_all decide
  have hbig : (1 : ℚ) / 200 ≤ 1005 / 100 := by norm_num
  have h := amount_field_two_fraction_digits id roundHalfUp sampleGateway
      (fun _ => { response := "ok", error := "", httpCode := 200 }) (fun _ => none)
      "ORD1" (PhpFloat.finite (1005 / 100)) "N" "e@shop.example" "9876543210"
      "https://shop.example/back" "upi" "UPI Payment" "collect" "123456" "HDFC0001234" "nach"
      "MONTHLY" "2026-01-01" "2027-01-01" []
  obtain ⟨_, h2, _, h4⟩ := (h.2 (Or.inr (Or.inl hvalid))).1 (1005 / 100) rfl
  exact ⟨hvalid, hbig, h.1.2.1 hvalid, h2, h4 rfl hbig⟩

end Onopay

namespace Auth

/-! ## Uniqueness of usernames and emails -/

theorem register_keeps_unique (users : List User) (clock : Clock) (userData : UserData)
    (hu : (users.map User.username).Nodup) (he : (users.map User.email).Nodup) :
    ((register users clock userData).2.map User.username).Nodup
      ∧ ((register users clock userData).2.map User.email).Nodup := by
  unfold register
  by_cases h1 : users.any (fun user => user.username == userData.username) = true
  · simp only [h1, if_true]
    exact ⟨hu, he⟩
  · by_cases h2 : users.any (fun user => user.email == userData.email) = true
    · simp only [h1, h2, if_true, Bool.false_eq_true, if_false]
      exact ⟨hu, he⟩
    · simp only [h1, h2, Bool.false_eq_true, if_false]
      simp only [List.any_eq_true, beq_iff_eq, not_exists, not_and] at h1 h2
      constructor
      · rw [List.map_append, List.nodup_append]
        refine ⟨hu, List.nodup_singleton _, ?_⟩
        intro a ha hb
        simp only [List.map_cons, List.map_nil, List.mem_singleton] at hb
        obtain ⟨u, hu1, hu2⟩ := List.mem_map.1 ha
        exact h1 u hu1 (hu2.trans hb)
      · rw [List.map_append, List.nodup_append]
        refine ⟨he, List.nodup_singleton _, ?_⟩
        intro a ha hb
        simp only [List.map_cons, List.map_nil, List.mem_singleton] at hb
        obtain ⟨u, hu1, hu2⟩ := List.mem_map.1 ha
        exact h2 u hu1 (hu2.trans hb)

theorem registerAll_keeps_unique (calls : List (Clock × UserData)) :
    ∀ users : List User, (users.map User.username).Nodup → (users.map User.email).Nodup →
      ((registerAll users calls).map User.username).Nodup
        ∧ ((registerAll users calls).map User.email).Nodup := by
  induction calls with
  | nil => intro users hu he; exact ⟨hu, he⟩
  | cons c more ih =>
    intro users hu he
    obtain ⟨clock, userData⟩ := c
    have hstep := register_keeps_unique users clock userData hu he
    exact ih _ hstep.1 hstep.2

/-- C20: starting from the empty `users` array, after every finite sequence of `register`
calls the stored usernames are pairwise different and so are the stored emails.  In any state,
a call whose username is already stored returns `success = false` with "Username already
exists"; otherwise a call whose email is already stored returns `success = false` with "Email
already registered"; both leave `users` unchanged.  Every other call returns `success = true`
and appends exactly one user, carrying the given username and email. -/
theorem register_uniqueness (calls : List (Clock × UserData)) (users : List User)
    (clock : Clock) (userData : UserData) :
    (((registerAll [] calls).map User.username).Nodup
      ∧ ((registerAll [] calls).map User.email).Nodup)
    ∧ ((∃ u ∈ users, u.username = userData.username) →
        register users clock userData
          = ({ success := false, message := "Username already exists" }, users))
    ∧ ((¬ ∃ u ∈ users, u.username = userData.username) →
        (∃ u ∈ users, u.email = userData.email) →
        register users clock userData
          = ({ success := false, message := "Email already registered" }, users))
    ∧ ((¬ ∃ u ∈ users, u.username = userData.username) →
        (¬ ∃ u ∈ users, u.email = userData.email) →
        ∃ user, register users clock userData
            = ({ success := true, message := "Registration successful" }, users ++ [user])
          ∧ user.username = userData.username ∧ user.email = userData.email
          ∧ user.rest = userData.rest ∧ user.id = clock.now
          ∧ user.createdAt = clock.iso) := by
  have hany : ∀ (f : User → Option String) (x : Option String),
      (users.any (fun user => f user == x) = true) ↔ ∃ u ∈ users, f u = x := by
    intro f x
    simp [List.any_eq_true]
  refine ⟨registerAll_keeps_unique calls [] List.nodup_nil List.nodup_nil, ?_, ?_, ?_⟩
  · intro h
    have h1 := (hany User.username userData.username).2 h
    unfold register
    simp only [h1, if_true]
  · intro hn h
    have h1 : ¬ users.any (fun user => user.username == userData.username) = true :=
      fun hh => hn ((hany User.username userData.username).1 hh)
    have h2 := (hany User.email userData.email).2 h
    unfold register
    simp only [h1, h2, if_true, Bool.false_eq_true, if_false]
  · intro hn1 hn2
    have h1 : ¬ users.any (fun user => user.username == userData.username) = true :=
      fun hh => hn1 ((hany User.username userData.username).1 hh)
    have h2 : ¬ users.any (fun user => user.email == userData.email) = true :=
      fun hh => hn2 ((hany User.email userData.email).1 hh)
    unfold register
    simp only [h1, h2, Bool.false_eq_true, if_false]
    exact ⟨_, rfl, rfl, rfl, rfl, rfl, rfl⟩

/-- C20 at a second registration that reuses the stored username. -/
theorem register_uniqueness_witness :
    (∃ u ∈ (registerAll []
          [({ now := "1", iso := "2026-01-01T00:00:00.000Z" },
            { username := some "ann", email := some "ann@x.example", rest := [] })]),
        u.username = some "ann")
    ∧ register
        (registerAll []
          [({ now := "1", iso := "2026-01-01T00:00:00.000Z" },
            { username := some "ann", email := some "ann@x.example", rest := [] })])
        { now := "2", iso := "2026-01-02T00:00:00.000Z" }
        { username := some "ann", email := some "other@x.example", rest := [] }
      = ({ success := false, message := "Username already exists" },
          registerAll []
            [({ now := "1", iso := "2026-01-01T00:00:00.000Z" },
              { username := some "ann", email := some "ann@x.example", rest := [] })]) :=
  ⟨by decide,
    (register_uniqueness []
      (registerAll []
        [({ now := "1", iso := "2026-01-01T00:00:00.000Z" },
          { username := some "ann", email := some "ann@x.example", rest := [] })])
      { now := "2", iso := "2026-01-02T00:00:00.000Z" }
      { username := some "ann", email := some "other@x.example", rest := [] }).2.1 (by decide)⟩

end Auth
